import Mathlib

/-!
# Verification of the 8-puzzle A* solver

A shallow embedding of the repository's Python sources
(`heuristics.py`, `puzzle_utils.py`, `solver.py`) together with proofs
of the specified properties.

A board is modelled as a list of rows of naturals (Python's tuple of
tuples of ints).  Machine integers do not overflow in any relevant
computation (all values are tiny), so `Nat`/`Int` are used directly.
-/

namespace EightPuzzle

/-- A board: Python's tuple-of-tuples of tile values. -/
abbrev Board := List (List Nat)

/-- `state[i][j]` — cell access.  The default `9` is never a tile value,
so out-of-range access (which would raise in Python) cannot be mistaken
for a real tile; all theorems assume well-formed boards where accesses
are in range. -/
def getCell (s : Board) (i j : Nat) : Nat := (s.getD i []).getD j 9

/-- `heuristics.GOAL`. -/
def GOAL : Board := [[0, 1, 2], [3, 4, 5], [6, 7, 8]]

/-- Row-major flattening of a board (the order Python's
`for row in state: for num in row:` visits cells). -/
def flatten (s : Board) : List Nat := s.flatten

/-- Well-formed board: a 3x3 grid whose cells are a permutation of 0..8.
This is the data-model invariant (`permutation of 0..8`). -/
def Valid (s : Board) : Prop :=
  s.length = 3 ∧ (∀ r ∈ s, r.length = 3) ∧ (flatten s).Perm (List.range 9)

instance (s : Board) : Decidable (Valid s) := by
  unfold Valid; infer_instance

/-- `puzzle_utils.find_blank`: first `(i, j)` (row-major) with
`state[i][j] == 0`; `none` when there is no blank (where Python would
fall off the loop and return `None`). -/
def find_blank (s : Board) : Option (Nat × Nat) :=
  (List.range 3).findSome? fun i =>
    (List.range 3).findSome? fun j =>
      if getCell s i j = 0 then some (i, j) else none

/-- Number of inversions of a list: pairs `i < j` with `l[i] > l[j]`
(the double loop in `is_solvable`). -/
def inversions : List Nat → Nat
  | [] => 0
  | x :: xs => xs.countP (fun y => decide (y < x)) + inversions xs

/-- `puzzle_utils.is_solvable`: flatten dropping the blank, count
inversions, solvable iff the count is even. -/
def is_solvable (s : Board) : Bool :=
  inversions ((flatten s).filter (fun n => decide (n ≠ 0))) % 2 == 0

/-- `heuristics.hamming`: number of non-blank tiles out of place
(`state[i][j] != 0` and `state[i][j] != i*3 + j`). -/
def hamming (s : Board) : Nat :=
  ((List.range 3).map fun i =>
    ((List.range 3).map fun j =>
      if getCell s i j ≠ 0 ∧ getCell s i j ≠ i * 3 + j then 1 else 0).sum).sum

/-- Manhattan contribution of the tile `t` sitting at cell `(i, j)`:
`abs(i - t // 3) + abs(j - t % 3)` (0 for the blank). -/
def tileDist (i j t : Nat) : Nat :=
  if t ≠ 0 then ((i : Int) - t / 3).natAbs + ((j : Int) - t % 3).natAbs else 0

/-- `heuristics.manhattan`: sum of taxicab distances of the non-blank
tiles to their goal cells. -/
def manhattan (s : Board) : Nat :=
  ((List.range 3).map fun i =>
    ((List.range 3).map fun j => tileDist i j (getCell s i j)).sum).sum

/-- `new_state[i][j] = v` on the nested-list representation
(the mutable copy Python builds before swapping). -/
def setCell (s : Board) (i j v : Nat) : Board :=
  s.set i ((s.getD i []).set j v)

/-- Swap the contents of cells `(i, j)` and `(ni, nj)`
(`new_state[i][j], new_state[ni][nj] = new_state[ni][nj], new_state[i][j]`). -/
def swapCells (s : Board) (i j ni nj : Nat) : Board :=
  setCell (setCell s i j (getCell s ni nj)) ni nj (getCell s i j)

/-- The four move directions of `get_neighbors`, in source order:
`(-1,0,'UP'), (1,0,'DOWN'), (0,-1,'LEFT'), (0,1,'RIGHT')`. -/
def moveList : List (Int × Int × String) :=
  [(-1, 0, "UP"), (1, 0, "DOWN"), (0, -1, "LEFT"), (0, 1, "RIGHT")]

/-- `puzzle_utils.get_neighbors`: for each in-bounds direction, the board
with the blank swapped into that direction, labelled by the move name.
When `find_blank` finds no blank Python would raise on unpacking `None`;
that case is modelled as the empty neighbor list and excluded by `Valid`
in every theorem. -/
def get_neighbors (s : Board) : List (Board × String) :=
  match find_blank s with
  | none => []
  | some (i, j) =>
    moveList.foldl
      (fun acc m =>
        let ni : Int := (i : Int) + m.1
        let nj : Int := (j : Int) + m.2.1
        if 0 ≤ ni ∧ ni < 3 ∧ 0 ≤ nj ∧ nj < 3 then
          acc ++ [(swapCells s i j ni.toNat nj.toNat, m.2.2)]
        else acc)
      []

/-- The coordinates of the cell the blank moves into for each move
label, as the spec describes the swap semantics (`UP` decreases the
row, `DOWN` increases it, `LEFT`/`RIGHT` adjust the column). -/
def moveTarget (i j : Nat) : String → Nat × Nat
  | "UP" => (i - 1, j)
  | "DOWN" => (i + 1, j)
  | "LEFT" => (i, j - 1)
  | "RIGHT" => (i, j + 1)
  | _ => (i, j)

/-! ## The search tree node (`solver.Node`) -/

/-- `solver.Node`: a search-tree node.  In every construction the solver
performs, `parent` and `move` are `None` together (the root) or both
present (a child), so the two shapes are modelled as two constructors;
`f` is a stored field (set to `g + h` by the constructor wrappers below,
as in Python's `__init__`). -/
inductive Node where
  | root (state : Board) (g h f : Nat)
  | child (state : Board) (parent : Node) (move : String) (g h f : Nat)
  deriving DecidableEq

def Node.state : Node → Board
  | .root s _ _ _ => s
  | .child s _ _ _ _ _ => s

def Node.parent : Node → Option Node
  | .root _ _ _ _ => none
  | .child _ p _ _ _ _ => some p

def Node.move : Node → Option String
  | .root _ _ _ _ => none
  | .child _ _ m _ _ _ => some m

def Node.g : Node → Nat
  | .root _ g _ _ => g
  | .child _ _ _ g _ _ => g

def Node.heur : Node → Nat
  | .root _ _ h _ => h
  | .child _ _ _ _ h _ => h

def Node.f : Node → Nat
  | .root _ _ _ f => f
  | .child _ _ _ _ _ f => f

/-- `Node.__lt__`: comparison by `f` only. -/
def Node.lt (a b : Node) : Bool := a.f < b.f

/-- The Python constructor `Node(state, None, None, g, h)`:
sets `f = g + h`. -/
def mkRoot (state : Board) (g h : Nat) : Node :=
  .root state g h (g + h)

/-- The Python constructor `Node(state, parent, move, g, h)` for a
non-root node: sets `f = g + h`. -/
def mkChild (state : Board) (parent : Node) (move : String) (g h : Nat) :
    Node :=
  .child state parent move g h (g + h)

/-! ## CPython's `heapq` on lists of nodes

Transcribed from CPython's `heapq.heappush` / `heappop` /
`_siftdown` / `_siftup`, with the element comparison `Node.lt`
(Python's `Node.__lt__`). -/

/-- Placeholder for out-of-range list reads; every read in a reachable
call is in range. -/
def dummyNode : Node := .root [] 0 0 0

def getN (l : List Node) (i : Nat) : Node := l.getD i dummyNode

/-- The `while pos > startpos` loop of `heapq._siftdown`, with `newitem`
already read out of `heap[pos]`.  The first argument is structural fuel;
`pos` strictly decreases on every iteration, so fuel `pos` (what
`siftdown` passes) always suffices and the fuel-out branch is
unreachable. -/
def siftdownLoop : Nat → List Node → Nat → Nat → Node → List Node
  | 0, heap, _, pos, newitem => heap.set pos newitem
  | fuel + 1, heap, startpos, pos, newitem =>
    if startpos < pos then
      let parentpos := (pos - 1) / 2
      let parent := getN heap parentpos
      if Node.lt newitem parent then
        siftdownLoop fuel (heap.set pos parent) startpos parentpos newitem
      else heap.set pos newitem
    else heap.set pos newitem

/-- `heapq._siftdown(heap, startpos, pos)`. -/
def siftdown (heap : List Node) (startpos pos : Nat) : List Node :=
  siftdownLoop pos heap startpos pos (getN heap pos)

/-- `heapq.heappush`: append then sift the new last element down toward
the root. -/
def heappush (heap : List Node) (item : Node) : List Node :=
  siftdown (heap ++ [item]) 0 heap.length

/-- The `while childpos < endpos` loop of `heapq._siftup`: bubble the
smaller child up into the hole at `pos`, returning the final heap and
hole position.  The first argument is structural fuel; `pos` strictly
increases and stays below `endpos`, so fuel `endpos` (what `siftup`
passes) always suffices. -/
def siftupLoop : Nat → List Node → Nat → Nat → List Node × Nat
  | 0, heap, pos, _ => (heap, pos)
  | fuel + 1, heap, pos, endpos =>
    let childpos := 2 * pos + 1
    if childpos < endpos then
      let rightpos := childpos + 1
      let childpos :=
        if rightpos < endpos ∧ ¬ Node.lt (getN heap childpos) (getN heap rightpos) then
          rightpos
        else childpos
      siftupLoop fuel (heap.set pos (getN heap childpos)) childpos endpos
    else (heap, pos)

/-- `heapq._siftup(heap, pos)`: move the hole to a leaf, drop `newitem`
in, then sift it back down toward the root. -/
def siftup (heap : List Node) (pos : Nat) : List Node :=
  let newitem := getN heap pos
  let hp := siftupLoop heap.length heap pos heap.length
  siftdown (hp.1.set hp.2 newitem) pos hp.2

/-- `heapq.heappop`: `none` on an empty heap (Python raises
`IndexError`); otherwise the root together with the reheapified rest. -/
def heappop (heap : List Node) : Option (Node × List Node) :=
  match heap.getLast? with
  | none => none
  | some lastelt =>
    let rest := heap.dropLast
    if rest.isEmpty then some (lastelt, rest)
    else some (getN rest 0, siftup (rest.set 0 lastelt) 0)

/-! ## The A* engine (`solver.solve`) -/

/-- First-match lookup in the association-list model of the Python dict
`best_cost` (entries are prepended, so the first match is the most
recent write). -/
def lookupBC : List (Board × Nat) → Board → Option Nat
  | [], _ => none
  | (k, v) :: rest, b => if k = b then some v else lookupBC rest b

/-- `best_cost[b] = v` (dict overwrite, modelled by prepending). -/
def insertBC (bc : List (Board × Nat)) (b : Board) (v : Nat) :
    List (Board × Nat) :=
  (b, v) :: bc

/-- `next_state in best_cost and best_cost[next_state] <= new_g`. -/
def dominatedBC (bc : List (Board × Nat)) (b : Board) (g : Nat) : Bool :=
  match lookupBC bc b with
  | some v => v ≤ g
  | none => false

/-- The backwards move collection of the `while node.parent` loop in
`solve`'s path reconstruction (before the final `reverse`). -/
def collectMoves : Node → List String
  | .root _ _ _ _ => []
  | .child _ p m _ _ _ => m :: collectMoves p

/-- The `for next_state, move in get_neighbors(...)` body: skip explored
or cost-dominated neighbors, otherwise record the new best cost and push
a fresh node.  Folds over the neighbor list carrying
`(frontier, best_cost)`. -/
def expandFold (hf : Board → Nat) (current : Node) (explored : List Board) :
    List (Board × String) → List Node × List (Board × Nat) →
    List Node × List (Board × Nat)
  | [], acc => acc
  | (next_state, move) :: rest, (frontier, bc) =>
    if next_state ∈ explored then
      expandFold hf current explored rest (frontier, bc)
    else
      let new_g := current.g + 1
      if dominatedBC bc next_state new_g then
        expandFold hf current explored rest (frontier, bc)
      else
        let bc2 := insertBC bc next_state new_g
        let nd := mkChild next_state current move new_g (hf next_state)
        expandFold hf current explored rest (heappush frontier nd, bc2)

/-- The `while frontier` loop of `solve`, with explicit fuel.  The outer
`none` means the fuel ran out (the theorems below show a sufficient fuel
bound, so this marker never surfaces for well-formed inputs); `some none`
is the `return None` falling out of the loop; `some (some r)` is a
solved result `(path, nodes_expanded, elapsed)`. -/
def astarLoop (hf : Board → Nat) (t1 t2 : ℤ) :
    Nat → List Node → List Board → List (Board × Nat) → Nat →
    Option (Option (List String × Nat × ℤ))
  | 0, _, _, _, _ => none
  | fuel + 1, frontier, explored, bc, nodes_expanded =>
    match heappop frontier with
    | none => some none
    | some (current, frontier2) =>
      if current.state ∈ explored then
        astarLoop hf t1 t2 fuel frontier2 explored bc nodes_expanded
      else
        let explored2 := explored ++ [current.state]
        let ne2 := nodes_expanded + 1
        if current.state = GOAL then
          some (some ((collectMoves current).reverse, ne2, t2 - t1))
        else
          let fb := expandFold hf current explored2 (get_neighbors current.state)
            (frontier2, bc)
          astarLoop hf t1 t2 fuel fb.1 explored2 fb.2 ne2

/-- Fuel that the termination theorem shows is never exhausted. -/
def SOLVE_FUEL : Nat := Nat.factorial 9 * Nat.factorial 9

/-- `solver.solve`.  The two `time.time()` readings (before the search
and at the goal) are the explicit clock parameters `t1`, `t2`; the
returned elapsed time is `t2 - t1` (`0` on the trivial path, where
Python returns the literal `0.0` without reading the clock). -/
def solve (start : Board) (heuristic : String) (t1 t2 : ℤ) :
    Option (List String × Nat × ℤ) :=
  if is_solvable start = false then none
  else if start = GOAL then some ([], 0, 0)
  else
    let h_func := if heuristic = "manhattan" then manhattan else hamming
    let start_node := mkRoot start 0 (h_func start)
    match astarLoop h_func t1 t2 SOLVE_FUEL [start_node] [] [(start, 0)] 0 with
    | none => none
    | some r => r

/-- Weight 1 on the boundary rows/columns (0 and 2), 0 on the middle:
the per-axis potential used to bound the total Manhattan distance. -/
def rim (n : Nat) : Nat := if n = 0 ∨ n = 2 then 1 else 0

/-- Sum over the elements of `l1` of how many elements of `l2` are
smaller: the cross-pair inversion count of a concatenation. -/
def crossInv (l1 l2 : List Nat) : Nat :=
  (l1.map fun x => l2.countP (fun y => decide (y < x))).sum

/-- The board reached from `b` by the move labelled `m`: the first
neighbor of `b` carrying that label (labels are distinct), `none` when
no neighbor has the label. -/
def applyMove (b : Board) (m : String) : Option Board :=
  ((get_neighbors b).find? (fun q => q.2 == m)).map Prod.fst

/-- Apply a move sequence from left to right, failing if any move is
not available. -/
def applyMoves (b : Board) (ms : List String) : Option Board :=
  ms.foldl (fun ob m => ob.bind (fun c => applyMove c m)) (some b)

/-- The parent chain of a node is rooted at `start` and every link is a
real move edge of the neighbor relation. -/
def NodeOK (start : Board) : Node → Prop
  | .root s _ _ _ => s = start
  | .child s p m _ _ _ => NodeOK start p ∧ applyMove p.state m = some s

/-- One-step edges of the puzzle graph: `y` is a neighbor of `x`.
`Reaches` is its reflexive-transitive closure (legal-move reachability). -/
def Reaches (b1 b2 : Board) : Prop :=
  Relation.ReflTransGen (fun x y => ∃ m, (y, m) ∈ get_neighbors x) b1 b2

def tileAt (B : Board) (t : Nat) : Nat := (flatten B).getD t 9

def mapB (g : Nat → Nat) (Y : Board) : Board := Y.map (fun row => row.map g)

def boardOfFlat (l : List Nat) : Board :=
  [[l.getD 0 9, l.getD 1 9, l.getD 2 9],
   [l.getD 3 9, l.getD 4 9, l.getD 5 9],
   [l.getD 6 9, l.getD 7 9, l.getD 8 9]]

def rotFun (a b c i : Nat) : Nat :=
  if i = a then c else if i = b then a else if i = c then b else i

def rotBoard (a b c : Nat) : Board :=
  boardOfFlat ((List.range 9).map (rotFun a b c))
def certTable : List (Nat × Nat × Nat × List String) := [
  (1, 2, 3, ["RIGHT", "RIGHT", "DOWN", "LEFT", "UP", "LEFT", "DOWN", "RIGHT", "RIGHT", "UP", "LEFT", "LEFT"]),
  (1, 2, 4, ["DOWN", "DOWN", "RIGHT", "RIGHT", "UP", "UP", "LEFT", "DOWN", "RIGHT", "DOWN", "LEFT", "LEFT", "UP", "UP"]),
  (1, 2, 5, ["DOWN", "RIGHT", "RIGHT", "UP", "LEFT", "DOWN", "LEFT", "UP"]),
  (1, 2, 6, ["RIGHT", "RIGHT", "DOWN", "LEFT", "LEFT", "DOWN", "RIGHT", "UP", "UP", "LEFT", "DOWN", "RIGHT", "DOWN", "LEFT", "UP", "RIGHT", "RIGHT", "UP", "LEFT", "LEFT"]),
  (1, 2, 7, ["DOWN", "RIGHT", "DOWN", "RIGHT", "UP", "UP", "LEFT", "DOWN", "RIGHT", "DOWN", "LEFT", "UP", "LEFT", "UP"]),
  (1, 2, 8, ["DOWN", "RIGHT", "RIGHT", "DOWN", "LEFT", "UP", "RIGHT", "UP", "LEFT", "DOWN", "DOWN", "RIGHT", "UP", "LEFT", "LEFT", "UP"]),
  (1, 3, 2, ["RIGHT", "RIGHT", "DOWN", "LEFT", "LEFT", "UP", "RIGHT", "DOWN", "RIGHT", "UP", "LEFT", "LEFT"]),
  (1, 3, 4, ["RIGHT", "DOWN", "LEFT", "UP"]),
  (1, 3, 5, ["RIGHT", "DOWN", "RIGHT", "UP", "LEFT", "DOWN", "LEFT", "UP", "RIGHT", "RIGHT", "DOWN", "LEFT", "UP", "LEFT"]),
  (1, 3, 6, ["DOWN", "DOWN", "RIGHT", "UP", "LEFT", "UP", "RIGHT", "DOWN", "DOWN", "LEFT", "UP", "UP"]),
  (1, 3, 7, ["DOWN", "RIGHT", "DOWN", "LEFT", "UP", "UP", "RIGHT", "DOWN", "LEFT", "DOWN", "RIGHT", "UP", "LEFT", "UP"]),
  (1, 3, 8, ["RIGHT", "DOWN", "LEFT", "DOWN", "RIGHT", "UP", "UP", "RIGHT", "DOWN", "DOWN", "LEFT", "UP", "RIGHT", "UP", "LEFT", "DOWN", "DOWN", "LEFT", "UP", "UP"]),
  (1, 4, 2, ["DOWN", "DOWN", "RIGHT", "RIGHT", "UP", "LEFT", "UP", "RIGHT", "DOWN", "DOWN", "LEFT", "LEFT", "UP", "UP"]),
  (1, 4, 3, ["DOWN", "RIGHT", "UP", "LEFT"]),
  (1, 4, 5, ["DOWN", "RIGHT", "RIGHT", "UP", "LEFT", "DOWN", "LEFT", "UP", "RIGHT", "RIGHT", "DOWN", "LEFT", "UP", "LEFT"]),
  (1, 4, 6, ["DOWN", "RIGHT", "UP", "LEFT", "DOWN", "DOWN", "RIGHT", "UP", "LEFT", "UP", "RIGHT", "DOWN", "DOWN", "LEFT", "UP", "UP"]),
  (1, 4, 7, ["RIGHT", "DOWN", "DOWN", "LEFT", "UP", "RIGHT", "UP", "LEFT", "DOWN", "DOWN", "RIGHT", "UP", "UP", "LEFT"]),
  (1, 4, 8, ["DOWN", "DOWN", "RIGHT", "UP", "UP", "RIGHT", "DOWN", "DOWN", "LEFT", "UP", "RIGHT", "UP", "LEFT", "DOWN", "DOWN", "LEFT", "UP", "UP"]),
  (1, 5, 2, ["DOWN", "RIGHT", "UP", "RIGHT", "DOWN", "LEFT", "LEFT", "UP"]),
  (1, 5, 3, ["RIGHT", "DOWN", "RIGHT", "UP", "LEFT", "LEFT", "DOWN", "RIGHT", "UP", "RIGHT", "DOWN", "LEFT", "UP", "LEFT"]),
  (1, 5, 4, ["RIGHT", "DOWN", "RIGHT", "UP", "LEFT", "LEFT", "DOWN", "RIGHT", "UP", "RIGHT", "DOWN", "LEFT", "LEFT", "UP"]),
  (1, 5, 6, ["DOWN", "RIGHT", "RIGHT", "DOWN", "LEFT", "UP", "UP", "LEFT", "DOWN", "DOWN", "RIGHT", "RIGHT", "UP", "LEFT", "UP", "LEFT", "DOWN", "RIGHT", "UP", "LEFT"]),
  (1, 5, 7, ["DOWN", "RIGHT", "UP", "RIGHT", "DOWN", "LEFT", "DOWN", "RIGHT", "UP", "UP", "LEFT", "DOWN", "RIGHT", "DOWN", "LEFT", "UP", "LEFT", "UP"]),
  (1, 5, 8, ["DOWN", "RIGHT", "UP", "LEFT", "DOWN", "DOWN", "RIGHT", "RIGHT", "UP", "LEFT", "DOWN", "LEFT", "UP", "UP", "RIGHT", "DOWN", "LEFT", "UP"]),
  (1, 6, 2, ["RIGHT", "RIGHT", "DOWN", "LEFT", "LEFT", "DOWN", "RIGHT", "UP", "LEFT", "UP", "RIGHT", "DOWN", "DOWN", "LEFT", "UP", "RIGHT", "RIGHT", "UP", "LEFT", "LEFT"]),
  (1, 6, 3, ["DOWN", "DOWN", "RIGHT", "UP", "UP", "LEFT", "DOWN", "RIGHT", "DOWN", "LEFT", "UP", "UP"]),
  (1, 6, 4, ["DOWN", "DOWN", "RIGHT", "UP", "UP", "LEFT", "DOWN", "RIGHT", "DOWN", "LEFT", "UP", "UP", "RIGHT", "DOWN", "LEFT", "UP"]),
  (1, 6, 5, ["DOWN", "RIGHT", "UP", "LEFT", "DOWN", "RIGHT", "RIGHT", "DOWN", "LEFT", "LEFT", "UP", "UP", "RIGHT", "DOWN", "DOWN", "RIGHT", "UP", "LEFT", "LEFT", "UP"]),
  (1, 6, 7, ["DOWN", "RIGHT", "UP", "LEFT", "DOWN", "RIGHT", "DOWN", "LEFT", "UP", "UP", "RIGHT", "DOWN", "LEFT", "UP"]),
  (1, 6, 8, ["DOWN", "RIGHT", "UP", "LEFT", "DOWN", "RIGHT", "DOWN", "LEFT", "UP", "UP", "RIGHT", "RIGHT", "DOWN", "DOWN", "LEFT", "UP", "RIGHT", "UP", "LEFT", "DOWN", "LEFT", "UP"]),
  (1, 7, 2, ["DOWN", "RIGHT", "DOWN", "RIGHT", "UP", "LEFT", "UP", "RIGHT", "DOWN", "DOWN", "LEFT", "UP", "LEFT", "UP"]),
  (1, 7, 3, ["DOWN", "RIGHT", "DOWN", "LEFT", "UP", "RIGHT", "UP", "LEFT", "DOWN", "DOWN", "RIGHT", "UP", "LEFT", "UP"]),
  (1, 7, 4, ["RIGHT", "DOWN", "DOWN", "LEFT", "UP", "UP", "RIGHT", "DOWN", "LEFT", "DOWN", "RIGHT", "UP", "UP", "LEFT"]),
  (1, 7, 5, ["DOWN", "RIGHT", "DOWN", "RIGHT", "UP", "LEFT", "UP", "RIGHT", "DOWN", "DOWN", "LEFT", "UP", "RIGHT", "UP", "LEFT", "DOWN", "LEFT", "UP"]),
  (1, 7, 6, ["DOWN", "RIGHT", "UP", "LEFT", "DOWN", "DOWN", "RIGHT", "UP", "UP", "LEFT", "DOWN", "RIGHT", "UP", "LEFT"]),
  (1, 7, 8, ["DOWN", "RIGHT", "UP", "RIGHT", "DOWN", "DOWN", "LEFT", "UP", "RIGHT", "UP", "LEFT", "DOWN", "LEFT", "UP"]),
  (1, 8, 2, ["DOWN", "RIGHT", "RIGHT", "DOWN", "LEFT", "UP", "UP", "RIGHT", "DOWN", "LEFT", "DOWN", "RIGHT", "UP", "LEFT", "LEFT", "UP"]),
  (1, 8, 3, ["DOWN", "DOWN", "RIGHT", "UP", "UP", "RIGHT", "DOWN", "DOWN", "LEFT", "UP", "RIGHT", "DOWN", "LEFT", "LEFT", "UP", "RIGHT", "RIGHT", "UP", "LEFT", "LEFT"]),
  (1, 8, 4, ["DOWN", "DOWN", "RIGHT", "UP", "UP", "RIGHT", "DOWN", "LEFT", "DOWN", "RIGHT", "UP", "UP", "LEFT", "DOWN", "DOWN", "LEFT", "UP", "UP"]),
  (1, 8, 5, ["DOWN", "RIGHT", "UP", "LEFT", "DOWN", "DOWN", "RIGHT", "UP", "RIGHT", "DOWN", "LEFT", "LEFT", "UP", "UP", "RIGHT", "DOWN", "LEFT", "UP"]),
  (1, 8, 6, ["DOWN", "DOWN", "RIGHT", "UP", "UP", "RIGHT", "DOWN", "LEFT", "LEFT", "DOWN", "RIGHT", "RIGHT", "UP", "UP", "LEFT", "DOWN", "LEFT", "DOWN", "RIGHT", "UP", "LEFT", "UP"]),
  (1, 8, 7, ["DOWN", "RIGHT", "UP", "RIGHT", "DOWN", "LEFT", "DOWN", "RIGHT", "UP", "UP", "LEFT", "DOWN", "LEFT", "UP"]),
  (2, 1, 3, ["RIGHT", "RIGHT", "DOWN", "LEFT", "LEFT", "UP", "RIGHT", "DOWN", "RIGHT", "UP", "LEFT", "LEFT"]),
  (2, 1, 4, ["DOWN", "DOWN", "RIGHT", "RIGHT", "UP", "LEFT", "UP", "RIGHT", "DOWN", "DOWN", "LEFT", "LEFT", "UP", "UP"]),
  (2, 1, 5, ["DOWN", "RIGHT", "UP", "RIGHT", "DOWN", "LEFT", "LEFT", "UP"]),
  (2, 1, 6, ["RIGHT", "RIGHT", "DOWN", "LEFT", "LEFT", "DOWN", "RIGHT", "UP", "LEFT", "UP", "RIGHT", "DOWN", "DOWN", "LEFT", "UP", "RIGHT", "RIGHT", "UP", "LEFT", "LEFT"]),
  (2, 1, 7, ["DOWN", "RIGHT", "DOWN", "RIGHT", "UP", "LEFT", "UP", "RIGHT", "DOWN", "DOWN", "LEFT", "UP", "LEFT", "UP"]),
  (2, 1, 8, ["DOWN", "RIGHT", "RIGHT", "DOWN", "LEFT", "UP", "UP", "RIGHT", "DOWN", "LEFT", "DOWN", "RIGHT", "UP", "LEFT", "LEFT", "UP"]),
  (2, 3, 1, ["RIGHT", "RIGHT", "DOWN", "LEFT", "UP", "LEFT", "DOWN", "RIGHT", "RIGHT", "UP", "LEFT", "LEFT"]),
  (2, 3, 4, ["DOWN", "RIGHT", "UP", "RIGHT", "DOWN", "LEFT", "LEFT", "UP", "RIGHT", "DOWN", "RIGHT", "UP", "LEFT", "DOWN", "LEFT", "UP"]),
  (2, 3, 5, ["RIGHT", "DOWN", "LEFT", "UP", "RIGHT", "RIGHT", "DOWN", "LEFT", "UP", "LEFT", "DOWN", "RIGHT", "UP", "LEFT"]),
  (2, 3, 6, ["DOWN", "DOWN", "RIGHT", "UP", "UP", "RIGHT", "DOWN", "LEFT", "LEFT", "UP", "RIGHT", "DOWN", "RIGHT", "UP", "LEFT", "DOWN", "DOWN", "LEFT", "UP", "UP"]),
  (2, 3, 7, ["RIGHT", "DOWN", "DOWN", "RIGHT", "UP", "LEFT", "LEFT", "UP", "RIGHT", "RIGHT", "DOWN", "DOWN", "LEFT", "UP", "UP", "LEFT", "DOWN", "RIGHT", "UP", "LEFT"]),
  (2, 3, 8, ["RIGHT", "DOWN", "LEFT", "DOWN", "RIGHT", "UP", "RIGHT", "UP", "LEFT", "DOWN", "RIGHT", "DOWN", "LEFT", "LEFT", "UP", "RIGHT", "UP", "RIGHT", "DOWN", "LEFT", "UP", "LEFT"]),
  (2, 4, 1, ["DOWN", "DOWN", "RIGHT", "RIGHT", "UP", "UP", "LEFT", "DOWN", "RIGHT", "DOWN", "LEFT", "LEFT", "UP", "UP"]),
  (2, 4, 3, ["DOWN", "RIGHT", "UP", "RIGHT", "DOWN", "LEFT", "UP", "LEFT", "DOWN", "RIGHT", "RIGHT", "UP", "LEFT", "DOWN", "LEFT", "UP"]),
  (2, 4, 5, ["RIGHT", "RIGHT", "DOWN", "LEFT", "UP", "LEFT"]),
  (2, 4, 6, ["DOWN", "DOWN", "RIGHT", "UP", "LEFT", "DOWN", "RIGHT", "RIGHT", "UP", "LEFT", "LEFT", "UP", "RIGHT", "RIGHT", "DOWN", "DOWN", "LEFT", "UP", "UP", "LEFT"]),
  (2, 4, 7, ["RIGHT", "DOWN", "DOWN", "RIGHT", "UP", "LEFT", "UP", "RIGHT", "DOWN", "DOWN", "LEFT", "UP", "UP", "LEFT"]),
  (2, 4, 8, ["DOWN", "DOWN", "RIGHT", "UP", "RIGHT", "DOWN", "LEFT", "LEFT", "UP", "UP", "RIGHT", "RIGHT", "DOWN", "LEFT", "UP", "LEFT"]),
  (2, 5, 1, ["DOWN", "RIGHT", "RIGHT", "UP", "LEFT", "DOWN", "LEFT", "UP"]),
  (2, 5, 3, ["DOWN", "RIGHT", "UP", "LEFT", "DOWN", "RIGHT", "RIGHT", "UP", "LEFT", "LEFT", "DOWN", "RIGHT", "UP", "LEFT"]),
  (2, 5, 4, ["RIGHT", "DOWN", "RIGHT", "UP", "LEFT", "LEFT"]),
  (2, 5, 6, ["DOWN", "DOWN", "RIGHT", "UP", "LEFT", "UP", "RIGHT", "DOWN", "RIGHT", "UP", "LEFT", "LEFT", "DOWN", "RIGHT", "DOWN", "LEFT", "UP", "UP"]),
  (2, 5, 7, ["DOWN", "RIGHT", "DOWN", "LEFT", "UP", "UP", "RIGHT", "DOWN", "RIGHT", "UP", "LEFT", "LEFT", "DOWN", "DOWN", "RIGHT", "UP", "LEFT", "UP"]),
  (2, 5, 8, ["DOWN", "DOWN", "RIGHT", "RIGHT", "UP", "LEFT", "DOWN", "LEFT", "UP", "UP", "RIGHT", "DOWN", "RIGHT", "UP", "LEFT", "LEFT"]),
  (2, 6, 1, ["RIGHT", "RIGHT", "DOWN", "LEFT", "LEFT", "DOWN", "RIGHT", "UP", "UP", "LEFT", "DOWN", "RIGHT", "DOWN", "LEFT", "UP", "RIGHT", "RIGHT", "UP", "LEFT", "LEFT"]),
  (2, 6, 3, ["DOWN", "DOWN", "RIGHT", "UP", "UP", "RIGHT", "DOWN", "LEFT", "UP", "LEFT", "DOWN", "RIGHT", "RIGHT", "UP", "LEFT", "DOWN", "DOWN", "LEFT", "UP", "UP"]),
  (2, 6, 4, ["RIGHT", "DOWN", "DOWN", "RIGHT", "UP", "UP", "LEFT", "DOWN", "RIGHT", "DOWN", "LEFT", "UP", "UP", "LEFT", "DOWN", "DOWN", "RIGHT", "UP", "LEFT", "UP"]),
  (2, 6, 5, ["DOWN", "DOWN", "RIGHT", "UP", "LEFT", "UP", "RIGHT", "RIGHT", "DOWN", "LEFT", "UP", "LEFT", "DOWN", "RIGHT", "DOWN", "LEFT", "UP", "UP"]),
  (2, 6, 7, ["RIGHT", "RIGHT", "DOWN", "LEFT", "UP", "LEFT", "DOWN", "RIGHT", "DOWN", "LEFT", "UP", "UP", "RIGHT", "DOWN", "RIGHT", "UP", "LEFT", "LEFT"]),
  (2, 6, 8, ["DOWN", "RIGHT", "DOWN", "LEFT", "UP", "RIGHT", "RIGHT", "UP", "LEFT", "DOWN", "RIGHT", "DOWN", "LEFT", "UP", "UP", "RIGHT", "DOWN", "LEFT", "LEFT", "DOWN", "RIGHT", "UP", "LEFT", "UP"]),
  (2, 7, 1, ["DOWN", "RIGHT", "DOWN", "RIGHT", "UP", "UP", "LEFT", "DOWN", "RIGHT", "DOWN", "LEFT", "UP", "LEFT", "UP"]),
  (2, 7, 3, ["DOWN", "RIGHT", "UP", "LEFT", "DOWN", "RIGHT", "DOWN", "RIGHT", "UP", "UP", "LEFT", "LEFT", "DOWN", "RIGHT", "RIGHT", "DOWN", "LEFT", "UP", "UP", "LEFT"]),
  (2, 7, 4, ["RIGHT", "DOWN", "DOWN", "RIGHT", "UP", "UP", "LEFT", "DOWN", "RIGHT", "DOWN", "LEFT", "UP", "UP", "LEFT"]),
  (2, 7, 5, ["DOWN", "RIGHT", "DOWN", "LEFT", "UP", "UP", "RIGHT", "RIGHT", "DOWN", "LEFT", "UP", "LEFT", "DOWN", "DOWN", "RIGHT", "UP", "LEFT", "UP"]),
  (2, 7, 6, ["RIGHT", "RIGHT", "DOWN", "LEFT", "UP", "LEFT", "DOWN", "DOWN", "RIGHT", "UP", "LEFT", "UP", "RIGHT", "DOWN", "RIGHT", "UP", "LEFT", "LEFT"]),
  (2, 7, 8, ["DOWN", "RIGHT", "RIGHT", "UP", "LEFT", "DOWN", "RIGHT", "DOWN", "LEFT", "UP", "UP", "RIGHT", "DOWN", "LEFT", "LEFT", "UP"]),
  (2, 8, 1, ["DOWN", "RIGHT", "RIGHT", "DOWN", "LEFT", "UP", "RIGHT", "UP", "LEFT", "DOWN", "DOWN", "RIGHT", "UP", "LEFT", "LEFT", "UP"]),
  (2, 8, 3, ["DOWN", "RIGHT", "UP", "LEFT", "DOWN", "RIGHT", "RIGHT", "UP", "LEFT", "LEFT", "DOWN", "DOWN", "RIGHT", "RIGHT", "UP", "LEFT", "DOWN", "LEFT", "UP", "RIGHT", "UP", "LEFT"]),
  (2, 8, 4, ["RIGHT", "DOWN", "RIGHT", "UP", "LEFT", "LEFT", "DOWN", "DOWN", "RIGHT", "RIGHT", "UP", "LEFT", "DOWN", "LEFT", "UP", "UP"]),
  (2, 8, 5, ["RIGHT", "RIGHT", "DOWN", "DOWN", "LEFT", "UP", "UP", "RIGHT", "DOWN", "LEFT", "DOWN", "RIGHT", "UP", "UP", "LEFT", "LEFT"]),
  (2, 8, 6, ["DOWN", "DOWN", "RIGHT", "UP", "LEFT", "UP", "RIGHT", "DOWN", "RIGHT", "UP", "LEFT", "LEFT", "DOWN", "DOWN", "RIGHT", "RIGHT", "UP", "LEFT", "LEFT", "DOWN", "RIGHT", "UP", "LEFT", "UP"]),
  (2, 8, 7, ["DOWN", "RIGHT", "RIGHT", "UP", "LEFT", "DOWN", "DOWN", "RIGHT", "UP", "LEFT", "UP", "RIGHT", "DOWN", "LEFT", "LEFT", "UP"]),
  (3, 1, 2, ["RIGHT", "RIGHT", "DOWN", "LEFT", "UP", "LEFT", "DOWN", "RIGHT", "RIGHT", "UP", "LEFT", "LEFT"]),
  (3, 1, 4, ["DOWN", "RIGHT", "UP", "LEFT"]),
  (3, 1, 5, ["RIGHT", "DOWN", "RIGHT", "UP", "LEFT", "LEFT", "DOWN", "RIGHT", "UP", "RIGHT", "DOWN", "LEFT", "UP", "LEFT"]),
  (3, 1, 6, ["DOWN", "DOWN", "RIGHT", "UP", "UP", "LEFT", "DOWN", "RIGHT", "DOWN", "LEFT", "UP", "UP"]),
  (3, 1, 7, ["DOWN", "RIGHT", "DOWN", "LEFT", "UP", "RIGHT", "UP", "LEFT", "DOWN", "DOWN", "RIGHT", "UP", "LEFT", "UP"]),
  (3, 1, 8, ["DOWN", "DOWN", "RIGHT", "UP", "UP", "RIGHT", "DOWN", "DOWN", "LEFT", "UP", "RIGHT", "DOWN", "LEFT", "LEFT", "UP", "RIGHT", "RIGHT", "UP", "LEFT", "LEFT"]),
  (3, 2, 1, ["RIGHT", "RIGHT", "DOWN", "LEFT", "LEFT", "UP", "RIGHT", "DOWN", "RIGHT", "UP", "LEFT", "LEFT"]),
  (3, 2, 4, ["DOWN", "RIGHT", "UP", "RIGHT", "DOWN", "LEFT", "UP", "LEFT", "DOWN", "RIGHT", "RIGHT", "UP", "LEFT", "DOWN", "LEFT", "UP"]),
  (3, 2, 5, ["DOWN", "RIGHT", "UP", "LEFT", "DOWN", "RIGHT", "RIGHT", "UP", "LEFT", "LEFT", "DOWN", "RIGHT", "UP", "LEFT"]),
  (3, 2, 6, ["DOWN", "DOWN", "RIGHT", "UP", "UP", "RIGHT", "DOWN", "LEFT", "UP", "LEFT", "DOWN", "RIGHT", "RIGHT", "UP", "LEFT", "DOWN", "DOWN", "LEFT", "UP", "UP"]),
  (3, 2, 7, ["DOWN", "RIGHT", "UP", "LEFT", "DOWN", "RIGHT", "DOWN", "RIGHT", "UP", "UP", "LEFT", "LEFT", "DOWN", "RIGHT", "RIGHT", "DOWN", "LEFT", "UP", "UP", "LEFT"]),
  (3, 2, 8, ["DOWN", "RIGHT", "UP", "LEFT", "DOWN", "RIGHT", "RIGHT", "UP", "LEFT", "LEFT", "DOWN", "DOWN", "RIGHT", "RIGHT", "UP", "LEFT", "DOWN", "LEFT", "UP", "RIGHT", "UP", "LEFT"]),
  (3, 4, 1, ["RIGHT", "DOWN", "LEFT", "UP"]),
  (3, 4, 2, ["DOWN", "RIGHT", "UP", "RIGHT", "DOWN", "LEFT", "LEFT", "UP", "RIGHT", "DOWN", "RIGHT", "UP", "LEFT", "DOWN", "LEFT", "UP"]),
  (3, 4, 5, ["DOWN", "RIGHT", "RIGHT", "UP", "LEFT", "DOWN", "LEFT", "UP", "RIGHT", "RIGHT", "DOWN", "LEFT", "LEFT", "UP"]),
  (3, 4, 6, ["RIGHT", "DOWN", "LEFT", "DOWN", "RIGHT", "UP", "UP", "LEFT", "DOWN", "RIGHT", "DOWN", "LEFT", "UP", "UP"]),
  (3, 4, 7, ["RIGHT", "DOWN", "DOWN", "LEFT", "UP", "RIGHT", "UP", "LEFT", "DOWN", "DOWN", "RIGHT", "UP", "LEFT", "UP"]),
  (3, 4, 8, ["RIGHT", "RIGHT", "DOWN", "LEFT", "LEFT", "DOWN", "RIGHT", "RIGHT", "UP", "UP", "LEFT", "DOWN", "DOWN", "LEFT", "UP", "RIGHT", "UP", "LEFT"]),
  (3, 5, 1, ["RIGHT", "DOWN", "RIGHT", "UP", "LEFT", "DOWN", "LEFT", "UP", "RIGHT", "RIGHT", "DOWN", "LEFT", "UP", "LEFT"]),
  (3, 5, 2, ["RIGHT", "DOWN", "LEFT", "UP", "RIGHT", "RIGHT", "DOWN", "LEFT", "UP", "LEFT", "DOWN", "RIGHT", "UP", "LEFT"]),
  (3, 5, 4, ["DOWN", "RIGHT", "RIGHT", "UP", "LEFT", "LEFT", "DOWN", "RIGHT", "UP", "RIGHT", "DOWN", "LEFT", "LEFT", "UP"]),
  (3, 5, 6, ["RIGHT", "DOWN", "RIGHT", "DOWN", "LEFT", "UP", "LEFT", "DOWN", "RIGHT", "RIGHT", "UP", "LEFT", "UP", "LEFT"]),
  (3, 5, 7, ["RIGHT", "DOWN", "RIGHT", "DOWN", "LEFT", "UP", "LEFT", "DOWN", "RIGHT", "RIGHT", "UP", "LEFT", "DOWN", "LEFT", "UP", "RIGHT", "UP", "LEFT"]),
  (3, 5, 8, ["RIGHT", "DOWN", "LEFT", "DOWN", "RIGHT", "RIGHT", "UP", "LEFT", "DOWN", "LEFT", "UP", "RIGHT", "UP", "LEFT"]),
  (3, 6, 1, ["DOWN", "DOWN", "RIGHT", "UP", "LEFT", "UP", "RIGHT", "DOWN", "DOWN", "LEFT", "UP", "UP"]),
  (3, 6, 2, ["DOWN", "DOWN", "RIGHT", "UP", "UP", "RIGHT", "DOWN", "LEFT", "LEFT", "UP", "RIGHT", "DOWN", "RIGHT", "UP", "LEFT", "DOWN", "DOWN", "LEFT", "UP", "UP"]),
  (3, 6, 4, ["DOWN", "DOWN", "RIGHT", "UP", "LEFT", "UP", "RIGHT", "DOWN", "DOWN", "LEFT", "UP", "RIGHT", "UP", "LEFT"]),
  (3, 6, 5, ["RIGHT", "DOWN", "RIGHT", "DOWN", "LEFT", "LEFT", "UP", "RIGHT", "DOWN", "RIGHT", "UP", "LEFT", "UP", "LEFT"]),
  (3, 6, 7, ["RIGHT", "DOWN", "DOWN", "LEFT", "UP", "RIGHT", "UP", "LEFT"]),
  (3, 6, 8, ["RIGHT", "DOWN", "DOWN", "RIGHT", "UP", "LEFT", "DOWN", "LEFT", "UP", "RIGHT", "RIGHT", "DOWN", "LEFT", "UP", "UP", "LEFT"]),
  (3, 7, 1, ["DOWN", "RIGHT", "DOWN", "LEFT", "UP", "UP", "RIGHT", "DOWN", "LEFT", "DOWN", "RIGHT", "UP", "LEFT", "UP"]),
  (3, 7, 2, ["RIGHT", "DOWN", "DOWN", "RIGHT", "UP", "LEFT", "LEFT", "UP", "RIGHT", "RIGHT", "DOWN", "DOWN", "LEFT", "UP", "UP", "LEFT", "DOWN", "RIGHT", "UP", "LEFT"]),
  (3, 7, 4, ["DOWN", "RIGHT", "DOWN", "LEFT", "UP", "UP", "RIGHT", "DOWN", "LEFT", "DOWN", "RIGHT", "UP", "UP", "LEFT"]),
  (3, 7, 5, ["RIGHT", "DOWN", "LEFT", "DOWN", "RIGHT", "UP", "RIGHT", "DOWN", "LEFT", "LEFT", "UP", "RIGHT", "DOWN", "RIGHT", "UP", "LEFT", "UP", "LEFT"]),
  (3, 7, 6, ["RIGHT", "DOWN", "LEFT", "DOWN", "RIGHT", "UP", "UP", "LEFT"]),
  (3, 7, 8, ["RIGHT", "DOWN", "LEFT", "UP", "RIGHT", "RIGHT", "DOWN", "DOWN", "LEFT", "UP", "RIGHT", "UP", "LEFT", "LEFT", "DOWN", "RIGHT", "UP", "LEFT"]),
  (3, 8, 1, ["RIGHT", "DOWN", "LEFT", "DOWN", "RIGHT", "UP", "UP", "RIGHT", "DOWN", "DOWN", "LEFT", "UP", "RIGHT", "UP", "LEFT", "DOWN", "DOWN", "LEFT", "UP", "UP"]),
  (3, 8, 2, ["RIGHT", "DOWN", "LEFT", "DOWN", "RIGHT", "UP", "RIGHT", "UP", "LEFT", "DOWN", "RIGHT", "DOWN", "LEFT", "LEFT", "UP", "RIGHT", "UP", "RIGHT", "DOWN", "LEFT", "UP", "LEFT"]),
  (3, 8, 4, ["RIGHT", "DOWN", "LEFT", "DOWN", "RIGHT", "UP", "UP", "RIGHT", "DOWN", "DOWN", "LEFT", "LEFT", "UP", "RIGHT", "RIGHT", "UP", "LEFT", "LEFT"]),
  (3, 8, 5, ["RIGHT", "DOWN", "LEFT", "DOWN", "RIGHT", "UP", "RIGHT", "DOWN", "LEFT", "LEFT", "UP", "RIGHT", "UP", "LEFT"]),
  (3, 8, 6, ["RIGHT", "DOWN", "DOWN", "RIGHT", "UP", "LEFT", "LEFT", "DOWN", "RIGHT", "UP", "RIGHT", "DOWN", "LEFT", "UP", "UP", "LEFT"]),
  (3, 8, 7, ["RIGHT", "DOWN", "DOWN", "RIGHT", "UP", "LEFT", "LEFT", "DOWN", "RIGHT", "UP", "RIGHT", "DOWN", "LEFT", "LEFT", "UP", "RIGHT", "UP", "LEFT"]),
  (4, 1, 2, ["DOWN", "DOWN", "RIGHT", "RIGHT", "UP", "UP", "LEFT", "DOWN", "RIGHT", "DOWN", "LEFT", "LEFT", "UP", "UP"]),
  (4, 1, 3, ["RIGHT", "DOWN", "LEFT", "UP"]),
  (4, 1, 5, ["RIGHT", "DOWN", "RIGHT", "UP", "LEFT", "LEFT", "DOWN", "RIGHT", "UP", "RIGHT", "DOWN", "LEFT", "LEFT", "UP"]),
  (4, 1, 6, ["DOWN", "DOWN", "RIGHT", "UP", "UP", "LEFT", "DOWN", "RIGHT", "DOWN", "LEFT", "UP", "UP", "RIGHT", "DOWN", "LEFT", "UP"]),
  (4, 1, 7, ["RIGHT", "DOWN", "DOWN", "LEFT", "UP", "UP", "RIGHT", "DOWN", "LEFT", "DOWN", "RIGHT", "UP", "UP", "LEFT"]),
  (4, 1, 8, ["DOWN", "DOWN", "RIGHT", "UP", "UP", "RIGHT", "DOWN", "LEFT", "DOWN", "RIGHT", "UP", "UP", "LEFT", "DOWN", "DOWN", "LEFT", "UP", "UP"]),
  (4, 2, 1, ["DOWN", "DOWN", "RIGHT", "RIGHT", "UP", "LEFT", "UP", "RIGHT", "DOWN", "DOWN", "LEFT", "LEFT", "UP", "UP"]),
  (4, 2, 3, ["DOWN", "RIGHT", "UP", "RIGHT", "DOWN", "LEFT", "LEFT", "UP", "RIGHT", "DOWN", "RIGHT", "UP", "LEFT", "DOWN", "LEFT", "UP"]),
  (4, 2, 5, ["RIGHT", "DOWN", "RIGHT", "UP", "LEFT", "LEFT"]),
  (4, 2, 6, ["RIGHT", "DOWN", "DOWN", "RIGHT", "UP", "UP", "LEFT", "DOWN", "RIGHT", "DOWN", "LEFT", "UP", "UP", "LEFT", "DOWN", "DOWN", "RIGHT", "UP", "LEFT", "UP"]),
  (4, 2, 7, ["RIGHT", "DOWN", "DOWN", "RIGHT", "UP", "UP", "LEFT", "DOWN", "RIGHT", "DOWN", "LEFT", "UP", "UP", "LEFT"]),
  (4, 2, 8, ["RIGHT", "DOWN", "RIGHT", "UP", "LEFT", "LEFT", "DOWN", "DOWN", "RIGHT", "RIGHT", "UP", "LEFT", "DOWN", "LEFT", "UP", "UP"]),
  (4, 3, 1, ["DOWN", "RIGHT", "UP", "LEFT"]),
  (4, 3, 2, ["DOWN", "RIGHT", "UP", "RIGHT", "DOWN", "LEFT", "UP", "LEFT", "DOWN", "RIGHT", "RIGHT", "UP", "LEFT", "DOWN", "LEFT", "UP"]),
  (4, 3, 5, ["DOWN", "RIGHT", "RIGHT", "UP", "LEFT", "LEFT", "DOWN", "RIGHT", "UP", "RIGHT", "DOWN", "LEFT", "LEFT", "UP"]),
  (4, 3, 6, ["DOWN", "DOWN", "RIGHT", "UP", "LEFT", "UP", "RIGHT", "DOWN", "DOWN", "LEFT", "UP", "RIGHT", "UP", "LEFT"]),
  (4, 3, 7, ["DOWN", "RIGHT", "DOWN", "LEFT", "UP", "UP", "RIGHT", "DOWN", "LEFT", "DOWN", "RIGHT", "UP", "UP", "LEFT"]),
  (4, 3, 8, ["RIGHT", "DOWN", "LEFT", "DOWN", "RIGHT", "UP", "UP", "RIGHT", "DOWN", "DOWN", "LEFT", "LEFT", "UP", "RIGHT", "RIGHT", "UP", "LEFT", "LEFT"]),
  (4, 5, 1, ["DOWN", "RIGHT", "RIGHT", "UP", "LEFT", "DOWN", "LEFT", "UP", "RIGHT", "RIGHT", "DOWN", "LEFT", "UP", "LEFT"]),
  (4, 5, 2, ["RIGHT", "RIGHT", "DOWN", "LEFT", "UP", "LEFT"]),
  (4, 5, 3, ["DOWN", "RIGHT", "RIGHT", "UP", "LEFT", "DOWN", "LEFT", "UP", "RIGHT", "RIGHT", "DOWN", "LEFT", "LEFT", "UP"]),
  (4, 5, 6, ["DOWN", "RIGHT", "RIGHT", "DOWN", "LEFT", "UP", "LEFT", "DOWN", "RIGHT", "RIGHT", "UP", "LEFT", "LEFT", "UP"]),
  (4, 5, 7, ["DOWN", "RIGHT", "RIGHT", "DOWN", "LEFT", "UP", "LEFT", "DOWN", "RIGHT", "RIGHT", "UP", "LEFT", "DOWN", "LEFT", "UP", "UP"]),
  (4, 5, 8, ["DOWN", "DOWN", "RIGHT", "RIGHT", "UP", "LEFT", "DOWN", "LEFT", "UP", "UP"]),
  (4, 6, 1, ["DOWN", "RIGHT", "UP", "LEFT", "DOWN", "DOWN", "RIGHT", "UP", "LEFT", "UP", "RIGHT", "DOWN", "DOWN", "LEFT", "UP", "UP"]),
  (4, 6, 2, ["DOWN", "DOWN", "RIGHT", "UP", "LEFT", "DOWN", "RIGHT", "RIGHT", "UP", "LEFT", "LEFT", "UP", "RIGHT", "RIGHT", "DOWN", "DOWN", "LEFT", "UP", "UP", "LEFT"]),
  (4, 6, 3, ["RIGHT", "DOWN", "LEFT", "DOWN", "RIGHT", "UP", "UP", "LEFT", "DOWN", "RIGHT", "DOWN", "LEFT", "UP", "UP"]),
  (4, 6, 5, ["DOWN", "RIGHT", "RIGHT", "DOWN", "LEFT", "LEFT", "UP", "RIGHT", "DOWN", "RIGHT", "UP", "LEFT", "LEFT", "UP"]),
  (4, 6, 7, ["DOWN", "RIGHT", "DOWN", "LEFT", "UP", "UP"]),
  (4, 6, 8, ["DOWN", "RIGHT", "DOWN", "LEFT", "UP", "UP", "RIGHT", "RIGHT", "DOWN", "DOWN", "LEFT", "UP", "RIGHT", "UP", "LEFT", "LEFT"]),
  (4, 7, 1, ["RIGHT", "DOWN", "DOWN", "LEFT", "UP", "RIGHT", "UP", "LEFT", "DOWN", "DOWN", "RIGHT", "UP", "UP", "LEFT"]),
  (4, 7, 2, ["RIGHT", "DOWN", "DOWN", "RIGHT", "UP", "LEFT", "UP", "RIGHT", "DOWN", "DOWN", "LEFT", "UP", "UP", "LEFT"]),
  (4, 7, 3, ["RIGHT", "DOWN", "DOWN", "LEFT", "UP", "RIGHT", "UP", "LEFT", "DOWN", "DOWN", "RIGHT", "UP", "LEFT", "UP"]),
  (4, 7, 5, ["DOWN", "DOWN", "RIGHT", "UP", "RIGHT", "DOWN", "LEFT", "LEFT", "UP", "RIGHT", "DOWN", "RIGHT", "UP", "LEFT", "LEFT", "UP"]),
  (4, 7, 6, ["DOWN", "DOWN", "RIGHT", "UP", "LEFT", "UP"]),
  (4, 7, 8, ["RIGHT", "RIGHT", "DOWN", "DOWN", "LEFT", "UP", "RIGHT", "UP", "LEFT", "LEFT"]),
  (4, 8, 1, ["DOWN", "DOWN", "RIGHT", "UP", "UP", "RIGHT", "DOWN", "DOWN", "LEFT", "UP", "RIGHT", "UP", "LEFT", "DOWN", "DOWN", "LEFT", "UP", "UP"]),
  (4, 8, 2, ["DOWN", "DOWN", "RIGHT", "UP", "RIGHT", "DOWN", "LEFT", "LEFT", "UP", "UP", "RIGHT", "RIGHT", "DOWN", "LEFT", "UP", "LEFT"]),
  (4, 8, 3, ["RIGHT", "RIGHT", "DOWN", "LEFT", "LEFT", "DOWN", "RIGHT", "RIGHT", "UP", "UP", "LEFT", "DOWN", "DOWN", "LEFT", "UP", "RIGHT", "UP", "LEFT"]),
  (4, 8, 5, ["DOWN", "DOWN", "RIGHT", "UP", "RIGHT", "DOWN", "LEFT", "LEFT", "UP", "UP"]),
  (4, 8, 6, ["DOWN", "RIGHT", "DOWN", "RIGHT", "UP", "LEFT", "LEFT", "DOWN", "RIGHT", "UP", "RIGHT", "DOWN", "LEFT", "UP", "LEFT", "UP"]),
  (4, 8, 7, ["RIGHT", "RIGHT", "DOWN", "LEFT", "DOWN", "RIGHT", "UP", "UP", "LEFT", "LEFT"]),
  (5, 1, 2, ["DOWN", "RIGHT", "RIGHT", "UP", "LEFT", "DOWN", "LEFT", "UP"]),
  (5, 1, 3, ["RIGHT", "DOWN", "RIGHT", "UP", "LEFT", "DOWN", "LEFT", "UP", "RIGHT", "RIGHT", "DOWN", "LEFT", "UP", "LEFT"]),
  (5, 1, 4, ["DOWN", "RIGHT", "RIGHT", "UP", "LEFT", "DOWN", "LEFT", "UP", "RIGHT", "RIGHT", "DOWN", "LEFT", "UP", "LEFT"]),
  (5, 1, 6, ["DOWN", "RIGHT", "UP", "LEFT", "DOWN", "RIGHT", "RIGHT", "DOWN", "LEFT", "LEFT", "UP", "UP", "RIGHT", "DOWN", "DOWN", "RIGHT", "UP", "LEFT", "LEFT", "UP"]),
  (5, 1, 7, ["DOWN", "RIGHT", "DOWN", "RIGHT", "UP", "LEFT", "UP", "RIGHT", "DOWN", "DOWN", "LEFT", "UP", "RIGHT", "UP", "LEFT", "DOWN", "LEFT", "UP"]),
  (5, 1, 8, ["DOWN", "RIGHT", "UP", "LEFT", "DOWN", "DOWN", "RIGHT", "UP", "RIGHT", "DOWN", "LEFT", "LEFT", "UP", "UP", "RIGHT", "DOWN", "LEFT", "UP"]),
  (5, 2, 1, ["DOWN", "RIGHT", "UP", "RIGHT", "DOWN", "LEFT", "LEFT", "UP"]),
  (5, 2, 3, ["RIGHT", "DOWN", "LEFT", "UP", "RIGHT", "RIGHT", "DOWN", "LEFT", "UP", "LEFT", "DOWN", "RIGHT", "UP", "LEFT"]),
  (5, 2, 4, ["RIGHT", "RIGHT", "DOWN", "LEFT", "UP", "LEFT"]),
  (5, 2, 6, ["DOWN", "DOWN", "RIGHT", "UP", "LEFT", "UP", "RIGHT", "RIGHT", "DOWN", "LEFT", "UP", "LEFT", "DOWN", "RIGHT", "DOWN", "LEFT", "UP", "UP"]),
  (5, 2, 7, ["DOWN", "RIGHT", "DOWN", "LEFT", "UP", "UP", "RIGHT", "RIGHT", "DOWN", "LEFT", "UP", "LEFT", "DOWN", "DOWN", "RIGHT", "UP", "LEFT", "UP"]),
  (5, 2, 8, ["RIGHT", "RIGHT", "DOWN", "DOWN", "LEFT", "UP", "UP", "RIGHT", "DOWN", "LEFT", "DOWN", "RIGHT", "UP", "UP", "LEFT", "LEFT"]),
  (5, 3, 1, ["RIGHT", "DOWN", "RIGHT", "UP", "LEFT", "LEFT", "DOWN", "RIGHT", "UP", "RIGHT", "DOWN", "LEFT", "UP", "LEFT"]),
  (5, 3, 2, ["DOWN", "RIGHT", "UP", "LEFT", "DOWN", "RIGHT", "RIGHT", "UP", "LEFT", "LEFT", "DOWN", "RIGHT", "UP", "LEFT"]),
  (5, 3, 4, ["DOWN", "RIGHT", "RIGHT", "UP", "LEFT", "DOWN", "LEFT", "UP", "RIGHT", "RIGHT", "DOWN", "LEFT", "LEFT", "UP"]),
  (5, 3, 6, ["RIGHT", "DOWN", "RIGHT", "DOWN", "LEFT", "LEFT", "UP", "RIGHT", "DOWN", "RIGHT", "UP", "LEFT", "UP", "LEFT"]),
  (5, 3, 7, ["RIGHT", "DOWN", "LEFT", "DOWN", "RIGHT", "UP", "RIGHT", "DOWN", "LEFT", "LEFT", "UP", "RIGHT", "DOWN", "RIGHT", "UP", "LEFT", "UP", "LEFT"]),
  (5, 3, 8, ["RIGHT", "DOWN", "LEFT", "DOWN", "RIGHT", "UP", "RIGHT", "DOWN", "LEFT", "LEFT", "UP", "RIGHT", "UP", "LEFT"]),
  (5, 4, 1, ["RIGHT", "DOWN", "RIGHT", "UP", "LEFT", "LEFT", "DOWN", "RIGHT", "UP", "RIGHT", "DOWN", "LEFT", "LEFT", "UP"]),
  (5, 4, 2, ["RIGHT", "DOWN", "RIGHT", "UP", "LEFT", "LEFT"]),
  (5, 4, 3, ["DOWN", "RIGHT", "RIGHT", "UP", "LEFT", "LEFT", "DOWN", "RIGHT", "UP", "RIGHT", "DOWN", "LEFT", "LEFT", "UP"]),
  (5, 4, 6, ["DOWN", "RIGHT", "RIGHT", "DOWN", "LEFT", "LEFT", "UP", "RIGHT", "DOWN", "RIGHT", "UP", "LEFT", "LEFT", "UP"]),
  (5, 4, 7, ["DOWN", "DOWN", "RIGHT", "UP", "RIGHT", "DOWN", "LEFT", "LEFT", "UP", "RIGHT", "DOWN", "RIGHT", "UP", "LEFT", "LEFT", "UP"]),
  (5, 4, 8, ["DOWN", "DOWN", "RIGHT", "UP", "RIGHT", "DOWN", "LEFT", "LEFT", "UP", "UP"]),
  (5, 6, 1, ["DOWN", "RIGHT", "RIGHT", "DOWN", "LEFT", "UP", "UP", "LEFT", "DOWN", "DOWN", "RIGHT", "RIGHT", "UP", "LEFT", "UP", "LEFT", "DOWN", "RIGHT", "UP", "LEFT"]),
  (5, 6, 2, ["DOWN", "DOWN", "RIGHT", "UP", "LEFT", "UP", "RIGHT", "DOWN", "RIGHT", "UP", "LEFT", "LEFT", "DOWN", "RIGHT", "DOWN", "LEFT", "UP", "UP"]),
  (5, 6, 3, ["RIGHT", "DOWN", "RIGHT", "DOWN", "LEFT", "UP", "LEFT", "DOWN", "RIGHT", "RIGHT", "UP", "LEFT", "UP", "LEFT"]),
  (5, 6, 4, ["DOWN", "RIGHT", "RIGHT", "DOWN", "LEFT", "UP", "LEFT", "DOWN", "RIGHT", "RIGHT", "UP", "LEFT", "LEFT", "UP"]),
  (5, 6, 7, ["DOWN", "DOWN", "RIGHT", "UP", "RIGHT", "DOWN", "LEFT", "LEFT", "UP", "RIGHT", "DOWN", "RIGHT", "UP", "LEFT", "DOWN", "LEFT", "UP", "UP"]),
  (5, 6, 8, ["DOWN", "RIGHT", "DOWN", "LEFT", "UP", "RIGHT", "RIGHT", "DOWN", "LEFT", "UP", "LEFT", "DOWN", "RIGHT", "UP", "LEFT", "UP"]),
  (5, 7, 1, ["DOWN", "RIGHT", "UP", "RIGHT", "DOWN", "LEFT", "DOWN", "RIGHT", "UP", "UP", "LEFT", "DOWN", "RIGHT", "DOWN", "LEFT", "UP", "LEFT", "UP"]),
  (5, 7, 2, ["DOWN", "RIGHT", "DOWN", "LEFT", "UP", "UP", "RIGHT", "DOWN", "RIGHT", "UP", "LEFT", "LEFT", "DOWN", "DOWN", "RIGHT", "UP", "LEFT", "UP"]),
  (5, 7, 3, ["RIGHT", "DOWN", "RIGHT", "DOWN", "LEFT", "UP", "LEFT", "DOWN", "RIGHT", "RIGHT", "UP", "LEFT", "DOWN", "LEFT", "UP", "RIGHT", "UP", "LEFT"]),
  (5, 7, 4, ["DOWN", "RIGHT", "RIGHT", "DOWN", "LEFT", "UP", "LEFT", "DOWN", "RIGHT", "RIGHT", "UP", "LEFT", "DOWN", "LEFT", "UP", "UP"]),
  (5, 7, 6, ["DOWN", "DOWN", "RIGHT", "UP", "RIGHT", "DOWN", "LEFT", "UP", "LEFT", "DOWN", "RIGHT", "RIGHT", "UP", "LEFT", "DOWN", "LEFT", "UP", "UP"]),
  (5, 7, 8, ["DOWN", "RIGHT", "RIGHT", "DOWN", "LEFT", "UP", "LEFT", "UP"]),
  (5, 8, 1, ["DOWN", "RIGHT", "UP", "LEFT", "DOWN", "DOWN", "RIGHT", "RIGHT", "UP", "LEFT", "DOWN", "LEFT", "UP", "UP", "RIGHT", "DOWN", "LEFT", "UP"]),
  (5, 8, 2, ["DOWN", "DOWN", "RIGHT", "RIGHT", "UP", "LEFT", "DOWN", "LEFT", "UP", "UP", "RIGHT", "DOWN", "RIGHT", "UP", "LEFT", "LEFT"]),
  (5, 8, 3, ["RIGHT", "DOWN", "LEFT", "DOWN", "RIGHT", "RIGHT", "UP", "LEFT", "DOWN", "LEFT", "UP", "RIGHT", "UP", "LEFT"]),
  (5, 8, 4, ["DOWN", "DOWN", "RIGHT", "RIGHT", "UP", "LEFT", "DOWN", "LEFT", "UP", "UP"]),
  (5, 8, 6, ["DOWN", "DOWN", "RIGHT", "UP", "LEFT", "DOWN", "RIGHT", "RIGHT", "UP", "LEFT", "LEFT", "DOWN", "RIGHT", "UP", "LEFT", "UP"]),
  (5, 8, 7, ["DOWN", "RIGHT", "DOWN", "RIGHT", "UP", "LEFT", "LEFT", "UP"]),
  (6, 1, 2, ["RIGHT", "RIGHT", "DOWN", "LEFT", "LEFT", "DOWN", "RIGHT", "UP", "UP", "LEFT", "DOWN", "RIGHT", "DOWN", "LEFT", "UP", "RIGHT", "RIGHT", "UP", "LEFT", "LEFT"]),
  (6, 1, 3, ["DOWN", "DOWN", "RIGHT", "UP", "LEFT", "UP", "RIGHT", "DOWN", "DOWN", "LEFT", "UP", "UP"]),
  (6, 1, 4, ["DOWN", "RIGHT", "UP", "LEFT", "DOWN", "DOWN", "RIGHT", "UP", "LEFT", "UP", "RIGHT", "DOWN", "DOWN", "LEFT", "UP", "UP"]),
  (6, 1, 5, ["DOWN", "RIGHT", "RIGHT", "DOWN", "LEFT", "UP", "UP", "LEFT", "DOWN", "DOWN", "RIGHT", "RIGHT", "UP", "LEFT", "UP", "LEFT", "DOWN", "RIGHT", "UP", "LEFT"]),
  (6, 1, 7, ["DOWN", "RIGHT", "UP", "LEFT", "DOWN", "DOWN", "RIGHT", "UP", "UP", "LEFT", "DOWN", "RIGHT", "UP", "LEFT"]),
  (6, 1, 8, ["DOWN", "DOWN", "RIGHT", "UP", "UP", "RIGHT", "DOWN", "LEFT", "LEFT", "DOWN", "RIGHT", "RIGHT", "UP", "UP", "LEFT", "DOWN", "LEFT", "DOWN", "RIGHT", "UP", "LEFT", "UP"]),
  (6, 2, 1, ["RIGHT", "RIGHT", "DOWN", "LEFT", "LEFT", "DOWN", "RIGHT", "UP", "LEFT", "UP", "RIGHT", "DOWN", "DOWN", "LEFT", "UP", "RIGHT", "RIGHT", "UP", "LEFT", "LEFT"]),
  (6, 2, 3, ["DOWN", "DOWN", "RIGHT", "UP", "UP", "RIGHT", "DOWN", "LEFT", "LEFT", "UP", "RIGHT", "DOWN", "RIGHT", "UP", "LEFT", "DOWN", "DOWN", "LEFT", "UP", "UP"]),
  (6, 2, 4, ["DOWN", "DOWN", "RIGHT", "UP", "LEFT", "DOWN", "RIGHT", "RIGHT", "UP", "LEFT", "LEFT", "UP", "RIGHT", "RIGHT", "DOWN", "DOWN", "LEFT", "UP", "UP", "LEFT"]),
  (6, 2, 5, ["DOWN", "DOWN", "RIGHT", "UP", "LEFT", "UP", "RIGHT", "DOWN", "RIGHT", "UP", "LEFT", "LEFT", "DOWN", "RIGHT", "DOWN", "LEFT", "UP", "UP"]),
  (6, 2, 7, ["RIGHT", "RIGHT", "DOWN", "LEFT", "UP", "LEFT", "DOWN", "DOWN", "RIGHT", "UP", "LEFT", "UP", "RIGHT", "DOWN", "RIGHT", "UP", "LEFT", "LEFT"]),
  (6, 2, 8, ["DOWN", "DOWN", "RIGHT", "UP", "LEFT", "UP", "RIGHT", "DOWN", "RIGHT", "UP", "LEFT", "LEFT", "DOWN", "DOWN", "RIGHT", "RIGHT", "UP", "LEFT", "LEFT", "DOWN", "RIGHT", "UP", "LEFT", "UP"]),
  (6, 3, 1, ["DOWN", "DOWN", "RIGHT", "UP", "UP", "LEFT", "DOWN", "RIGHT", "DOWN", "LEFT", "UP", "UP"]),
  (6, 3, 2, ["DOWN", "DOWN", "RIGHT", "UP", "UP", "RIGHT", "DOWN", "LEFT", "UP", "LEFT", "DOWN", "RIGHT", "RIGHT", "UP", "LEFT", "DOWN", "DOWN", "LEFT", "UP", "UP"]),
  (6, 3, 4, ["RIGHT", "DOWN", "LEFT", "DOWN", "RIGHT", "UP", "UP", "LEFT", "DOWN", "RIGHT", "DOWN", "LEFT", "UP", "UP"]),
  (6, 3, 5, ["RIGHT", "DOWN", "RIGHT", "DOWN", "LEFT", "UP", "LEFT", "DOWN", "RIGHT", "RIGHT", "UP", "LEFT", "UP", "LEFT"]),
  (6, 3, 7, ["RIGHT", "DOWN", "LEFT", "DOWN", "RIGHT", "UP", "UP", "LEFT"]),
  (6, 3, 8, ["RIGHT", "DOWN", "DOWN", "RIGHT", "UP", "LEFT", "LEFT", "DOWN", "RIGHT", "UP", "RIGHT", "DOWN", "LEFT", "UP", "UP", "LEFT"]),
  (6, 4, 1, ["DOWN", "DOWN", "RIGHT", "UP", "UP", "LEFT", "DOWN", "RIGHT", "DOWN", "LEFT", "UP", "UP", "RIGHT", "DOWN", "LEFT", "UP"]),
  (6, 4, 2, ["RIGHT", "DOWN", "DOWN", "RIGHT", "UP", "UP", "LEFT", "DOWN", "RIGHT", "DOWN", "LEFT", "UP", "UP", "LEFT", "DOWN", "DOWN", "RIGHT", "UP", "LEFT", "UP"]),
  (6, 4, 3, ["DOWN", "DOWN", "RIGHT", "UP", "LEFT", "UP", "RIGHT", "DOWN", "DOWN", "LEFT", "UP", "RIGHT", "UP", "LEFT"]),
  (6, 4, 5, ["DOWN", "RIGHT", "RIGHT", "DOWN", "LEFT", "UP", "LEFT", "DOWN", "RIGHT", "RIGHT", "UP", "LEFT", "LEFT", "UP"]),
  (6, 4, 7, ["DOWN", "DOWN", "RIGHT", "UP", "LEFT", "UP"]),
  (6, 4, 8, ["DOWN", "RIGHT", "DOWN", "RIGHT", "UP", "LEFT", "LEFT", "DOWN", "RIGHT", "UP", "RIGHT", "DOWN", "LEFT", "UP", "LEFT", "UP"]),
  (6, 5, 1, ["DOWN", "RIGHT", "UP", "LEFT", "DOWN", "RIGHT", "RIGHT", "DOWN", "LEFT", "LEFT", "UP", "UP", "RIGHT", "DOWN", "DOWN", "RIGHT", "UP", "LEFT", "LEFT", "UP"]),
  (6, 5, 2, ["DOWN", "DOWN", "RIGHT", "UP", "LEFT", "UP", "RIGHT", "RIGHT", "DOWN", "LEFT", "UP", "LEFT", "DOWN", "RIGHT", "DOWN", "LEFT", "UP", "UP"]),
  (6, 5, 3, ["RIGHT", "DOWN", "RIGHT", "DOWN", "LEFT", "LEFT", "UP", "RIGHT", "DOWN", "RIGHT", "UP", "LEFT", "UP", "LEFT"]),
  (6, 5, 4, ["DOWN", "RIGHT", "RIGHT", "DOWN", "LEFT", "LEFT", "UP", "RIGHT", "DOWN", "RIGHT", "UP", "LEFT", "LEFT", "UP"]),
  (6, 5, 7, ["DOWN", "DOWN", "RIGHT", "UP", "RIGHT", "DOWN", "LEFT", "UP", "LEFT", "DOWN", "RIGHT", "RIGHT", "UP", "LEFT", "DOWN", "LEFT", "UP", "UP"]),
  (6, 5, 8, ["DOWN", "DOWN", "RIGHT", "UP", "LEFT", "DOWN", "RIGHT", "RIGHT", "UP", "LEFT", "LEFT", "DOWN", "RIGHT", "UP", "LEFT", "UP"]),
  (6, 7, 1, ["DOWN", "RIGHT", "UP", "LEFT", "DOWN", "RIGHT", "DOWN", "LEFT", "UP", "UP", "RIGHT", "DOWN", "LEFT", "UP"]),
  (6, 7, 2, ["RIGHT", "RIGHT", "DOWN", "LEFT", "UP", "LEFT", "DOWN", "RIGHT", "DOWN", "LEFT", "UP", "UP", "RIGHT", "DOWN", "RIGHT", "UP", "LEFT", "LEFT"]),
  (6, 7, 3, ["RIGHT", "DOWN", "DOWN", "LEFT", "UP", "RIGHT", "UP", "LEFT"]),
  (6, 7, 4, ["DOWN", "RIGHT", "DOWN", "LEFT", "UP", "UP"]),
  (6, 7, 5, ["DOWN", "DOWN", "RIGHT", "UP", "RIGHT", "DOWN", "LEFT", "LEFT", "UP", "RIGHT", "DOWN", "RIGHT", "UP", "LEFT", "DOWN", "LEFT", "UP", "UP"]),
  (6, 7, 8, ["DOWN", "DOWN", "RIGHT", "RIGHT", "UP", "LEFT", "DOWN", "LEFT", "UP", "RIGHT", "RIGHT", "DOWN", "LEFT", "LEFT", "UP", "UP"]),
  (6, 8, 1, ["DOWN", "RIGHT", "UP", "LEFT", "DOWN", "RIGHT", "DOWN", "LEFT", "UP", "UP", "RIGHT", "RIGHT", "DOWN", "DOWN", "LEFT", "UP", "RIGHT", "UP", "LEFT", "DOWN", "LEFT", "UP"]),
  (6, 8, 2, ["DOWN", "RIGHT", "DOWN", "LEFT", "UP", "RIGHT", "RIGHT", "UP", "LEFT", "DOWN", "RIGHT", "DOWN", "LEFT", "UP", "UP", "RIGHT", "DOWN", "LEFT", "LEFT", "DOWN", "RIGHT", "UP", "LEFT", "UP"]),
  (6, 8, 3, ["RIGHT", "DOWN", "DOWN", "RIGHT", "UP", "LEFT", "DOWN", "LEFT", "UP", "RIGHT", "RIGHT", "DOWN", "LEFT", "UP", "UP", "LEFT"]),
  (6, 8, 4, ["DOWN", "RIGHT", "DOWN", "LEFT", "UP", "UP", "RIGHT", "RIGHT", "DOWN", "DOWN", "LEFT", "UP", "RIGHT", "UP", "LEFT", "LEFT"]),
  (6, 8, 5, ["DOWN", "RIGHT", "DOWN", "LEFT", "UP", "RIGHT", "RIGHT", "DOWN", "LEFT", "UP", "LEFT", "DOWN", "RIGHT", "UP", "LEFT", "UP"]),
  (6, 8, 7, ["DOWN", "DOWN", "RIGHT", "UP", "LEFT", "UP", "RIGHT", "RIGHT", "DOWN", "LEFT", "DOWN", "RIGHT", "UP", "UP", "LEFT", "LEFT"]),
  (7, 1, 2, ["DOWN", "RIGHT", "DOWN", "RIGHT", "UP", "UP", "LEFT", "DOWN", "RIGHT", "DOWN", "LEFT", "UP", "LEFT", "UP"]),
  (7, 1, 3, ["DOWN", "RIGHT", "DOWN", "LEFT", "UP", "UP", "RIGHT", "DOWN", "LEFT", "DOWN", "RIGHT", "UP", "LEFT", "UP"]),
  (7, 1, 4, ["RIGHT", "DOWN", "DOWN", "LEFT", "UP", "RIGHT", "UP", "LEFT", "DOWN", "DOWN", "RIGHT", "UP", "UP", "LEFT"]),
  (7, 1, 5, ["DOWN", "RIGHT", "UP", "RIGHT", "DOWN", "LEFT", "DOWN", "RIGHT", "UP", "UP", "LEFT", "DOWN", "RIGHT", "DOWN", "LEFT", "UP", "LEFT", "UP"]),
  (7, 1, 6, ["DOWN", "RIGHT", "UP", "LEFT", "DOWN", "RIGHT", "DOWN", "LEFT", "UP", "UP", "RIGHT", "DOWN", "LEFT", "UP"]),
  (7, 1, 8, ["DOWN", "RIGHT", "UP", "RIGHT", "DOWN", "LEFT", "DOWN", "RIGHT", "UP", "UP", "LEFT", "DOWN", "LEFT", "UP"]),
  (7, 2, 1, ["DOWN", "RIGHT", "DOWN", "RIGHT", "UP", "LEFT", "UP", "RIGHT", "DOWN", "DOWN", "LEFT", "UP", "LEFT", "UP"]),
  (7, 2, 3, ["RIGHT", "DOWN", "DOWN", "RIGHT", "UP", "LEFT", "LEFT", "UP", "RIGHT", "RIGHT", "DOWN", "DOWN", "LEFT", "UP", "UP", "LEFT", "DOWN", "RIGHT", "UP", "LEFT"]),
  (7, 2, 4, ["RIGHT", "DOWN", "DOWN", "RIGHT", "UP", "LEFT", "UP", "RIGHT", "DOWN", "DOWN", "LEFT", "UP", "UP", "LEFT"]),
  (7, 2, 5, ["DOWN", "RIGHT", "DOWN", "LEFT", "UP", "UP", "RIGHT", "DOWN", "RIGHT", "UP", "LEFT", "LEFT", "DOWN", "DOWN", "RIGHT", "UP", "LEFT", "UP"]),
  (7, 2, 6, ["RIGHT", "RIGHT", "DOWN", "LEFT", "UP", "LEFT", "DOWN", "RIGHT", "DOWN", "LEFT", "UP", "UP", "RIGHT", "DOWN", "RIGHT", "UP", "LEFT", "LEFT"]),
  (7, 2, 8, ["DOWN", "RIGHT", "RIGHT", "UP", "LEFT", "DOWN", "DOWN", "RIGHT", "UP", "LEFT", "UP", "RIGHT", "DOWN", "LEFT", "LEFT", "UP"]),
  (7, 3, 1, ["DOWN", "RIGHT", "DOWN", "LEFT", "UP", "RIGHT", "UP", "LEFT", "DOWN", "DOWN", "RIGHT", "UP", "LEFT", "UP"]),
  (7, 3, 2, ["DOWN", "RIGHT", "UP", "LEFT", "DOWN", "RIGHT", "DOWN", "RIGHT", "UP", "UP", "LEFT", "LEFT", "DOWN", "RIGHT", "RIGHT", "DOWN", "LEFT", "UP", "UP", "LEFT"]),
  (7, 3, 4, ["RIGHT", "DOWN", "DOWN", "LEFT", "UP", "RIGHT", "UP", "LEFT", "DOWN", "DOWN", "RIGHT", "UP", "LEFT", "UP"]),
  (7, 3, 5, ["RIGHT", "DOWN", "RIGHT", "DOWN", "LEFT", "UP", "LEFT", "DOWN", "RIGHT", "RIGHT", "UP", "LEFT", "DOWN", "LEFT", "UP", "RIGHT", "UP", "LEFT"]),
  (7, 3, 6, ["RIGHT", "DOWN", "DOWN", "LEFT", "UP", "RIGHT", "UP", "LEFT"]),
  (7, 3, 8, ["RIGHT", "DOWN", "DOWN", "RIGHT", "UP", "LEFT", "LEFT", "DOWN", "RIGHT", "UP", "RIGHT", "DOWN", "LEFT", "LEFT", "UP", "RIGHT", "UP", "LEFT"]),
  (7, 4, 1, ["RIGHT", "DOWN", "DOWN", "LEFT", "UP", "UP", "RIGHT", "DOWN", "LEFT", "DOWN", "RIGHT", "UP", "UP", "LEFT"]),
  (7, 4, 2, ["RIGHT", "DOWN", "DOWN", "RIGHT", "UP", "UP", "LEFT", "DOWN", "RIGHT", "DOWN", "LEFT", "UP", "UP", "LEFT"]),
  (7, 4, 3, ["DOWN", "RIGHT", "DOWN", "LEFT", "UP", "UP", "RIGHT", "DOWN", "LEFT", "DOWN", "RIGHT", "UP", "UP", "LEFT"]),
  (7, 4, 5, ["DOWN", "RIGHT", "RIGHT", "DOWN", "LEFT", "UP", "LEFT", "DOWN", "RIGHT", "RIGHT", "UP", "LEFT", "DOWN", "LEFT", "UP", "UP"]),
  (7, 4, 6, ["DOWN", "RIGHT", "DOWN", "LEFT", "UP", "UP"]),
  (7, 4, 8, ["RIGHT", "RIGHT", "DOWN", "LEFT", "DOWN", "RIGHT", "UP", "UP", "LEFT", "LEFT"]),
  (7, 5, 1, ["DOWN", "RIGHT", "DOWN", "RIGHT", "UP", "LEFT", "UP", "RIGHT", "DOWN", "DOWN", "LEFT", "UP", "RIGHT", "UP", "LEFT", "DOWN", "LEFT", "UP"]),
  (7, 5, 2, ["DOWN", "RIGHT", "DOWN", "LEFT", "UP", "UP", "RIGHT", "RIGHT", "DOWN", "LEFT", "UP", "LEFT", "DOWN", "DOWN", "RIGHT", "UP", "LEFT", "UP"]),
  (7, 5, 3, ["RIGHT", "DOWN", "LEFT", "DOWN", "RIGHT", "UP", "RIGHT", "DOWN", "LEFT", "LEFT", "UP", "RIGHT", "DOWN", "RIGHT", "UP", "LEFT", "UP", "LEFT"]),
  (7, 5, 4, ["DOWN", "DOWN", "RIGHT", "UP", "RIGHT", "DOWN", "LEFT", "LEFT", "UP", "RIGHT", "DOWN", "RIGHT", "UP", "LEFT", "LEFT", "UP"]),
  (7, 5, 6, ["DOWN", "DOWN", "RIGHT", "UP", "RIGHT", "DOWN", "LEFT", "LEFT", "UP", "RIGHT", "DOWN", "RIGHT", "UP", "LEFT", "DOWN", "LEFT", "UP", "UP"]),
  (7, 5, 8, ["DOWN", "RIGHT", "DOWN", "RIGHT", "UP", "LEFT", "LEFT", "UP"]),
  (7, 6, 1, ["DOWN", "RIGHT", "UP", "LEFT", "DOWN", "DOWN", "RIGHT", "UP", "UP", "LEFT", "DOWN", "RIGHT", "UP", "LEFT"]),
  (7, 6, 2, ["RIGHT", "RIGHT", "DOWN", "LEFT", "UP", "LEFT", "DOWN", "DOWN", "RIGHT", "UP", "LEFT", "UP", "RIGHT", "DOWN", "RIGHT", "UP", "LEFT", "LEFT"]),
  (7, 6, 3, ["RIGHT", "DOWN", "LEFT", "DOWN", "RIGHT", "UP", "UP", "LEFT"]),
  (7, 6, 4, ["DOWN", "DOWN", "RIGHT", "UP", "LEFT", "UP"]),
  (7, 6, 5, ["DOWN", "DOWN", "RIGHT", "UP", "RIGHT", "DOWN", "LEFT", "UP", "LEFT", "DOWN", "RIGHT", "RIGHT", "UP", "LEFT", "DOWN", "LEFT", "UP", "UP"]),
  (7, 6, 8, ["DOWN", "DOWN", "RIGHT", "UP", "LEFT", "UP", "RIGHT", "RIGHT", "DOWN", "LEFT", "DOWN", "RIGHT", "UP", "UP", "LEFT", "LEFT"]),
  (7, 8, 1, ["DOWN", "RIGHT", "UP", "RIGHT", "DOWN", "DOWN", "LEFT", "UP", "RIGHT", "UP", "LEFT", "DOWN", "LEFT", "UP"]),
  (7, 8, 2, ["DOWN", "RIGHT", "RIGHT", "UP", "LEFT", "DOWN", "RIGHT", "DOWN", "LEFT", "UP", "UP", "RIGHT", "DOWN", "LEFT", "LEFT", "UP"]),
  (7, 8, 3, ["RIGHT", "DOWN", "LEFT", "UP", "RIGHT", "RIGHT", "DOWN", "DOWN", "LEFT", "UP", "RIGHT", "UP", "LEFT", "LEFT", "DOWN", "RIGHT", "UP", "LEFT"]),
  (7, 8, 4, ["RIGHT", "RIGHT", "DOWN", "DOWN", "LEFT", "UP", "RIGHT", "UP", "LEFT", "LEFT"]),
  (7, 8, 5, ["DOWN", "RIGHT", "RIGHT", "DOWN", "LEFT", "UP", "LEFT", "UP"]),
  (7, 8, 6, ["DOWN", "DOWN", "RIGHT", "RIGHT", "UP", "LEFT", "DOWN", "LEFT", "UP", "RIGHT", "RIGHT", "DOWN", "LEFT", "LEFT", "UP", "UP"]),
  (8, 1, 2, ["DOWN", "RIGHT", "RIGHT", "DOWN", "LEFT", "UP", "RIGHT", "UP", "LEFT", "DOWN", "DOWN", "RIGHT", "UP", "LEFT", "LEFT", "UP"]),
  (8, 1, 3, ["RIGHT", "DOWN", "LEFT", "DOWN", "RIGHT", "UP", "UP", "RIGHT", "DOWN", "DOWN", "LEFT", "UP", "RIGHT", "UP", "LEFT", "DOWN", "DOWN", "LEFT", "UP", "UP"]),
  (8, 1, 4, ["DOWN", "DOWN", "RIGHT", "UP", "UP", "RIGHT", "DOWN", "DOWN", "LEFT", "UP", "RIGHT", "UP", "LEFT", "DOWN", "DOWN", "LEFT", "UP", "UP"]),
  (8, 1, 5, ["DOWN", "RIGHT", "UP", "LEFT", "DOWN", "DOWN", "RIGHT", "RIGHT", "UP", "LEFT", "DOWN", "LEFT", "UP", "UP", "RIGHT", "DOWN", "LEFT", "UP"]),
  (8, 1, 6, ["DOWN", "RIGHT", "UP", "LEFT", "DOWN", "RIGHT", "DOWN", "LEFT", "UP", "UP", "RIGHT", "RIGHT", "DOWN", "DOWN", "LEFT", "UP", "RIGHT", "UP", "LEFT", "DOWN", "LEFT", "UP"]),
  (8, 1, 7, ["DOWN", "RIGHT", "UP", "RIGHT", "DOWN", "DOWN", "LEFT", "UP", "RIGHT", "UP", "LEFT", "DOWN", "LEFT", "UP"]),
  (8, 2, 1, ["DOWN", "RIGHT", "RIGHT", "DOWN", "LEFT", "UP", "UP", "RIGHT", "DOWN", "LEFT", "DOWN", "RIGHT", "UP", "LEFT", "LEFT", "UP"]),
  (8, 2, 3, ["RIGHT", "DOWN", "LEFT", "DOWN", "RIGHT", "UP", "RIGHT", "UP", "LEFT", "DOWN", "RIGHT", "DOWN", "LEFT", "LEFT", "UP", "RIGHT", "UP", "RIGHT", "DOWN", "LEFT", "UP", "LEFT"]),
  (8, 2, 4, ["DOWN", "DOWN", "RIGHT", "UP", "RIGHT", "DOWN", "LEFT", "LEFT", "UP", "UP", "RIGHT", "RIGHT", "DOWN", "LEFT", "UP", "LEFT"]),
  (8, 2, 5, ["DOWN", "DOWN", "RIGHT", "RIGHT", "UP", "LEFT", "DOWN", "LEFT", "UP", "UP", "RIGHT", "DOWN", "RIGHT", "UP", "LEFT", "LEFT"]),
  (8, 2, 6, ["DOWN", "RIGHT", "DOWN", "LEFT", "UP", "RIGHT", "RIGHT", "UP", "LEFT", "DOWN", "RIGHT", "DOWN", "LEFT", "UP", "UP", "RIGHT", "DOWN", "LEFT", "LEFT", "DOWN", "RIGHT", "UP", "LEFT", "UP"]),
  (8, 2, 7, ["DOWN", "RIGHT", "RIGHT", "UP", "LEFT", "DOWN", "RIGHT", "DOWN", "LEFT", "UP", "UP", "RIGHT", "DOWN", "LEFT", "LEFT", "UP"]),
  (8, 3, 1, ["DOWN", "DOWN", "RIGHT", "UP", "UP", "RIGHT", "DOWN", "DOWN", "LEFT", "UP", "RIGHT", "DOWN", "LEFT", "LEFT", "UP", "RIGHT", "RIGHT", "UP", "LEFT", "LEFT"]),
  (8, 3, 2, ["DOWN", "RIGHT", "UP", "LEFT", "DOWN", "RIGHT", "RIGHT", "UP", "LEFT", "LEFT", "DOWN", "DOWN", "RIGHT", "RIGHT", "UP", "LEFT", "DOWN", "LEFT", "UP", "RIGHT", "UP", "LEFT"]),
  (8, 3, 4, ["RIGHT", "RIGHT", "DOWN", "LEFT", "LEFT", "DOWN", "RIGHT", "RIGHT", "UP", "UP", "LEFT", "DOWN", "DOWN", "LEFT", "UP", "RIGHT", "UP", "LEFT"]),
  (8, 3, 5, ["RIGHT", "DOWN", "LEFT", "DOWN", "RIGHT", "RIGHT", "UP", "LEFT", "DOWN", "LEFT", "UP", "RIGHT", "UP", "LEFT"]),
  (8, 3, 6, ["RIGHT", "DOWN", "DOWN", "RIGHT", "UP", "LEFT", "DOWN", "LEFT", "UP", "RIGHT", "RIGHT", "DOWN", "LEFT", "UP", "UP", "LEFT"]),
  (8, 3, 7, ["RIGHT", "DOWN", "LEFT", "UP", "RIGHT", "RIGHT", "DOWN", "DOWN", "LEFT", "UP", "RIGHT", "UP", "LEFT", "LEFT", "DOWN", "RIGHT", "UP", "LEFT"]),
  (8, 4, 1, ["DOWN", "DOWN", "RIGHT", "UP", "UP", "RIGHT", "DOWN", "LEFT", "DOWN", "RIGHT", "UP", "UP", "LEFT", "DOWN", "DOWN", "LEFT", "UP", "UP"]),
  (8, 4, 2, ["RIGHT", "DOWN", "RIGHT", "UP", "LEFT", "LEFT", "DOWN", "DOWN", "RIGHT", "RIGHT", "UP", "LEFT", "DOWN", "LEFT", "UP", "UP"]),
  (8, 4, 3, ["RIGHT", "DOWN", "LEFT", "DOWN", "RIGHT", "UP", "UP", "RIGHT", "DOWN", "DOWN", "LEFT", "LEFT", "UP", "RIGHT", "RIGHT", "UP", "LEFT", "LEFT"]),
  (8, 4, 5, ["DOWN", "DOWN", "RIGHT", "RIGHT", "UP", "LEFT", "DOWN", "LEFT", "UP", "UP"]),
  (8, 4, 6, ["DOWN", "RIGHT", "DOWN", "LEFT", "UP", "UP", "RIGHT", "RIGHT", "DOWN", "DOWN", "LEFT", "UP", "RIGHT", "UP", "LEFT", "LEFT"]),
  (8, 4, 7, ["RIGHT", "RIGHT", "DOWN", "DOWN", "LEFT", "UP", "RIGHT", "UP", "LEFT", "LEFT"]),
  (8, 5, 1, ["DOWN", "RIGHT", "UP", "LEFT", "DOWN", "DOWN", "RIGHT", "UP", "RIGHT", "DOWN", "LEFT", "LEFT", "UP", "UP", "RIGHT", "DOWN", "LEFT", "UP"]),
  (8, 5, 2, ["RIGHT", "RIGHT", "DOWN", "DOWN", "LEFT", "UP", "UP", "RIGHT", "DOWN", "LEFT", "DOWN", "RIGHT", "UP", "UP", "LEFT", "LEFT"]),
  (8, 5, 3, ["RIGHT", "DOWN", "LEFT", "DOWN", "RIGHT", "UP", "RIGHT", "DOWN", "LEFT", "LEFT", "UP", "RIGHT", "UP", "LEFT"]),
  (8, 5, 4, ["DOWN", "DOWN", "RIGHT", "UP", "RIGHT", "DOWN", "LEFT", "LEFT", "UP", "UP"]),
  (8, 5, 6, ["DOWN", "RIGHT", "DOWN", "LEFT", "UP", "RIGHT", "RIGHT", "DOWN", "LEFT", "UP", "LEFT", "DOWN", "RIGHT", "UP", "LEFT", "UP"]),
  (8, 5, 7, ["DOWN", "RIGHT", "RIGHT", "DOWN", "LEFT", "UP", "LEFT", "UP"]),
  (8, 6, 1, ["DOWN", "DOWN", "RIGHT", "UP", "UP", "RIGHT", "DOWN", "LEFT", "LEFT", "DOWN", "RIGHT", "RIGHT", "UP", "UP", "LEFT", "DOWN", "LEFT", "DOWN", "RIGHT", "UP", "LEFT", "UP"]),
  (8, 6, 2, ["DOWN", "DOWN", "RIGHT", "UP", "LEFT", "UP", "RIGHT", "DOWN", "RIGHT", "UP", "LEFT", "LEFT", "DOWN", "DOWN", "RIGHT", "RIGHT", "UP", "LEFT", "LEFT", "DOWN", "RIGHT", "UP", "LEFT", "UP"]),
  (8, 6, 3, ["RIGHT", "DOWN", "DOWN", "RIGHT", "UP", "LEFT", "LEFT", "DOWN", "RIGHT", "UP", "RIGHT", "DOWN", "LEFT", "UP", "UP", "LEFT"]),
  (8, 6, 4, ["DOWN", "RIGHT", "DOWN", "RIGHT", "UP", "LEFT", "LEFT", "DOWN", "RIGHT", "UP", "RIGHT", "DOWN", "LEFT", "UP", "LEFT", "UP"]),
  (8, 6, 5, ["DOWN", "DOWN", "RIGHT", "UP", "LEFT", "DOWN", "RIGHT", "RIGHT", "UP", "LEFT", "LEFT", "DOWN", "RIGHT", "UP", "LEFT", "UP"]),
  (8, 6, 7, ["DOWN", "DOWN", "RIGHT", "RIGHT", "UP", "LEFT", "DOWN", "LEFT", "UP", "RIGHT", "RIGHT", "DOWN", "LEFT", "LEFT", "UP", "UP"]),
  (8, 7, 1, ["DOWN", "RIGHT", "UP", "RIGHT", "DOWN", "LEFT", "DOWN", "RIGHT", "UP", "UP", "LEFT", "DOWN", "LEFT", "UP"]),
  (8, 7, 2, ["DOWN", "RIGHT", "RIGHT", "UP", "LEFT", "DOWN", "DOWN", "RIGHT", "UP", "LEFT", "UP", "RIGHT", "DOWN", "LEFT", "LEFT", "UP"]),
  (8, 7, 3, ["RIGHT", "DOWN", "DOWN", "RIGHT", "UP", "LEFT", "LEFT", "DOWN", "RIGHT", "UP", "RIGHT", "DOWN", "LEFT", "LEFT", "UP", "RIGHT", "UP", "LEFT"]),
  (8, 7, 4, ["RIGHT", "RIGHT", "DOWN", "LEFT", "DOWN", "RIGHT", "UP", "UP", "LEFT", "LEFT"]),
  (8, 7, 5, ["DOWN", "RIGHT", "DOWN", "RIGHT", "UP", "LEFT", "LEFT", "UP"]),
  (8, 7, 6, ["DOWN", "DOWN", "RIGHT", "UP", "LEFT", "UP", "RIGHT", "RIGHT", "DOWN", "LEFT", "DOWN", "RIGHT", "UP", "UP", "LEFT", "LEFT"])
]

def certSeq (a b c : Nat) : List String :=
  ((certTable.find? (fun e => e.1 == a && e.2.1 == b && e.2.2.1 == c)).map
    (fun e => e.2.2.2)).getD []


/-- The CPython binary-heap invariant on the frontier list, with the
element order `Node.lt` (comparison of stored `f`): every non-root entry
is at least its parent. -/
def HeapInv (l : List Node) : Prop :=
  ∀ j, 0 < j → j < l.length →
    (getN l ((j - 1) / 2)).f ≤ (getN l j).f

/-- `c` is reachable from `b` by a legal move sequence of length exactly
`n` (the cost model of the search: every move costs 1). -/
def ReachN (b c : Board) (n : Nat) : Prop :=
  ∃ ms : List String, ms.length = n ∧ applyMoves b ms = some c

/-! ## Theorems -/

/-- The remaining-search-relevant part of a result: path and node count
(everything except the wall-clock reading). -/
def resultCore (r : Option (List String × Nat × ℤ)) :
    Option (List String × Nat) :=
  r.map fun p => (p.1, p.2.1)

theorem astarLoop_resultCore_clock_free (hf : Board → Nat) (t1 t2 t1' t2' : ℤ)
    (fuel : Nat) :
    ∀ frontier explored bc ne,
      (astarLoop hf t1 t2 fuel frontier explored bc ne).map
          (fun r => resultCore r) =
        (astarLoop hf t1' t2' fuel frontier explored bc ne).map
          (fun r => resultCore r) := by
  induction fuel with
  | zero => intro frontier explored bc ne; rfl
  | succ n ih =>
    intro frontier explored bc ne
    rw [astarLoop, astarLoop]
    cases h : heappop frontier with
    | none => rfl
    | some c =>
      obtain ⟨current, frontier2⟩ := c
      dsimp only
      by_cases hmem : current.state ∈ explored
      · rw [if_pos hmem, if_pos hmem, ih]
      · rw [if_neg hmem, if_neg hmem]
        by_cases hg : current.state = GOAL
        · rw [if_pos hg, if_pos hg]; rfl
        · rw [if_neg hg, if_neg hg, ih]

/-- C7: for every heuristic name (and any clock readings), `solve` on the
goal board returns the empty path, zero nodes expanded, and elapsed time
exactly `0`, via the early return that precedes any node construction. -/
theorem solve_goal_trivial (hname : String) (t1 t2 : ℤ) :
    solve GOAL hname t1 t2 = some ([], 0, 0) := by
  unfold solve
  rw [if_neg (by decide : ¬(is_solvable GOAL = false)), if_pos rfl]

/-- C10: any heuristic argument other than `"manhattan"` (misspellings,
`"HAMMING"`, anything) silently selects the Hamming heuristic: the result
is the one of `solve` with `"hamming"`, and no error is possible. -/
theorem solve_nonmanhattan_is_hamming (b : Board) (hname : String)
    (t1 t2 : ℤ) (hne : hname ≠ "manhattan") :
    solve b hname t1 t2 = solve b "hamming" t1 t2 := by
  unfold solve
  rw [if_neg hne, if_neg (by decide : ¬("hamming" = "manhattan"))]

theorem solve_nonmanhattan_is_hamming_witness :
    "HAMMING" ≠ "manhattan" ∧
      solve [[1, 0, 2], [3, 4, 5], [6, 7, 8]] "HAMMING" 0 1 =
        solve [[1, 0, 2], [3, 4, 5], [6, 7, 8]] "hamming" 0 1 :=
  ⟨by decide,
    solve_nonmanhattan_is_hamming [[1, 0, 2], [3, 4, 5], [6, 7, 8]]
      "HAMMING" 0 1 (by decide)⟩

/-- C9 (counterexample): two invocations of `solve` with the same board
and heuristic but different wall-clock readings (the `time.time()` values,
modelled as the explicit clock parameters) return different results — the
elapsed-time component differs, so results are not identical as claimed. -/
theorem solve_not_fully_deterministic :
    solve [[1, 0, 2], [3, 4, 5], [6, 7, 8]] "manhattan" 0 1 ≠
      solve [[1, 0, 2], [3, 4, 5], [6, 7, 8]] "manhattan" 0 2 := by
  decide

/-- C9 (amended): `solve` is deterministic in its search behavior — for a
fixed board and heuristic name, the returned path and nodes-expanded
count are identical across invocations regardless of the clock readings;
only the elapsed-time component depends on the clock. -/
theorem solve_deterministic_modulo_clock (b : Board) (hname : String)
    (t1 t2 t1' t2' : ℤ) :
    resultCore (solve b hname t1 t2) = resultCore (solve b hname t1' t2') := by
  unfold solve
  by_cases h1 : is_solvable b = false
  · rw [if_pos h1, if_pos h1]
  · rw [if_neg h1, if_neg h1]
    by_cases h2 : b = GOAL
    · rw [if_pos h2, if_pos h2]
    · rw [if_neg h2, if_neg h2]
      have := astarLoop_resultCore_clock_free
        (if hname = "manhattan" then manhattan else hamming) t1 t2 t1' t2'
        SOLVE_FUEL [mkRoot b 0
          ((if hname = "manhattan" then manhattan else hamming) b)] [] [(b, 0)] 0
      simp only [Option.map] at this ⊢
      cases hA : astarLoop (if hname = "manhattan" then manhattan else hamming)
          t1 t2 SOLVE_FUEL [mkRoot b 0
            ((if hname = "manhattan" then manhattan else hamming) b)] [] [(b, 0)] 0 with
      | none =>
        cases hB : astarLoop (if hname = "manhattan" then manhattan else hamming)
            t1' t2' SOLVE_FUEL [mkRoot b 0
              ((if hname = "manhattan" then manhattan else hamming) b)] [] [(b, 0)] 0 with
        | none => rfl
        | some r => rw [hA, hB] at this; simp at this
      | some r =>
        cases hB : astarLoop (if hname = "manhattan" then manhattan else hamming)
            t1' t2' SOLVE_FUEL [mkRoot b 0
              ((if hname = "manhattan" then manhattan else hamming) b)] [] [(b, 0)] 0 with
        | none => rw [hA, hB] at this; simp at this
        | some r' =>
          rw [hA, hB] at this; simp only [Option.map_some] at this
          simpa using this


set_option maxHeartbeats 1600000 in
/-- C4: on a well-formed board, `get_neighbors` finds the blank at some
in-bounds cell `(i, j)`; it returns 2 neighbors when the blank is in a
corner, 3 on an edge, 4 in the center; the move labels appear in the
fixed order UP, DOWN, LEFT, RIGHT restricted to in-bounds directions;
and every neighbor is the input board with the blank swapped with the
adjacent tile in the labelled direction. -/
theorem get_neighbors_correct (s : Board) (hv : Valid s) :
    ∃ i j, find_blank s = some (i, j) ∧ i < 3 ∧ j < 3 ∧ getCell s i j = 0 ∧
      ((i ≠ 1 ∧ j ≠ 1) → (get_neighbors s).length = 2) ∧
      (((i = 1 ∧ j ≠ 1) ∨ (i ≠ 1 ∧ j = 1)) → (get_neighbors s).length = 3) ∧
      ((i = 1 ∧ j = 1) → (get_neighbors s).length = 4) ∧
      ((get_neighbors s).map Prod.snd =
        (if 1 ≤ i then ["UP"] else []) ++ (if i ≤ 1 then ["DOWN"] else []) ++
          (if 1 ≤ j then ["LEFT"] else []) ++ (if j ≤ 1 then ["RIGHT"] else [])) ∧
      ∀ q ∈ get_neighbors s,
        q.1 = swapCells s i j (moveTarget i j q.2).1 (moveTarget i j q.2).2 := by
  obtain ⟨hlen, hrows, hperm⟩ := hv
  obtain ⟨r0, r1, r2, hs⟩ := List.length_eq_three.mp hlen
  subst hs
  obtain ⟨a0, a1, a2, h0⟩ := List.length_eq_three.mp (hrows r0 (by simp))
  obtain ⟨a3, a4, a5, h1⟩ := List.length_eq_three.mp (hrows r1 (by simp))
  obtain ⟨a6, a7, a8, h2⟩ := List.length_eq_three.mp (hrows r2 (by simp))
  subst h0 h1 h2
  have hmem : (0 : Nat) ∈ [a0,a1,a2,a3,a4,a5,a6,a7,a8] := by
    have h9 : (0 : Nat) ∈ List.range 9 := by decide
    have := hperm.mem_iff.mpr h9
    simpa [EightPuzzle.flatten] using this
  by_cases c0 : a0 = 0
  · subst c0
    have hfb : find_blank [[0,a1,a2],[a3,a4,a5],[a6,a7,a8]] = some (0, 0) := by
      simp [find_blank, getCell, List.range_succ]
    have hgn : get_neighbors [[0,a1,a2],[a3,a4,a5],[a6,a7,a8]] = [([[a3,a1,a2],[0,a4,a5],[a6,a7,a8]], "DOWN"), ([[a1,0,a2],[a3,a4,a5],[a6,a7,a8]], "RIGHT")] := by
      simp only [get_neighbors, hfb]; rfl
    refine ⟨0, 0, hfb, by omega, by omega,
      by simp [getCell], by simp [hgn], by simp [hgn], by simp [hgn], by simp [hgn], ?_⟩
    intro q hq
    rw [hgn] at hq
    simp only [List.mem_cons, List.not_mem_nil, or_false] at hq
    rcases hq with h | h <;> subst h <;> rfl
  by_cases c1 : a1 = 0
  · subst c1
    have hfb : find_blank [[a0,0,a2],[a3,a4,a5],[a6,a7,a8]] = some (0, 1) := by
      simp [find_blank, getCell, List.range_succ, c0]
    have hgn : get_neighbors [[a0,0,a2],[a3,a4,a5],[a6,a7,a8]] = [([[a0,a4,a2],[a3,0,a5],[a6,a7,a8]], "DOWN"), ([[0,a0,a2],[a3,a4,a5],[a6,a7,a8]], "LEFT"), ([[a0,a2,0],[a3,a4,a5],[a6,a7,a8]], "RIGHT")] := by
      simp only [get_neighbors, hfb]; rfl
    refine ⟨0, 1, hfb, by omega, by omega,
      by simp [getCell], by simp [hgn], by simp [hgn], by simp [hgn], by simp [hgn], ?_⟩
    intro q hq
    rw [hgn] at hq
    simp only [List.mem_cons, List.not_mem_nil, or_false] at hq
    rcases hq with h | h | h <;> subst h <;> rfl
  by_cases c2 : a2 = 0
  · subst c2
    have hfb : find_blank [[a0,a1,0],[a3,a4,a5],[a6,a7,a8]] = some (0, 2) := by
      simp [find_blank, getCell, List.range_succ, c0, c1]
    have hgn : get_neighbors [[a0,a1,0],[a3,a4,a5],[a6,a7,a8]] = [([[a0,a1,a5],[a3,a4,0],[a6,a7,a8]], "DOWN"), ([[a0,0,a1],[a3,a4,a5],[a6,a7,a8]], "LEFT")] := by
      simp only [get_neighbors, hfb]; rfl
    refine ⟨0, 2, hfb, by omega, by omega,
      by simp [getCell], by simp [hgn], by simp [hgn], by simp [hgn], by simp [hgn], ?_⟩
    intro q hq
    rw [hgn] at hq
    simp only [List.mem_cons, List.not_mem_nil, or_false] at hq
    rcases hq with h | h <;> subst h <;> rfl
  by_cases c3 : a3 = 0
  · subst c3
    have hfb : find_blank [[a0,a1,a2],[0,a4,a5],[a6,a7,a8]] = some (1, 0) := by
      simp [find_blank, getCell, List.range_succ, c0, c1, c2]
    have hgn : get_neighbors [[a0,a1,a2],[0,a4,a5],[a6,a7,a8]] = [([[0,a1,a2],[a0,a4,a5],[a6,a7,a8]], "UP"), ([[a0,a1,a2],[a6,a4,a5],[0,a7,a8]], "DOWN"), ([[a0,a1,a2],[a4,0,a5],[a6,a7,a8]], "RIGHT")] := by
      simp only [get_neighbors, hfb]; rfl
    refine ⟨1, 0, hfb, by omega, by omega,
      by simp [getCell], by simp [hgn], by simp [hgn], by simp [hgn], by simp [hgn], ?_⟩
    intro q hq
    rw [hgn] at hq
    simp only [List.mem_cons, List.not_mem_nil, or_false] at hq
    rcases hq with h | h | h <;> subst h <;> rfl
  by_cases c4 : a4 = 0
  · subst c4
    have hfb : find_blank [[a0,a1,a2],[a3,0,a5],[a6,a7,a8]] = some (1, 1) := by
      simp [find_blank, getCell, List.range_succ, c0, c1, c2, c3]
    have hgn : get_neighbors [[a0,a1,a2],[a3,0,a5],[a6,a7,a8]] = [([[a0,0,a2],[a3,a1,a5],[a6,a7,a8]], "UP"), ([[a0,a1,a2],[a3,a7,a5],[a6,0,a8]], "DOWN"), ([[a0,a1,a2],[0,a3,a5],[a6,a7,a8]], "LEFT"), ([[a0,a1,a2],[a3,a5,0],[a6,a7,a8]], "RIGHT")] := by
      simp only [get_neighbors, hfb]; rfl
    refine ⟨1, 1, hfb, by omega, by omega,
      by simp [getCell], by simp [hgn], by simp [hgn], by simp [hgn], by simp [hgn], ?_⟩
    intro q hq
    rw [hgn] at hq
    simp only [List.mem_cons, List.not_mem_nil, or_false] at hq
    rcases hq with h | h | h | h <;> subst h <;> rfl
  by_cases c5 : a5 = 0
  · subst c5
    have hfb : find_blank [[a0,a1,a2],[a3,a4,0],[a6,a7,a8]] = some (1, 2) := by
      simp [find_blank, getCell, List.range_succ, c0, c1, c2, c3, c4]
    have hgn : get_neighbors [[a0,a1,a2],[a3,a4,0],[a6,a7,a8]] = [([[a0,a1,0],[a3,a4,a2],[a6,a7,a8]], "UP"), ([[a0,a1,a2],[a3,a4,a8],[a6,a7,0]], "DOWN"), ([[a0,a1,a2],[a3,0,a4],[a6,a7,a8]], "LEFT")] := by
      simp only [get_neighbors, hfb]; rfl
    refine ⟨1, 2, hfb, by omega, by omega,
      by simp [getCell], by simp [hgn], by simp [hgn], by simp [hgn], by simp [hgn], ?_⟩
    intro q hq
    rw [hgn] at hq
    simp only [List.mem_cons, List.not_mem_nil, or_false] at hq
    rcases hq with h | h | h <;> subst h <;> rfl
  by_cases c6 : a6 = 0
  · subst c6
    have hfb : find_blank [[a0,a1,a2],[a3,a4,a5],[0,a7,a8]] = some (2, 0) := by
      simp [find_blank, getCell, List.range_succ, c0, c1, c2, c3, c4, c5]
    have hgn : get_neighbors [[a0,a1,a2],[a3,a4,a5],[0,a7,a8]] = [([[a0,a1,a2],[0,a4,a5],[a3,a7,a8]], "UP"), ([[a0,a1,a2],[a3,a4,a5],[a7,0,a8]], "RIGHT")] := by
      simp only [get_neighbors, hfb]; rfl
    refine ⟨2, 0, hfb, by omega, by omega,
      by simp [getCell], by simp [hgn], by simp [hgn], by simp [hgn], by simp [hgn], ?_⟩
    intro q hq
    rw [hgn] at hq
    simp only [List.mem_cons, List.not_mem_nil, or_false] at hq
    rcases hq with h | h <;> subst h <;> rfl
  by_cases c7 : a7 = 0
  · subst c7
    have hfb : find_blank [[a0,a1,a2],[a3,a4,a5],[a6,0,a8]] = some (2, 1) := by
      simp [find_blank, getCell, List.range_succ, c0, c1, c2, c3, c4, c5, c6]
    have hgn : get_neighbors [[a0,a1,a2],[a3,a4,a5],[a6,0,a8]] = [([[a0,a1,a2],[a3,0,a5],[a6,a4,a8]], "UP"), ([[a0,a1,a2],[a3,a4,a5],[0,a6,a8]], "LEFT"), ([[a0,a1,a2],[a3,a4,a5],[a6,a8,0]], "RIGHT")] := by
      simp only [get_neighbors, hfb]; rfl
    refine ⟨2, 1, hfb, by omega, by omega,
      by simp [getCell], by simp [hgn], by simp [hgn], by simp [hgn], by simp [hgn], ?_⟩
    intro q hq
    rw [hgn] at hq
    simp only [List.mem_cons, List.not_mem_nil, or_false] at hq
    rcases hq with h | h | h <;> subst h <;> rfl
  by_cases c8 : a8 = 0
  · subst c8
    have hfb : find_blank [[a0,a1,a2],[a3,a4,a5],[a6,a7,0]] = some (2, 2) := by
      simp [find_blank, getCell, List.range_succ, c0, c1, c2, c3, c4, c5, c6, c7]
    have hgn : get_neighbors [[a0,a1,a2],[a3,a4,a5],[a6,a7,0]] = [([[a0,a1,a2],[a3,a4,0],[a6,a7,a5]], "UP"), ([[a0,a1,a2],[a3,a4,a5],[a6,0,a7]], "LEFT")] := by
      simp only [get_neighbors, hfb]; rfl
    refine ⟨2, 2, hfb, by omega, by omega,
      by simp [getCell], by simp [hgn], by simp [hgn], by simp [hgn], by simp [hgn], ?_⟩
    intro q hq
    rw [hgn] at hq
    simp only [List.mem_cons, List.not_mem_nil, or_false] at hq
    rcases hq with h | h <;> subst h <;> rfl
  exfalso
  simp only [List.mem_cons, List.not_mem_nil, or_false] at hmem
  rcases hmem with h | h | h | h | h | h | h | h | h <;> simp_all

theorem get_neighbors_correct_witness :
    Valid [[1, 0, 2], [3, 4, 5], [6, 7, 8]] ∧
      ∃ i j, find_blank [[1, 0, 2], [3, 4, 5], [6, 7, 8]] = some (i, j) ∧
        i < 3 ∧ j < 3 ∧ getCell [[1, 0, 2], [3, 4, 5], [6, 7, 8]] i j = 0 ∧
        ((i ≠ 1 ∧ j ≠ 1) →
          (get_neighbors [[1, 0, 2], [3, 4, 5], [6, 7, 8]]).length = 2) ∧
        (((i = 1 ∧ j ≠ 1) ∨ (i ≠ 1 ∧ j = 1)) →
          (get_neighbors [[1, 0, 2], [3, 4, 5], [6, 7, 8]]).length = 3) ∧
        ((i = 1 ∧ j = 1) →
          (get_neighbors [[1, 0, 2], [3, 4, 5], [6, 7, 8]]).length = 4) ∧
        ((get_neighbors [[1, 0, 2], [3, 4, 5], [6, 7, 8]]).map Prod.snd =
          (if 1 ≤ i then ["UP"] else []) ++ (if i ≤ 1 then ["DOWN"] else []) ++
            (if 1 ≤ j then ["LEFT"] else []) ++ (if j ≤ 1 then ["RIGHT"] else [])) ∧
        ∀ q ∈ get_neighbors [[1, 0, 2], [3, 4, 5], [6, 7, 8]],
          q.1 = swapCells [[1, 0, 2], [3, 4, 5], [6, 7, 8]] i j
            (moveTarget i j q.2).1 (moveTarget i j q.2).2 :=
  ⟨by decide, get_neighbors_correct [[1, 0, 2], [3, 4, 5], [6, 7, 8]] (by decide)⟩

theorem tileDist_ge_misplaced (i j a : Nat) (hi : i < 3) (hj : j < 3) :
    (if a ≠ 0 ∧ a ≠ i * 3 + j then 1 else 0) ≤ tileDist i j a := by
  unfold tileDist
  split_ifs with h1 h2
  · omega
  · omega
  · omega
  · omega

theorem tileDist_le_rim (i j a : Nat) (ha : a < 9) (hi : i < 3) (hj : j < 3) :
    tileDist i j a ≤ rim i + rim j + (rim (a / 3) + rim (a % 3)) := by
  unfold tileDist rim
  split_ifs <;> omega

theorem hamming_le_manhattan (s : Board) : hamming s ≤ manhattan s := by
  unfold hamming manhattan
  simp only [List.range_succ, List.range_zero, List.map_nil, List.map_append,
    List.map_cons, List.sum_append, List.sum_cons, List.sum_nil, List.nil_append]
  gcongr <;> exact tileDist_ge_misplaced _ _ _ (by omega) (by omega)


theorem hamming_le_eight (s : Board) (hv : Valid s) : hamming s ≤ 8 := by
  obtain ⟨hlen, hrows, hperm⟩ := hv
  obtain ⟨r0, r1, r2, hs⟩ := List.length_eq_three.mp hlen
  subst hs
  obtain ⟨a0, a1, a2, h0⟩ := List.length_eq_three.mp (hrows r0 (by simp))
  obtain ⟨a3, a4, a5, h1⟩ := List.length_eq_three.mp (hrows r1 (by simp))
  obtain ⟨a6, a7, a8, h2⟩ := List.length_eq_three.mp (hrows r2 (by simp))
  subst h0 h1 h2
  have hcp := hperm.countP_eq (fun x => decide (x ≠ 0))
  simp only [EightPuzzle.flatten, List.flatten, List.countP_cons, List.countP_nil,
    List.append_nil, List.countP_append, decide_eq_true_eq] at hcp
  norm_num at hcp
  unfold hamming
  simp only [List.range_succ, List.range_zero, List.map_nil, List.map_append,
    List.map_cons, List.sum_append, List.sum_cons, List.sum_nil, List.nil_append,
    getCell, List.getD_cons_zero, List.getD_cons_succ]
  have hr : List.countP (fun x => !decide (x = 0)) (List.range 9) = 8 := by decide
  rw [hr] at hcp
  have t0 : (if a0 ≠ 0 ∧ a0 ≠ 0 * 3 + 0 then (1:Nat) else 0) ≤ (if a0 = 0 then 0 else 1) := by split_ifs <;> omega
  have t1 : (if a1 ≠ 0 ∧ a1 ≠ 0 * 3 + 1 then (1:Nat) else 0) ≤ (if a1 = 0 then 0 else 1) := by split_ifs <;> omega
  have t2 : (if a2 ≠ 0 ∧ a2 ≠ 0 * 3 + 2 then (1:Nat) else 0) ≤ (if a2 = 0 then 0 else 1) := by split_ifs <;> omega
  have t3 : (if a3 ≠ 0 ∧ a3 ≠ 1 * 3 + 0 then (1:Nat) else 0) ≤ (if a3 = 0 then 0 else 1) := by split_ifs <;> omega
  have t4 : (if a4 ≠ 0 ∧ a4 ≠ 1 * 3 + 1 then (1:Nat) else 0) ≤ (if a4 = 0 then 0 else 1) := by split_ifs <;> omega
  have t5 : (if a5 ≠ 0 ∧ a5 ≠ 1 * 3 + 2 then (1:Nat) else 0) ≤ (if a5 = 0 then 0 else 1) := by split_ifs <;> omega
  have t6 : (if a6 ≠ 0 ∧ a6 ≠ 2 * 3 + 0 then (1:Nat) else 0) ≤ (if a6 = 0 then 0 else 1) := by split_ifs <;> omega
  have t7 : (if a7 ≠ 0 ∧ a7 ≠ 2 * 3 + 1 then (1:Nat) else 0) ≤ (if a7 = 0 then 0 else 1) := by split_ifs <;> omega
  have t8 : (if a8 ≠ 0 ∧ a8 ≠ 2 * 3 + 2 then (1:Nat) else 0) ≤ (if a8 = 0 then 0 else 1) := by split_ifs <;> omega
  omega

theorem manhattan_le_24 (s : Board) (hv : Valid s) : manhattan s ≤ 24 := by
  obtain ⟨hlen, hrows, hperm⟩ := hv
  obtain ⟨r0, r1, r2, hs⟩ := List.length_eq_three.mp hlen
  subst hs
  obtain ⟨a0, a1, a2, h0⟩ := List.length_eq_three.mp (hrows r0 (by simp))
  obtain ⟨a3, a4, a5, h1⟩ := List.length_eq_three.mp (hrows r1 (by simp))
  obtain ⟨a6, a7, a8, h2⟩ := List.length_eq_three.mp (hrows r2 (by simp))
  subst h0 h1 h2
  have hb0 : a0 < 9 := List.mem_range.mp (hperm.mem_iff.mp (by simp [EightPuzzle.flatten]))
  have hb1 : a1 < 9 := List.mem_range.mp (hperm.mem_iff.mp (by simp [EightPuzzle.flatten]))
  have hb2 : a2 < 9 := List.mem_range.mp (hperm.mem_iff.mp (by simp [EightPuzzle.flatten]))
  have hb3 : a3 < 9 := List.mem_range.mp (hperm.mem_iff.mp (by simp [EightPuzzle.flatten]))
  have hb4 : a4 < 9 := List.mem_range.mp (hperm.mem_iff.mp (by simp [EightPuzzle.flatten]))
  have hb5 : a5 < 9 := List.mem_range.mp (hperm.mem_iff.mp (by simp [EightPuzzle.flatten]))
  have hb6 : a6 < 9 := List.mem_range.mp (hperm.mem_iff.mp (by simp [EightPuzzle.flatten]))
  have hb7 : a7 < 9 := List.mem_range.mp (hperm.mem_iff.mp (by simp [EightPuzzle.flatten]))
  have hb8 : a8 < 9 := List.mem_range.mp (hperm.mem_iff.mp (by simp [EightPuzzle.flatten]))
  have hsum := (hperm.map (fun x => rim (x / 3) + rim (x % 3))).sum_eq
  have hr : ((List.range 9).map (fun x => rim (x / 3) + rim (x % 3))).sum = 12 := by decide
  rw [hr] at hsum
  simp only [EightPuzzle.flatten, List.flatten, List.append_nil, List.map_append,
    List.map_cons, List.map_nil, List.sum_append, List.sum_cons, List.sum_nil] at hsum
  have t0 : tileDist 0 0 a0 ≤ rim 0 + rim 0 + (rim (a0 / 3) + rim (a0 % 3)) := tileDist_le_rim 0 0 a0 (hb0) (by omega) (by omega)
  have t1 : tileDist 0 1 a1 ≤ rim 0 + rim 1 + (rim (a1 / 3) + rim (a1 % 3)) := tileDist_le_rim 0 1 a1 (hb1) (by omega) (by omega)
  have t2 : tileDist 0 2 a2 ≤ rim 0 + rim 2 + (rim (a2 / 3) + rim (a2 % 3)) := tileDist_le_rim 0 2 a2 (hb2) (by omega) (by omega)
  have t3 : tileDist 1 0 a3 ≤ rim 1 + rim 0 + (rim (a3 / 3) + rim (a3 % 3)) := tileDist_le_rim 1 0 a3 (hb3) (by omega) (by omega)
  have t4 : tileDist 1 1 a4 ≤ rim 1 + rim 1 + (rim (a4 / 3) + rim (a4 % 3)) := tileDist_le_rim 1 1 a4 (hb4) (by omega) (by omega)
  have t5 : tileDist 1 2 a5 ≤ rim 1 + rim 2 + (rim (a5 / 3) + rim (a5 % 3)) := tileDist_le_rim 1 2 a5 (hb5) (by omega) (by omega)
  have t6 : tileDist 2 0 a6 ≤ rim 2 + rim 0 + (rim (a6 / 3) + rim (a6 % 3)) := tileDist_le_rim 2 0 a6 (hb6) (by omega) (by omega)
  have t7 : tileDist 2 1 a7 ≤ rim 2 + rim 1 + (rim (a7 / 3) + rim (a7 % 3)) := tileDist_le_rim 2 1 a7 (hb7) (by omega) (by omega)
  have t8 : tileDist 2 2 a8 ≤ rim 2 + rim 2 + (rim (a8 / 3) + rim (a8 % 3)) := tileDist_le_rim 2 2 a8 (hb8) (by omega) (by omega)
  have hrim0 : rim 0 = 1 := rfl
  have hrim1 : rim 1 = 0 := rfl
  have hrim2 : rim 2 = 1 := rfl
  unfold manhattan
  simp only [List.range_succ, List.range_zero, List.map_nil, List.map_append,
    List.map_cons, List.sum_append, List.sum_cons, List.sum_nil, List.nil_append,
    getCell, List.getD_cons_zero, List.getD_cons_succ]
  omega

/-- C6: on every well-formed board, the Manhattan heuristic dominates the
Hamming heuristic, and both respect their ranges: `hamming ≤ 8` and
`manhattan ≤ 24` (values are naturals, hence non-negative). -/
theorem manhattan_dominates_hamming (s : Board) (hv : Valid s) :
    hamming s ≤ manhattan s ∧ hamming s ≤ 8 ∧ manhattan s ≤ 24 :=
  ⟨hamming_le_manhattan s, hamming_le_eight s hv, manhattan_le_24 s hv⟩

theorem manhattan_dominates_hamming_witness :
    Valid [[4, 1, 2], [3, 0, 5], [6, 7, 8]] ∧
      (hamming [[4, 1, 2], [3, 0, 5], [6, 7, 8]] ≤
          manhattan [[4, 1, 2], [3, 0, 5], [6, 7, 8]] ∧
        hamming [[4, 1, 2], [3, 0, 5], [6, 7, 8]] ≤ 8 ∧
        manhattan [[4, 1, 2], [3, 0, 5], [6, 7, 8]] ≤ 24) :=
  ⟨by decide, manhattan_dominates_hamming [[4, 1, 2], [3, 0, 5], [6, 7, 8]] (by decide)⟩

theorem inversions_append (l1 l2 : List Nat) :
    inversions (l1 ++ l2) = inversions l1 + crossInv l1 l2 + inversions l2 := by
  induction l1 with
  | nil => simp [crossInv, inversions]
  | cons x xs ih =>
    simp only [List.cons_append, inversions, List.append_eq, List.countP_append, ih,
      crossInv, List.map_cons, List.sum_cons]
    ring

theorem crossInv_perm (l1 : List Nat) {l2 l2' : List Nat} (h : l2.Perm l2') :
    crossInv l1 l2 = crossInv l1 l2' := by
  unfold crossInv
  congr 1
  apply List.map_congr_left
  intro x _
  exact h.countP_eq _

theorem inversions_jump2 (A B : List Nat) (x u v : Nat) (hxu : x ≠ u) (hxv : x ≠ v) :
    inversions (A ++ u :: v :: x :: B) % 2 = inversions (A ++ x :: u :: v :: B) % 2 := by
  have hperm : (u :: v :: x :: B).Perm (x :: u :: v :: B) := by
    simpa using (@List.perm_middle _ x [u, v] B)
  rw [inversions_append, inversions_append, crossInv_perm A hperm]
  have k1 : (if x < u then (1:Nat) else 0) + (if u < x then 1 else 0) = 1 := by
    split_ifs <;> omega
  have k2 : (if x < v then (1:Nat) else 0) + (if v < x then 1 else 0) = 1 := by
    split_ifs <;> omega
  simp only [inversions, List.countP_cons, List.countP_nil, decide_eq_true_eq]
  omega

set_option maxHeartbeats 1600000 in
theorem is_solvable_neighbor :
    ∀ s : Board, Valid s → ∀ q ∈ get_neighbors s,
      is_solvable q.1 = is_solvable s := by
  intro s hv
  obtain ⟨hlen, hrows, hperm⟩ := hv
  obtain ⟨r0, r1, r2, hs⟩ := List.length_eq_three.mp hlen
  subst hs
  obtain ⟨a0, a1, a2, h0⟩ := List.length_eq_three.mp (hrows r0 (by simp))
  obtain ⟨a3, a4, a5, h1⟩ := List.length_eq_three.mp (hrows r1 (by simp))
  obtain ⟨a6, a7, a8, h2⟩ := List.length_eq_three.mp (hrows r2 (by simp))
  subst h0 h1 h2
  have hnd : List.Nodup [a0,a1,a2,a3,a4,a5,a6,a7,a8] := by
    have := hperm.nodup_iff.mpr (List.nodup_range 9)
    simpa [EightPuzzle.flatten] using this
  simp only [List.nodup_cons, List.mem_cons, not_or, List.not_mem_nil, and_true,
    List.nodup_nil, not_false_eq_true] at hnd
  obtain ⟨⟨d01, d02, d03, d04, d05, d06, d07, d08⟩, ⟨d12, d13, d14, d15, d16, d17, d18⟩, ⟨d23, d24, d25, d26, d27, d28⟩, ⟨d34, d35, d36, d37, d38⟩, ⟨d45, d46, d47, d48⟩, ⟨d56, d57, d58⟩, ⟨d67, d68⟩, d78⟩ := hnd
  have hmem : (0 : Nat) ∈ [a0,a1,a2,a3,a4,a5,a6,a7,a8] := by
    have h9 : (0 : Nat) ∈ List.range 9 := by decide
    have := hperm.mem_iff.mpr h9
    simpa [EightPuzzle.flatten] using this
  simp only [List.mem_cons, List.not_mem_nil, or_false] at hmem
  rcases hmem with h | h | h | h | h | h | h | h | h <;> subst h
  · have nz1 : a1 ≠ 0 := Ne.symm d01
    have nz2 : a2 ≠ 0 := Ne.symm d02
    have nz3 : a3 ≠ 0 := Ne.symm d03
    have nz4 : a4 ≠ 0 := Ne.symm d04
    have nz5 : a5 ≠ 0 := Ne.symm d05
    have nz6 : a6 ≠ 0 := Ne.symm d06
    have nz7 : a7 ≠ 0 := Ne.symm d07
    have nz8 : a8 ≠ 0 := Ne.symm d08
    have hfb : find_blank [[0,a1,a2],[a3,a4,a5],[a6,a7,a8]] = some (0, 0) := by
      simp [find_blank, getCell, List.range_succ, nz1, nz2, nz3, nz4, nz5, nz6, nz7, nz8]
    have hgn : get_neighbors [[0,a1,a2],[a3,a4,a5],[a6,a7,a8]] = [([[a3,a1,a2],[0,a4,a5],[a6,a7,a8]], "DOWN"), ([[a1,0,a2],[a3,a4,a5],[a6,a7,a8]], "RIGHT")] := by
      simp only [get_neighbors, hfb]; rfl
    intro q hq
    rw [hgn] at hq
    simp only [List.mem_cons, List.not_mem_nil, or_false] at hq
    rcases hq with h | h <;> subst h
    · have hpar : inversions [a3,a1,a2,a4,a5,a6,a7,a8] % 2 = inversions [a1,a2,a3,a4,a5,a6,a7,a8] % 2 :=
        (inversions_jump2 [] [a4,a5,a6,a7,a8] a3 a1 a2 (Ne.symm d13) (Ne.symm d23)).symm
      simp [is_solvable, EightPuzzle.flatten, nz1, nz2, nz3, nz4, nz5, nz6, nz7, nz8]
      rw [hpar]
    · simp [is_solvable, EightPuzzle.flatten, nz1, nz2, nz3, nz4, nz5, nz6, nz7, nz8]
  · have nz0 : a0 ≠ 0 := d01
    have nz2 : a2 ≠ 0 := Ne.symm d12
    have nz3 : a3 ≠ 0 := Ne.symm d13
    have nz4 : a4 ≠ 0 := Ne.symm d14
    have nz5 : a5 ≠ 0 := Ne.symm d15
    have nz6 : a6 ≠ 0 := Ne.symm d16
    have nz7 : a7 ≠ 0 := Ne.symm d17
    have nz8 : a8 ≠ 0 := Ne.symm d18
    have hfb : find_blank [[a0,0,a2],[a3,a4,a5],[a6,a7,a8]] = some (0, 1) := by
      simp [find_blank, getCell, List.range_succ, nz0, nz2, nz3, nz4, nz5, nz6, nz7, nz8]
    have hgn : get_neighbors [[a0,0,a2],[a3,a4,a5],[a6,a7,a8]] = [([[a0,a4,a2],[a3,0,a5],[a6,a7,a8]], "DOWN"), ([[0,a0,a2],[a3,a4,a5],[a6,a7,a8]], "LEFT"), ([[a0,a2,0],[a3,a4,a5],[a6,a7,a8]], "RIGHT")] := by
      simp only [get_neighbors, hfb]; rfl
    intro q hq
    rw [hgn] at hq
    simp only [List.mem_cons, List.not_mem_nil, or_false] at hq
    rcases hq with h | h | h <;> subst h
    · have hpar : inversions [a0,a4,a2,a3,a5,a6,a7,a8] % 2 = inversions [a0,a2,a3,a4,a5,a6,a7,a8] % 2 :=
        (inversions_jump2 [a0] [a5,a6,a7,a8] a4 a2 a3 (Ne.symm d24) (Ne.symm d34)).symm
      simp [is_solvable, EightPuzzle.flatten, nz0, nz2, nz3, nz4, nz5, nz6, nz7, nz8]
      rw [hpar]
    · simp [is_solvable, EightPuzzle.flatten, nz0, nz2, nz3, nz4, nz5, nz6, nz7, nz8]
    · simp [is_solvable, EightPuzzle.flatten, nz0, nz2, nz3, nz4, nz5, nz6, nz7, nz8]
  · have nz0 : a0 ≠ 0 := d02
    have nz1 : a1 ≠ 0 := d12
    have nz3 : a3 ≠ 0 := Ne.symm d23
    have nz4 : a4 ≠ 0 := Ne.symm d24
    have nz5 : a5 ≠ 0 := Ne.symm d25
    have nz6 : a6 ≠ 0 := Ne.symm d26
    have nz7 : a7 ≠ 0 := Ne.symm d27
    have nz8 : a8 ≠ 0 := Ne.symm d28
    have hfb : find_blank [[a0,a1,0],[a3,a4,a5],[a6,a7,a8]] = some (0, 2) := by
      simp [find_blank, getCell, List.range_succ, nz0, nz1, nz3, nz4, nz5, nz6, nz7, nz8]
    have hgn : get_neighbors [[a0,a1,0],[a3,a4,a5],[a6,a7,a8]] = [([[a0,a1,a5],[a3,a4,0],[a6,a7,a8]], "DOWN"), ([[a0,0,a1],[a3,a4,a5],[a6,a7,a8]], "LEFT")] := by
      simp only [get_neighbors, hfb]; rfl
    intro q hq
    rw [hgn] at hq
    simp only [List.mem_cons, List.not_mem_nil, or_false] at hq
    rcases hq with h | h <;> subst h
    · have hpar : inversions [a0,a1,a5,a3,a4,a6,a7,a8] % 2 = inversions [a0,a1,a3,a4,a5,a6,a7,a8] % 2 :=
        (inversions_jump2 [a0,a1] [a6,a7,a8] a5 a3 a4 (Ne.symm d35) (Ne.symm d45)).symm
      simp [is_solvable, EightPuzzle.flatten, nz0, nz1, nz3, nz4, nz5, nz6, nz7, nz8]
      rw [hpar]
    · simp [is_solvable, EightPuzzle.flatten, nz0, nz1, nz3, nz4, nz5, nz6, nz7, nz8]
  · have nz0 : a0 ≠ 0 := d03
    have nz1 : a1 ≠ 0 := d13
    have nz2 : a2 ≠ 0 := d23
    have nz4 : a4 ≠ 0 := Ne.symm d34
    have nz5 : a5 ≠ 0 := Ne.symm d35
    have nz6 : a6 ≠ 0 := Ne.symm d36
    have nz7 : a7 ≠ 0 := Ne.symm d37
    have nz8 : a8 ≠ 0 := Ne.symm d38
    have hfb : find_blank [[a0,a1,a2],[0,a4,a5],[a6,a7,a8]] = some (1, 0) := by
      simp [find_blank, getCell, List.range_succ, nz0, nz1, nz2, nz4, nz5, nz6, nz7, nz8]
    have hgn : get_neighbors [[a0,a1,a2],[0,a4,a5],[a6,a7,a8]] = [([[0,a1,a2],[a0,a4,a5],[a6,a7,a8]], "UP"), ([[a0,a1,a2],[a6,a4,a5],[0,a7,a8]], "DOWN"), ([[a0,a1,a2],[a4,0,a5],[a6,a7,a8]], "RIGHT")] := by
      simp only [get_neighbors, hfb]; rfl
    intro q hq
    rw [hgn] at hq
    simp only [List.mem_cons, List.not_mem_nil, or_false] at hq
    rcases hq with h | h | h <;> subst h
    · have hpar : inversions [a1,a2,a0,a4,a5,a6,a7,a8] % 2 = inversions [a0,a1,a2,a4,a5,a6,a7,a8] % 2 :=
        inversions_jump2 [] [a4,a5,a6,a7,a8] a0 a1 a2 (d01) (d02)
      simp [is_solvable, EightPuzzle.flatten, nz0, nz1, nz2, nz4, nz5, nz6, nz7, nz8]
      rw [hpar]
    · have hpar : inversions [a0,a1,a2,a6,a4,a5,a7,a8] % 2 = inversions [a0,a1,a2,a4,a5,a6,a7,a8] % 2 :=
        (inversions_jump2 [a0,a1,a2] [a7,a8] a6 a4 a5 (Ne.symm d46) (Ne.symm d56)).symm
      simp [is_solvable, EightPuzzle.flatten, nz0, nz1, nz2, nz4, nz5, nz6, nz7, nz8]
      rw [hpar]
    · simp [is_solvable, EightPuzzle.flatten, nz0, nz1, nz2, nz4, nz5, nz6, nz7, nz8]
  · have nz0 : a0 ≠ 0 := d04
    have nz1 : a1 ≠ 0 := d14
    have nz2 : a2 ≠ 0 := d24
    have nz3 : a3 ≠ 0 := d34
    have nz5 : a5 ≠ 0 := Ne.symm d45
    have nz6 : a6 ≠ 0 := Ne.symm d46
    have nz7 : a7 ≠ 0 := Ne.symm d47
    have nz8 : a8 ≠ 0 := Ne.symm d48
    have hfb : find_blank [[a0,a1,a2],[a3,0,a5],[a6,a7,a8]] = some (1, 1) := by
      simp [find_blank, getCell, List.range_succ, nz0, nz1, nz2, nz3, nz5, nz6, nz7, nz8]
    have hgn : get_neighbors [[a0,a1,a2],[a3,0,a5],[a6,a7,a8]] = [([[a0,0,a2],[a3,a1,a5],[a6,a7,a8]], "UP"), ([[a0,a1,a2],[a3,a7,a5],[a6,0,a8]], "DOWN"), ([[a0,a1,a2],[0,a3,a5],[a6,a7,a8]], "LEFT"), ([[a0,a1,a2],[a3,a5,0],[a6,a7,a8]], "RIGHT")] := by
      simp only [get_neighbors, hfb]; rfl
    intro q hq
    rw [hgn] at hq
    simp only [List.mem_cons, List.not_mem_nil, or_false] at hq
    rcases hq with h | h | h | h <;> subst h
    · have hpar : inversions [a0,a2,a3,a1,a5,a6,a7,a8] % 2 = inversions [a0,a1,a2,a3,a5,a6,a7,a8] % 2 :=
        inversions_jump2 [a0] [a5,a6,a7,a8] a1 a2 a3 (d12) (d13)
      simp [is_solvable, EightPuzzle.flatten, nz0, nz1, nz2, nz3, nz5, nz6, nz7, nz8]
      rw [hpar]
    · have hpar : inversions [a0,a1,a2,a3,a7,a5,a6,a8] % 2 = inversions [a0,a1,a2,a3,a5,a6,a7,a8] % 2 :=
        (inversions_jump2 [a0,a1,a2,a3] [a8] a7 a5 a6 (Ne.symm d57) (Ne.symm d67)).symm
      simp [is_solvable, EightPuzzle.flatten, nz0, nz1, nz2, nz3, nz5, nz6, nz7, nz8]
      rw [hpar]
    · simp [is_solvable, EightPuzzle.flatten, nz0, nz1, nz2, nz3, nz5, nz6, nz7, nz8]
    · simp [is_solvable, EightPuzzle.flatten, nz0, nz1, nz2, nz3, nz5, nz6, nz7, nz8]
  · have nz0 : a0 ≠ 0 := d05
    have nz1 : a1 ≠ 0 := d15
    have nz2 : a2 ≠ 0 := d25
    have nz3 : a3 ≠ 0 := d35
    have nz4 : a4 ≠ 0 := d45
    have nz6 : a6 ≠ 0 := Ne.symm d56
    have nz7 : a7 ≠ 0 := Ne.symm d57
    have nz8 : a8 ≠ 0 := Ne.symm d58
    have hfb : find_blank [[a0,a1,a2],[a3,a4,0],[a6,a7,a8]] = some (1, 2) := by
      simp [find_blank, getCell, List.range_succ, nz0, nz1, nz2, nz3, nz4, nz6, nz7, nz8]
    have hgn : get_neighbors [[a0,a1,a2],[a3,a4,0],[a6,a7,a8]] = [([[a0,a1,0],[a3,a4,a2],[a6,a7,a8]], "UP"), ([[a0,a1,a2],[a3,a4,a8],[a6,a7,0]], "DOWN"), ([[a0,a1,a2],[a3,0,a4],[a6,a7,a8]], "LEFT")] := by
      simp only [get_neighbors, hfb]; rfl
    intro q hq
    rw [hgn] at hq
    simp only [List.mem_cons, List.not_mem_nil, or_false] at hq
    rcases hq with h | h | h <;> subst h
    · have hpar : inversions [a0,a1,a3,a4,a2,a6,a7,a8] % 2 = inversions [a0,a1,a2,a3,a4,a6,a7,a8] % 2 :=
        inversions_jump2 [a0,a1] [a6,a7,a8] a2 a3 a4 (d23) (d24)
      simp [is_solvable, EightPuzzle.flatten, nz0, nz1, nz2, nz3, nz4, nz6, nz7, nz8]
      rw [hpar]
    · have hpar : inversions [a0,a1,a2,a3,a4,a8,a6,a7] % 2 = inversions [a0,a1,a2,a3,a4,a6,a7,a8] % 2 :=
        (inversions_jump2 [a0,a1,a2,a3,a4] [] a8 a6 a7 (Ne.symm d68) (Ne.symm d78)).symm
      simp [is_solvable, EightPuzzle.flatten, nz0, nz1, nz2, nz3, nz4, nz6, nz7, nz8]
      rw [hpar]
    · simp [is_solvable, EightPuzzle.flatten, nz0, nz1, nz2, nz3, nz4, nz6, nz7, nz8]
  · have nz0 : a0 ≠ 0 := d06
    have nz1 : a1 ≠ 0 := d16
    have nz2 : a2 ≠ 0 := d26
    have nz3 : a3 ≠ 0 := d36
    have nz4 : a4 ≠ 0 := d46
    have nz5 : a5 ≠ 0 := d56
    have nz7 : a7 ≠ 0 := Ne.symm d67
    have nz8 : a8 ≠ 0 := Ne.symm d68
    have hfb : find_blank [[a0,a1,a2],[a3,a4,a5],[0,a7,a8]] = some (2, 0) := by
      simp [find_blank, getCell, List.range_succ, nz0, nz1, nz2, nz3, nz4, nz5, nz7, nz8]
    have hgn : get_neighbors [[a0,a1,a2],[a3,a4,a5],[0,a7,a8]] = [([[a0,a1,a2],[0,a4,a5],[a3,a7,a8]], "UP"), ([[a0,a1,a2],[a3,a4,a5],[a7,0,a8]], "RIGHT")] := by
      simp only [get_neighbors, hfb]; rfl
    intro q hq
    rw [hgn] at hq
    simp only [List.mem_cons, List.not_mem_nil, or_false] at hq
    rcases hq with h | h <;> subst h
    · have hpar : inversions [a0,a1,a2,a4,a5,a3,a7,a8] % 2 = inversions [a0,a1,a2,a3,a4,a5,a7,a8] % 2 :=
        inversions_jump2 [a0,a1,a2] [a7,a8] a3 a4 a5 (d34) (d35)
      simp [is_solvable, EightPuzzle.flatten, nz0, nz1, nz2, nz3, nz4, nz5, nz7, nz8]
      rw [hpar]
    · simp [is_solvable, EightPuzzle.flatten, nz0, nz1, nz2, nz3, nz4, nz5, nz7, nz8]
  · have nz0 : a0 ≠ 0 := d07
    have nz1 : a1 ≠ 0 := d17
    have nz2 : a2 ≠ 0 := d27
    have nz3 : a3 ≠ 0 := d37
    have nz4 : a4 ≠ 0 := d47
    have nz5 : a5 ≠ 0 := d57
    have nz6 : a6 ≠ 0 := d67
    have nz8 : a8 ≠ 0 := Ne.symm d78
    have hfb : find_blank [[a0,a1,a2],[a3,a4,a5],[a6,0,a8]] = some (2, 1) := by
      simp [find_blank, getCell, List.range_succ, nz0, nz1, nz2, nz3, nz4, nz5, nz6, nz8]
    have hgn : get_neighbors [[a0,a1,a2],[a3,a4,a5],[a6,0,a8]] = [([[a0,a1,a2],[a3,0,a5],[a6,a4,a8]], "UP"), ([[a0,a1,a2],[a3,a4,a5],[0,a6,a8]], "LEFT"), ([[a0,a1,a2],[a3,a4,a5],[a6,a8,0]], "RIGHT")] := by
      simp only [get_neighbors, hfb]; rfl
    intro q hq
    rw [hgn] at hq
    simp only [List.mem_cons, List.not_mem_nil, or_false] at hq
    rcases hq with h | h | h <;> subst h
    · have hpar : inversions [a0,a1,a2,a3,a5,a6,a4,a8] % 2 = inversions [a0,a1,a2,a3,a4,a5,a6,a8] % 2 :=
        inversions_jump2 [a0,a1,a2,a3] [a8] a4 a5 a6 (d45) (d46)
      simp [is_solvable, EightPuzzle.flatten, nz0, nz1, nz2, nz3, nz4, nz5, nz6, nz8]
      rw [hpar]
    · simp [is_solvable, EightPuzzle.flatten, nz0, nz1, nz2, nz3, nz4, nz5, nz6, nz8]
    · simp [is_solvable, EightPuzzle.flatten, nz0, nz1, nz2, nz3, nz4, nz5, nz6, nz8]
  · have nz0 : a0 ≠ 0 := d08
    have nz1 : a1 ≠ 0 := d18
    have nz2 : a2 ≠ 0 := d28
    have nz3 : a3 ≠ 0 := d38
    have nz4 : a4 ≠ 0 := d48
    have nz5 : a5 ≠ 0 := d58
    have nz6 : a6 ≠ 0 := d68
    have nz7 : a7 ≠ 0 := d78
    have hfb : find_blank [[a0,a1,a2],[a3,a4,a5],[a6,a7,0]] = some (2, 2) := by
      simp [find_blank, getCell, List.range_succ, nz0, nz1, nz2, nz3, nz4, nz5, nz6, nz7]
    have hgn : get_neighbors [[a0,a1,a2],[a3,a4,a5],[a6,a7,0]] = [([[a0,a1,a2],[a3,a4,0],[a6,a7,a5]], "UP"), ([[a0,a1,a2],[a3,a4,a5],[a6,0,a7]], "LEFT")] := by
      simp only [get_neighbors, hfb]; rfl
    intro q hq
    rw [hgn] at hq
    simp only [List.mem_cons, List.not_mem_nil, or_false] at hq
    rcases hq with h | h <;> subst h
    · have hpar : inversions [a0,a1,a2,a3,a4,a6,a7,a5] % 2 = inversions [a0,a1,a2,a3,a4,a5,a6,a7] % 2 :=
        inversions_jump2 [a0,a1,a2,a3,a4] [] a5 a6 a7 (d56) (d57)
      simp [is_solvable, EightPuzzle.flatten, nz0, nz1, nz2, nz3, nz4, nz5, nz6, nz7]
      rw [hpar]
    · simp [is_solvable, EightPuzzle.flatten, nz0, nz1, nz2, nz3, nz4, nz5, nz6, nz7]

/-- C5: the goal board is solvable, and solvability is invariant under
every legal move: each neighbor produced by `get_neighbors` has the same
`is_solvable` value as the board it came from. -/
theorem solvability_invariant :
    is_solvable GOAL = true ∧
      ∀ s : Board, Valid s → ∀ q ∈ get_neighbors s,
        is_solvable q.1 = is_solvable s :=
  ⟨by decide, is_solvable_neighbor⟩

theorem solvability_invariant_witness :
    Valid [[1, 0, 2], [3, 4, 5], [6, 7, 8]] ∧
      ([[1, 4, 2], [3, 0, 5], [6, 7, 8]], "DOWN") ∈
        get_neighbors [[1, 0, 2], [3, 4, 5], [6, 7, 8]] ∧
      is_solvable ([[1, 4, 2], [3, 0, 5], [6, 7, 8]], ("DOWN" : String)).1 =
        is_solvable [[1, 0, 2], [3, 4, 5], [6, 7, 8]] :=
  ⟨by decide, by decide,
    solvability_invariant.2 [[1, 0, 2], [3, 4, 5], [6, 7, 8]] (by decide) _ (by decide)⟩

theorem perm_swap_segments (A M B : List Nat) (x y : Nat) :
    (A ++ (x :: (M ++ y :: B))).Perm (A ++ (y :: (M ++ x :: B))) := by
  refine List.Perm.append_left A ?_
  have h1 : (x :: (M ++ y :: B)).Perm (x :: y :: (M ++ B)) :=
    List.Perm.cons x List.perm_middle
  have h2 : (x :: y :: (M ++ B)).Perm (y :: x :: (M ++ B)) :=
    List.Perm.swap y x _
  have h3 : (y :: x :: (M ++ B)).Perm (y :: (M ++ x :: B)) :=
    List.Perm.cons y List.perm_middle.symm
  exact (h1.trans h2).trans h3

set_option maxHeartbeats 1600000 in
theorem neighbors_sound (s : Board) (hv : Valid s) :
    ∀ q ∈ get_neighbors s, Valid q.1 ∧ applyMove s q.2 = some q.1 := by
  obtain ⟨hlen, hrows, hperm⟩ := hv
  obtain ⟨r0, r1, r2, hs⟩ := List.length_eq_three.mp hlen
  subst hs
  obtain ⟨a0, a1, a2, h0⟩ := List.length_eq_three.mp (hrows r0 (by simp))
  obtain ⟨a3, a4, a5, h1⟩ := List.length_eq_three.mp (hrows r1 (by simp))
  obtain ⟨a6, a7, a8, h2⟩ := List.length_eq_three.mp (hrows r2 (by simp))
  subst h0 h1 h2
  have hnd : List.Nodup [a0,a1,a2,a3,a4,a5,a6,a7,a8] := by
    have := hperm.nodup_iff.mpr (List.nodup_range 9)
    simpa [EightPuzzle.flatten] using this
  simp only [List.nodup_cons, List.mem_cons, not_or, List.not_mem_nil, and_true,
    List.nodup_nil, not_false_eq_true] at hnd
  obtain ⟨⟨d01, d02, d03, d04, d05, d06, d07, d08⟩, ⟨d12, d13, d14, d15, d16, d17, d18⟩, ⟨d23, d24, d25, d26, d27, d28⟩, ⟨d34, d35, d36, d37, d38⟩, ⟨d45, d46, d47, d48⟩, ⟨d56, d57, d58⟩, ⟨d67, d68⟩, d78⟩ := hnd
  have hmem : (0 : Nat) ∈ [a0,a1,a2,a3,a4,a5,a6,a7,a8] := by
    have h9 : (0 : Nat) ∈ List.range 9 := by decide
    have := hperm.mem_iff.mpr h9
    simpa [EightPuzzle.flatten] using this
  simp only [List.mem_cons, List.not_mem_nil, or_false] at hmem
  rcases hmem with h | h | h | h | h | h | h | h | h <;> subst h
  · have nz1 : a1 ≠ 0 := Ne.symm d01
    have nz2 : a2 ≠ 0 := Ne.symm d02
    have nz3 : a3 ≠ 0 := Ne.symm d03
    have nz4 : a4 ≠ 0 := Ne.symm d04
    have nz5 : a5 ≠ 0 := Ne.symm d05
    have nz6 : a6 ≠ 0 := Ne.symm d06
    have nz7 : a7 ≠ 0 := Ne.symm d07
    have nz8 : a8 ≠ 0 := Ne.symm d08
    have hfb : find_blank [[0,a1,a2],[a3,a4,a5],[a6,a7,a8]] = some (0, 0) := by
      simp [find_blank, getCell, List.range_succ, nz1, nz2, nz3, nz4, nz5, nz6, nz7, nz8]
    have hgn : get_neighbors [[0,a1,a2],[a3,a4,a5],[a6,a7,a8]] = [([[a3,a1,a2],[0,a4,a5],[a6,a7,a8]], "DOWN"), ([[a1,0,a2],[a3,a4,a5],[a6,a7,a8]], "RIGHT")] := by
      simp only [get_neighbors, hfb]; rfl
    intro q hq
    rw [hgn] at hq
    simp only [List.mem_cons, List.not_mem_nil, or_false] at hq
    rcases hq with h | h <;> subst h
    · refine ⟨⟨by simp, by intro r hr; simp at hr; rcases hr with h | h | h <;> subst h <;> rfl, ?_⟩, ?_⟩
      · have hp : (flatten [[a3,a1,a2],[0,a4,a5],[a6,a7,a8]]).Perm (flatten [[0,a1,a2],[a3,a4,a5],[a6,a7,a8]]) := by
          simpa [EightPuzzle.flatten] using perm_swap_segments [] [a1,a2] [a4,a5,a6,a7,a8] a3 0
        exact hp.trans hperm
      · simp [applyMove, hgn]
    · refine ⟨⟨by simp, by intro r hr; simp at hr; rcases hr with h | h | h <;> subst h <;> rfl, ?_⟩, ?_⟩
      · have hp : (flatten [[a1,0,a2],[a3,a4,a5],[a6,a7,a8]]).Perm (flatten [[0,a1,a2],[a3,a4,a5],[a6,a7,a8]]) := by
          simpa [EightPuzzle.flatten] using perm_swap_segments [] [] [a2,a3,a4,a5,a6,a7,a8] a1 0
        exact hp.trans hperm
      · simp [applyMove, hgn]
  · have nz0 : a0 ≠ 0 := d01
    have nz2 : a2 ≠ 0 := Ne.symm d12
    have nz3 : a3 ≠ 0 := Ne.symm d13
    have nz4 : a4 ≠ 0 := Ne.symm d14
    have nz5 : a5 ≠ 0 := Ne.symm d15
    have nz6 : a6 ≠ 0 := Ne.symm d16
    have nz7 : a7 ≠ 0 := Ne.symm d17
    have nz8 : a8 ≠ 0 := Ne.symm d18
    have hfb : find_blank [[a0,0,a2],[a3,a4,a5],[a6,a7,a8]] = some (0, 1) := by
      simp [find_blank, getCell, List.range_succ, nz0, nz2, nz3, nz4, nz5, nz6, nz7, nz8]
    have hgn : get_neighbors [[a0,0,a2],[a3,a4,a5],[a6,a7,a8]] = [([[a0,a4,a2],[a3,0,a5],[a6,a7,a8]], "DOWN"), ([[0,a0,a2],[a3,a4,a5],[a6,a7,a8]], "LEFT"), ([[a0,a2,0],[a3,a4,a5],[a6,a7,a8]], "RIGHT")] := by
      simp only [get_neighbors, hfb]; rfl
    intro q hq
    rw [hgn] at hq
    simp only [List.mem_cons, List.not_mem_nil, or_false] at hq
    rcases hq with h | h | h <;> subst h
    · refine ⟨⟨by simp, by intro r hr; simp at hr; rcases hr with h | h | h <;> subst h <;> rfl, ?_⟩, ?_⟩
      · have hp : (flatten [[a0,a4,a2],[a3,0,a5],[a6,a7,a8]]).Perm (flatten [[a0,0,a2],[a3,a4,a5],[a6,a7,a8]]) := by
          simpa [EightPuzzle.flatten] using perm_swap_segments [a0] [a2,a3] [a5,a6,a7,a8] a4 0
        exact hp.trans hperm
      · simp [applyMove, hgn]
    · refine ⟨⟨by simp, by intro r hr; simp at hr; rcases hr with h | h | h <;> subst h <;> rfl, ?_⟩, ?_⟩
      · have hp : (flatten [[0,a0,a2],[a3,a4,a5],[a6,a7,a8]]).Perm (flatten [[a0,0,a2],[a3,a4,a5],[a6,a7,a8]]) := by
          simpa [EightPuzzle.flatten] using perm_swap_segments [] [] [a2,a3,a4,a5,a6,a7,a8] 0 a0
        exact hp.trans hperm
      · simp [applyMove, hgn]
    · refine ⟨⟨by simp, by intro r hr; simp at hr; rcases hr with h | h | h <;> subst h <;> rfl, ?_⟩, ?_⟩
      · have hp : (flatten [[a0,a2,0],[a3,a4,a5],[a6,a7,a8]]).Perm (flatten [[a0,0,a2],[a3,a4,a5],[a6,a7,a8]]) := by
          simpa [EightPuzzle.flatten] using perm_swap_segments [a0] [] [a3,a4,a5,a6,a7,a8] a2 0
        exact hp.trans hperm
      · simp [applyMove, hgn]
  · have nz0 : a0 ≠ 0 := d02
    have nz1 : a1 ≠ 0 := d12
    have nz3 : a3 ≠ 0 := Ne.symm d23
    have nz4 : a4 ≠ 0 := Ne.symm d24
    have nz5 : a5 ≠ 0 := Ne.symm d25
    have nz6 : a6 ≠ 0 := Ne.symm d26
    have nz7 : a7 ≠ 0 := Ne.symm d27
    have nz8 : a8 ≠ 0 := Ne.symm d28
    have hfb : find_blank [[a0,a1,0],[a3,a4,a5],[a6,a7,a8]] = some (0, 2) := by
      simp [find_blank, getCell, List.range_succ, nz0, nz1, nz3, nz4, nz5, nz6, nz7, nz8]
    have hgn : get_neighbors [[a0,a1,0],[a3,a4,a5],[a6,a7,a8]] = [([[a0,a1,a5],[a3,a4,0],[a6,a7,a8]], "DOWN"), ([[a0,0,a1],[a3,a4,a5],[a6,a7,a8]], "LEFT")] := by
      simp only [get_neighbors, hfb]; rfl
    intro q hq
    rw [hgn] at hq
    simp only [List.mem_cons, List.not_mem_nil, or_false] at hq
    rcases hq with h | h <;> subst h
    · refine ⟨⟨by simp, by intro r hr; simp at hr; rcases hr with h | h | h <;> subst h <;> rfl, ?_⟩, ?_⟩
      · have hp : (flatten [[a0,a1,a5],[a3,a4,0],[a6,a7,a8]]).Perm (flatten [[a0,a1,0],[a3,a4,a5],[a6,a7,a8]]) := by
          simpa [EightPuzzle.flatten] using perm_swap_segments [a0,a1] [a3,a4] [a6,a7,a8] a5 0
        exact hp.trans hperm
      · simp [applyMove, hgn]
    · refine ⟨⟨by simp, by intro r hr; simp at hr; rcases hr with h | h | h <;> subst h <;> rfl, ?_⟩, ?_⟩
      · have hp : (flatten [[a0,0,a1],[a3,a4,a5],[a6,a7,a8]]).Perm (flatten [[a0,a1,0],[a3,a4,a5],[a6,a7,a8]]) := by
          simpa [EightPuzzle.flatten] using perm_swap_segments [a0] [] [a3,a4,a5,a6,a7,a8] 0 a1
        exact hp.trans hperm
      · simp [applyMove, hgn]
  · have nz0 : a0 ≠ 0 := d03
    have nz1 : a1 ≠ 0 := d13
    have nz2 : a2 ≠ 0 := d23
    have nz4 : a4 ≠ 0 := Ne.symm d34
    have nz5 : a5 ≠ 0 := Ne.symm d35
    have nz6 : a6 ≠ 0 := Ne.symm d36
    have nz7 : a7 ≠ 0 := Ne.symm d37
    have nz8 : a8 ≠ 0 := Ne.symm d38
    have hfb : find_blank [[a0,a1,a2],[0,a4,a5],[a6,a7,a8]] = some (1, 0) := by
      simp [find_blank, getCell, List.range_succ, nz0, nz1, nz2, nz4, nz5, nz6, nz7, nz8]
    have hgn : get_neighbors [[a0,a1,a2],[0,a4,a5],[a6,a7,a8]] = [([[0,a1,a2],[a0,a4,a5],[a6,a7,a8]], "UP"), ([[a0,a1,a2],[a6,a4,a5],[0,a7,a8]], "DOWN"), ([[a0,a1,a2],[a4,0,a5],[a6,a7,a8]], "RIGHT")] := by
      simp only [get_neighbors, hfb]; rfl
    intro q hq
    rw [hgn] at hq
    simp only [List.mem_cons, List.not_mem_nil, or_false] at hq
    rcases hq with h | h | h <;> subst h
    · refine ⟨⟨by simp, by intro r hr; simp at hr; rcases hr with h | h | h <;> subst h <;> rfl, ?_⟩, ?_⟩
      · have hp : (flatten [[0,a1,a2],[a0,a4,a5],[a6,a7,a8]]).Perm (flatten [[a0,a1,a2],[0,a4,a5],[a6,a7,a8]]) := by
          simpa [EightPuzzle.flatten] using perm_swap_segments [] [a1,a2] [a4,a5,a6,a7,a8] 0 a0
        exact hp.trans hperm
      · simp [applyMove, hgn]
    · refine ⟨⟨by simp, by intro r hr; simp at hr; rcases hr with h | h | h <;> subst h <;> rfl, ?_⟩, ?_⟩
      · have hp : (flatten [[a0,a1,a2],[a6,a4,a5],[0,a7,a8]]).Perm (flatten [[a0,a1,a2],[0,a4,a5],[a6,a7,a8]]) := by
          simpa [EightPuzzle.flatten] using perm_swap_segments [a0,a1,a2] [a4,a5] [a7,a8] a6 0
        exact hp.trans hperm
      · simp [applyMove, hgn]
    · refine ⟨⟨by simp, by intro r hr; simp at hr; rcases hr with h | h | h <;> subst h <;> rfl, ?_⟩, ?_⟩
      · have hp : (flatten [[a0,a1,a2],[a4,0,a5],[a6,a7,a8]]).Perm (flatten [[a0,a1,a2],[0,a4,a5],[a6,a7,a8]]) := by
          simpa [EightPuzzle.flatten] using perm_swap_segments [a0,a1,a2] [] [a5,a6,a7,a8] a4 0
        exact hp.trans hperm
      · simp [applyMove, hgn]
  · have nz0 : a0 ≠ 0 := d04
    have nz1 : a1 ≠ 0 := d14
    have nz2 : a2 ≠ 0 := d24
    have nz3 : a3 ≠ 0 := d34
    have nz5 : a5 ≠ 0 := Ne.symm d45
    have nz6 : a6 ≠ 0 := Ne.symm d46
    have nz7 : a7 ≠ 0 := Ne.symm d47
    have nz8 : a8 ≠ 0 := Ne.symm d48
    have hfb : find_blank [[a0,a1,a2],[a3,0,a5],[a6,a7,a8]] = some (1, 1) := by
      simp [find_blank, getCell, List.range_succ, nz0, nz1, nz2, nz3, nz5, nz6, nz7, nz8]
    have hgn : get_neighbors [[a0,a1,a2],[a3,0,a5],[a6,a7,a8]] = [([[a0,0,a2],[a3,a1,a5],[a6,a7,a8]], "UP"), ([[a0,a1,a2],[a3,a7,a5],[a6,0,a8]], "DOWN"), ([[a0,a1,a2],[0,a3,a5],[a6,a7,a8]], "LEFT"), ([[a0,a1,a2],[a3,a5,0],[a6,a7,a8]], "RIGHT")] := by
      simp only [get_neighbors, hfb]; rfl
    intro q hq
    rw [hgn] at hq
    simp only [List.mem_cons, List.not_mem_nil, or_false] at hq
    rcases hq with h | h | h | h <;> subst h
    · refine ⟨⟨by simp, by intro r hr; simp at hr; rcases hr with h | h | h <;> subst h <;> rfl, ?_⟩, ?_⟩
      · have hp : (flatten [[a0,0,a2],[a3,a1,a5],[a6,a7,a8]]).Perm (flatten [[a0,a1,a2],[a3,0,a5],[a6,a7,a8]]) := by
          simpa [EightPuzzle.flatten] using perm_swap_segments [a0] [a2,a3] [a5,a6,a7,a8] 0 a1
        exact hp.trans hperm
      · simp [applyMove, hgn]
    · refine ⟨⟨by simp, by intro r hr; simp at hr; rcases hr with h | h | h <;> subst h <;> rfl, ?_⟩, ?_⟩
      · have hp : (flatten [[a0,a1,a2],[a3,a7,a5],[a6,0,a8]]).Perm (flatten [[a0,a1,a2],[a3,0,a5],[a6,a7,a8]]) := by
          simpa [EightPuzzle.flatten] using perm_swap_segments [a0,a1,a2,a3] [a5,a6] [a8] a7 0
        exact hp.trans hperm
      · simp [applyMove, hgn]
    · refine ⟨⟨by simp, by intro r hr; simp at hr; rcases hr with h | h | h <;> subst h <;> rfl, ?_⟩, ?_⟩
      · have hp : (flatten [[a0,a1,a2],[0,a3,a5],[a6,a7,a8]]).Perm (flatten [[a0,a1,a2],[a3,0,a5],[a6,a7,a8]]) := by
          simpa [EightPuzzle.flatten] using perm_swap_segments [a0,a1,a2] [] [a5,a6,a7,a8] 0 a3
        exact hp.trans hperm
      · simp [applyMove, hgn]
    · refine ⟨⟨by simp, by intro r hr; simp at hr; rcases hr with h | h | h <;> subst h <;> rfl, ?_⟩, ?_⟩
      · have hp : (flatten [[a0,a1,a2],[a3,a5,0],[a6,a7,a8]]).Perm (flatten [[a0,a1,a2],[a3,0,a5],[a6,a7,a8]]) := by
          simpa [EightPuzzle.flatten] using perm_swap_segments [a0,a1,a2,a3] [] [a6,a7,a8] a5 0
        exact hp.trans hperm
      · simp [applyMove, hgn]
  · have nz0 : a0 ≠ 0 := d05
    have nz1 : a1 ≠ 0 := d15
    have nz2 : a2 ≠ 0 := d25
    have nz3 : a3 ≠ 0 := d35
    have nz4 : a4 ≠ 0 := d45
    have nz6 : a6 ≠ 0 := Ne.symm d56
    have nz7 : a7 ≠ 0 := Ne.symm d57
    have nz8 : a8 ≠ 0 := Ne.symm d58
    have hfb : find_blank [[a0,a1,a2],[a3,a4,0],[a6,a7,a8]] = some (1, 2) := by
      simp [find_blank, getCell, List.range_succ, nz0, nz1, nz2, nz3, nz4, nz6, nz7, nz8]
    have hgn : get_neighbors [[a0,a1,a2],[a3,a4,0],[a6,a7,a8]] = [([[a0,a1,0],[a3,a4,a2],[a6,a7,a8]], "UP"), ([[a0,a1,a2],[a3,a4,a8],[a6,a7,0]], "DOWN"), ([[a0,a1,a2],[a3,0,a4],[a6,a7,a8]], "LEFT")] := by
      simp only [get_neighbors, hfb]; rfl
    intro q hq
    rw [hgn] at hq
    simp only [List.mem_cons, List.not_mem_nil, or_false] at hq
    rcases hq with h | h | h <;> subst h
    · refine ⟨⟨by simp, by intro r hr; simp at hr; rcases hr with h | h | h <;> subst h <;> rfl, ?_⟩, ?_⟩
      · have hp : (flatten [[a0,a1,0],[a3,a4,a2],[a6,a7,a8]]).Perm (flatten [[a0,a1,a2],[a3,a4,0],[a6,a7,a8]]) := by
          simpa [EightPuzzle.flatten] using perm_swap_segments [a0,a1] [a3,a4] [a6,a7,a8] 0 a2
        exact hp.trans hperm
      · simp [applyMove, hgn]
    · refine ⟨⟨by simp, by intro r hr; simp at hr; rcases hr with h | h | h <;> subst h <;> rfl, ?_⟩, ?_⟩
      · have hp : (flatten [[a0,a1,a2],[a3,a4,a8],[a6,a7,0]]).Perm (flatten [[a0,a1,a2],[a3,a4,0],[a6,a7,a8]]) := by
          simpa [EightPuzzle.flatten] using perm_swap_segments [a0,a1,a2,a3,a4] [a6,a7] [] a8 0
        exact hp.trans hperm
      · simp [applyMove, hgn]
    · refine ⟨⟨by simp, by intro r hr; simp at hr; rcases hr with h | h | h <;> subst h <;> rfl, ?_⟩, ?_⟩
      · have hp : (flatten [[a0,a1,a2],[a3,0,a4],[a6,a7,a8]]).Perm (flatten [[a0,a1,a2],[a3,a4,0],[a6,a7,a8]]) := by
          simpa [EightPuzzle.flatten] using perm_swap_segments [a0,a1,a2,a3] [] [a6,a7,a8] 0 a4
        exact hp.trans hperm
      · simp [applyMove, hgn]
  · have nz0 : a0 ≠ 0 := d06
    have nz1 : a1 ≠ 0 := d16
    have nz2 : a2 ≠ 0 := d26
    have nz3 : a3 ≠ 0 := d36
    have nz4 : a4 ≠ 0 := d46
    have nz5 : a5 ≠ 0 := d56
    have nz7 : a7 ≠ 0 := Ne.symm d67
    have nz8 : a8 ≠ 0 := Ne.symm d68
    have hfb : find_blank [[a0,a1,a2],[a3,a4,a5],[0,a7,a8]] = some (2, 0) := by
      simp [find_blank, getCell, List.range_succ, nz0, nz1, nz2, nz3, nz4, nz5, nz7, nz8]
    have hgn : get_neighbors [[a0,a1,a2],[a3,a4,a5],[0,a7,a8]] = [([[a0,a1,a2],[0,a4,a5],[a3,a7,a8]], "UP"), ([[a0,a1,a2],[a3,a4,a5],[a7,0,a8]], "RIGHT")] := by
      simp only [get_neighbors, hfb]; rfl
    intro q hq
    rw [hgn] at hq
    simp only [List.mem_cons, List.not_mem_nil, or_false] at hq
    rcases hq with h | h <;> subst h
    · refine ⟨⟨by simp, by intro r hr; simp at hr; rcases hr with h | h | h <;> subst h <;> rfl, ?_⟩, ?_⟩
      · have hp : (flatten [[a0,a1,a2],[0,a4,a5],[a3,a7,a8]]).Perm (flatten [[a0,a1,a2],[a3,a4,a5],[0,a7,a8]]) := by
          simpa [EightPuzzle.flatten] using perm_swap_segments [a0,a1,a2] [a4,a5] [a7,a8] 0 a3
        exact hp.trans hperm
      · simp [applyMove, hgn]
    · refine ⟨⟨by simp, by intro r hr; simp at hr; rcases hr with h | h | h <;> subst h <;> rfl, ?_⟩, ?_⟩
      · have hp : (flatten [[a0,a1,a2],[a3,a4,a5],[a7,0,a8]]).Perm (flatten [[a0,a1,a2],[a3,a4,a5],[0,a7,a8]]) := by
          simpa [EightPuzzle.flatten] using perm_swap_segments [a0,a1,a2,a3,a4,a5] [] [a8] a7 0
        exact hp.trans hperm
      · simp [applyMove, hgn]
  · have nz0 : a0 ≠ 0 := d07
    have nz1 : a1 ≠ 0 := d17
    have nz2 : a2 ≠ 0 := d27
    have nz3 : a3 ≠ 0 := d37
    have nz4 : a4 ≠ 0 := d47
    have nz5 : a5 ≠ 0 := d57
    have nz6 : a6 ≠ 0 := d67
    have nz8 : a8 ≠ 0 := Ne.symm d78
    have hfb : find_blank [[a0,a1,a2],[a3,a4,a5],[a6,0,a8]] = some (2, 1) := by
      simp [find_blank, getCell, List.range_succ, nz0, nz1, nz2, nz3, nz4, nz5, nz6, nz8]
    have hgn : get_neighbors [[a0,a1,a2],[a3,a4,a5],[a6,0,a8]] = [([[a0,a1,a2],[a3,0,a5],[a6,a4,a8]], "UP"), ([[a0,a1,a2],[a3,a4,a5],[0,a6,a8]], "LEFT"), ([[a0,a1,a2],[a3,a4,a5],[a6,a8,0]], "RIGHT")] := by
      simp only [get_neighbors, hfb]; rfl
    intro q hq
    rw [hgn] at hq
    simp only [List.mem_cons, List.not_mem_nil, or_false] at hq
    rcases hq with h | h | h <;> subst h
    · refine ⟨⟨by simp, by intro r hr; simp at hr; rcases hr with h | h | h <;> subst h <;> rfl, ?_⟩, ?_⟩
      · have hp : (flatten [[a0,a1,a2],[a3,0,a5],[a6,a4,a8]]).Perm (flatten [[a0,a1,a2],[a3,a4,a5],[a6,0,a8]]) := by
          simpa [EightPuzzle.flatten] using perm_swap_segments [a0,a1,a2,a3] [a5,a6] [a8] 0 a4
        exact hp.trans hperm
      · simp [applyMove, hgn]
    · refine ⟨⟨by simp, by intro r hr; simp at hr; rcases hr with h | h | h <;> subst h <;> rfl, ?_⟩, ?_⟩
      · have hp : (flatten [[a0,a1,a2],[a3,a4,a5],[0,a6,a8]]).Perm (flatten [[a0,a1,a2],[a3,a4,a5],[a6,0,a8]]) := by
          simpa [EightPuzzle.flatten] using perm_swap_segments [a0,a1,a2,a3,a4,a5] [] [a8] 0 a6
        exact hp.trans hperm
      · simp [applyMove, hgn]
    · refine ⟨⟨by simp, by intro r hr; simp at hr; rcases hr with h | h | h <;> subst h <;> rfl, ?_⟩, ?_⟩
      · have hp : (flatten [[a0,a1,a2],[a3,a4,a5],[a6,a8,0]]).Perm (flatten [[a0,a1,a2],[a3,a4,a5],[a6,0,a8]]) := by
          simpa [EightPuzzle.flatten] using perm_swap_segments [a0,a1,a2,a3,a4,a5,a6] [] [] a8 0
        exact hp.trans hperm
      · simp [applyMove, hgn]
  · have nz0 : a0 ≠ 0 := d08
    have nz1 : a1 ≠ 0 := d18
    have nz2 : a2 ≠ 0 := d28
    have nz3 : a3 ≠ 0 := d38
    have nz4 : a4 ≠ 0 := d48
    have nz5 : a5 ≠ 0 := d58
    have nz6 : a6 ≠ 0 := d68
    have nz7 : a7 ≠ 0 := d78
    have hfb : find_blank [[a0,a1,a2],[a3,a4,a5],[a6,a7,0]] = some (2, 2) := by
      simp [find_blank, getCell, List.range_succ, nz0, nz1, nz2, nz3, nz4, nz5, nz6, nz7]
    have hgn : get_neighbors [[a0,a1,a2],[a3,a4,a5],[a6,a7,0]] = [([[a0,a1,a2],[a3,a4,0],[a6,a7,a5]], "UP"), ([[a0,a1,a2],[a3,a4,a5],[a6,0,a7]], "LEFT")] := by
      simp only [get_neighbors, hfb]; rfl
    intro q hq
    rw [hgn] at hq
    simp only [List.mem_cons, List.not_mem_nil, or_false] at hq
    rcases hq with h | h <;> subst h
    · refine ⟨⟨by simp, by intro r hr; simp at hr; rcases hr with h | h | h <;> subst h <;> rfl, ?_⟩, ?_⟩
      · have hp : (flatten [[a0,a1,a2],[a3,a4,0],[a6,a7,a5]]).Perm (flatten [[a0,a1,a2],[a3,a4,a5],[a6,a7,0]]) := by
          simpa [EightPuzzle.flatten] using perm_swap_segments [a0,a1,a2,a3,a4] [a6,a7] [] 0 a5
        exact hp.trans hperm
      · simp [applyMove, hgn]
    · refine ⟨⟨by simp, by intro r hr; simp at hr; rcases hr with h | h | h <;> subst h <;> rfl, ?_⟩, ?_⟩
      · have hp : (flatten [[a0,a1,a2],[a3,a4,a5],[a6,0,a7]]).Perm (flatten [[a0,a1,a2],[a3,a4,a5],[a6,a7,0]]) := by
          simpa [EightPuzzle.flatten] using perm_swap_segments [a0,a1,a2,a3,a4,a5,a6] [] [] 0 a7
        exact hp.trans hperm
      · simp [applyMove, hgn]

theorem applyMoves_append (b : Board) (l1 l2 : List String) :
    applyMoves b (l1 ++ l2) =
      (applyMoves b l1).bind (fun c => applyMoves c l2) := by
  unfold applyMoves
  rw [List.foldl_append]
  generalize List.foldl _ (some b) l1 = r
  cases r with
  | none =>
    simp only [Option.bind]
    induction l2 with
    | nil => rfl
    | cons m ms ih => simpa using ih
  | some c => rfl

theorem NodeOK.applyMoves_eq (start : Board) :
    ∀ nd : Node, NodeOK start nd →
      applyMoves start (collectMoves nd).reverse = some nd.state := by
  intro nd
  induction nd with
  | root s g h f => intro hok; simp [collectMoves, applyMoves, NodeOK, Node.state] at hok ⊢; simp [hok]
  | child s p m g h f ih =>
    intro hok
    obtain ⟨hp, hedge⟩ := hok
    simp only [collectMoves, List.reverse_cons]
    rw [applyMoves_append, ih hp]
    simp only [applyMoves, List.foldl_cons, List.foldl_nil, Option.some_bind, Node.state]
    exact hedge

theorem getN_mem (l : List Node) (i : Nat) (h : i < l.length) : getN l i ∈ l := by
  unfold getN
  rw [List.getD_eq_getElem?_getD, List.getElem?_eq_getElem h]
  simp [List.getElem_mem h]

theorem mem_siftdownLoop :
    ∀ (fuel : Nat) (heap : List Node) (startpos pos : Nat) (newitem : Node),
      pos < heap.length →
      ∀ x ∈ siftdownLoop fuel heap startpos pos newitem,
        x ∈ heap ∨ x = newitem := by
  intro fuel
  induction fuel with
  | zero =>
    intro heap startpos pos newitem _ x hx
    rcases List.mem_or_eq_of_mem_set hx with h | h
    · exact Or.inl h
    · exact Or.inr h
  | succ n ih =>
    intro heap startpos pos newitem hpos x hx
    rw [siftdownLoop] at hx
    by_cases hgt : startpos < pos
    · rw [if_pos hgt] at hx
      by_cases hlt : Node.lt newitem (getN heap ((pos - 1) / 2)) = true
      · rw [if_pos hlt] at hx
        have hplt : (pos - 1) / 2 < (heap.set pos (getN heap ((pos - 1) / 2))).length := by
          simp only [List.length_set]; omega
        rcases ih _ startpos _ newitem hplt x hx with h | h
        · rcases List.mem_or_eq_of_mem_set h with h2 | h2
          · exact Or.inl h2
          · subst h2
            exact Or.inl (getN_mem _ _ (by omega))
        · exact Or.inr h
      · rw [if_neg hlt] at hx
        rcases List.mem_or_eq_of_mem_set hx with h | h
        · exact Or.inl h
        · exact Or.inr h
    · rw [if_neg hgt] at hx
      rcases List.mem_or_eq_of_mem_set hx with h | h
      · exact Or.inl h
      · exact Or.inr h

theorem mem_heappush (heap : List Node) (item : Node) :
    ∀ x ∈ heappush heap item, x ∈ heap ∨ x = item := by
  intro x hx
  unfold heappush siftdown at hx
  have hlen : heap.length < (heap ++ [item]).length := by simp
  have hget : getN (heap ++ [item]) heap.length = item := by
    unfold getN
    rw [List.getD_eq_getElem?_getD, List.getElem?_append_right (le_refl _)]
    simp
  rw [hget] at hx
  rcases mem_siftdownLoop _ _ _ _ _ hlen x hx with h | h
  · rcases List.mem_append.mp h with h2 | h2
    · exact Or.inl h2
    · exact Or.inr (by simpa using h2)
  · exact Or.inr h


theorem mem_siftupLoop :
    ∀ (fuel : Nat) (heap : List Node) (pos endpos : Nat),
      pos < endpos → endpos = heap.length →
      (∀ x ∈ (siftupLoop fuel heap pos endpos).1, x ∈ heap) ∧
        (siftupLoop fuel heap pos endpos).2 < endpos ∧
        (siftupLoop fuel heap pos endpos).1.length = heap.length := by
  intro fuel
  induction fuel with
  | zero =>
    intro heap pos endpos hpos hend
    exact ⟨fun x hx => hx, hpos, rfl⟩
  | succ n ih =>
    intro heap pos endpos hpos hend
    rw [siftupLoop]
    by_cases hc : 2 * pos + 1 < endpos
    · rw [if_pos hc]
      have step : ∀ cp, cp < endpos →
          (∀ x ∈ (siftupLoop n (heap.set pos (getN heap cp)) cp endpos).1, x ∈ heap) ∧
            (siftupLoop n (heap.set pos (getN heap cp)) cp endpos).2 < endpos ∧
            (siftupLoop n (heap.set pos (getN heap cp)) cp endpos).1.length =
              heap.length := by
        intro cp hcplt
        have hcpheap : cp < heap.length := by omega
        have hlen : endpos = (heap.set pos (getN heap cp)).length := by
          simp only [List.length_set]; exact hend
        obtain ⟨hmem, hlt, hlen2⟩ := ih (heap.set pos (getN heap cp)) cp endpos hcplt hlen
        refine ⟨fun x hx => ?_, hlt, by simpa using hlen2⟩
        rcases List.mem_or_eq_of_mem_set (hmem x hx) with h | h
        · exact h
        · subst h; exact getN_mem _ _ hcpheap
      dsimp only
      split
      next hcond => exact step _ hcond.1
      next => exact step _ hc
    · rw [if_neg hc]
      exact ⟨fun x hx => hx, hpos, rfl⟩

theorem mem_siftup (heap : List Node) (pos : Nat) (hpos : pos < heap.length) :
    ∀ x ∈ siftup heap pos, x ∈ heap := by
  intro x hx
  unfold siftup at hx
  dsimp only at hx
  obtain ⟨hmem, hlt, hlen⟩ :=
    mem_siftupLoop heap.length heap pos heap.length hpos rfl
  set hp := siftupLoop heap.length heap pos heap.length with hhp
  unfold siftdown at hx
  have hb : hp.2 < hp.1.length := by omega
  have hset : hp.2 < (hp.1.set hp.2 (getN heap pos)).length := by
    simp only [List.length_set]; omega
  have hget : getN (hp.1.set hp.2 (getN heap pos)) hp.2 = getN heap pos := by
    unfold getN
    rw [List.getD_eq_getElem?_getD, List.getElem?_set_self hb, Option.getD_some]
  rw [hget] at hx
  rcases mem_siftdownLoop _ _ _ _ _ hset x hx with h | h
  · rcases List.mem_or_eq_of_mem_set h with h2 | h2
    · exact hmem x h2
    · subst h2; exact getN_mem _ _ hpos
  · subst h; exact getN_mem _ _ hpos

theorem mem_heappop (heap : List Node) (c : Node) (h2 : List Node)
    (hpop : heappop heap = some (c, h2)) :
    c ∈ heap ∧ ∀ x ∈ h2, x ∈ heap := by
  unfold heappop at hpop
  cases hlast : heap.getLast? with
  | none => rw [hlast] at hpop; exact absurd hpop (by simp)
  | some lastelt =>
    rw [hlast] at hpop
    have hlmem : lastelt ∈ heap := List.mem_of_getLast?_eq_some hlast
    have hsub : ∀ y ∈ heap.dropLast, y ∈ heap :=
      fun y hy => (List.dropLast_sublist heap).mem hy
    dsimp only at hpop
    by_cases hre : heap.dropLast.isEmpty
    · rw [if_pos hre] at hpop
      obtain ⟨rfl, rfl⟩ := Prod.mk.injEq .. ▸ Option.some_inj.mp hpop
      exact ⟨hlmem, fun x hx => hsub x hx⟩
    · rw [if_neg hre] at hpop
      have hne : heap.dropLast ≠ [] := fun h => hre (by simp [h])
      have hlen0 : 0 < heap.dropLast.length := List.length_pos.mpr hne
      obtain ⟨rfl, rfl⟩ := Prod.mk.injEq .. ▸ Option.some_inj.mp hpop
      constructor
      · exact hsub _ (getN_mem _ _ hlen0)
      · intro x hx
        have hsetlen : (0 : Nat) < (heap.dropLast.set 0 lastelt).length := by
          simpa using hlen0
        rcases List.mem_or_eq_of_mem_set
            (mem_siftup _ _ hsetlen x hx) with h | h
        · exact hsub _ h
        · subst h; exact hlmem

theorem expandFold_inv (P : Node → Prop) (hf : Board → Nat) (current : Node)
    (explored : List Board) :
    ∀ (nbrs : List (Board × String)) (frontier : List Node)
      (bc : List (Board × Nat)),
      (∀ x ∈ frontier, P x) →
      (∀ q ∈ nbrs, P (mkChild q.1 current q.2 (current.g + 1) (hf q.1))) →
      ∀ x ∈ (expandFold hf current explored nbrs (frontier, bc)).1, P x := by
  intro nbrs
  induction nbrs with
  | nil => intro frontier bc hF _ x hx; exact hF x hx
  | cons q rest ih =>
    intro frontier bc hF hQ x hx
    obtain ⟨next_state, move⟩ := q
    rw [expandFold] at hx
    by_cases hm : next_state ∈ explored
    · rw [if_pos hm] at hx
      exact ih frontier bc hF (fun r hr => hQ r (List.mem_cons_of_mem _ hr)) x hx
    · rw [if_neg hm] at hx
      by_cases hd : dominatedBC bc next_state (current.g + 1) = true
      · rw [if_pos hd] at hx
        exact ih frontier bc hF (fun r hr => hQ r (List.mem_cons_of_mem _ hr)) x hx
      · rw [if_neg hd] at hx
        refine ih _ _ ?_ (fun r hr => hQ r (List.mem_cons_of_mem _ hr)) x hx
        intro y hy
        rcases mem_heappush _ _ y hy with h | h
        · exact hF y h
        · subst h
          exact hQ (next_state, move) (List.mem_cons_self _ _)

theorem astarLoop_path (hf : Board → Nat) (t1 t2 : Int) (start : Board) :
    ∀ (fuel : Nat) (frontier : List Node) (explored : List Board)
      (bc : List (Board × Nat)) (ne : Nat) (path : List String) (n : Nat) (t : Int),
      (∀ nd ∈ frontier, NodeOK start nd ∧ Valid nd.state) →
      astarLoop hf t1 t2 fuel frontier explored bc ne = some (some (path, n, t)) →
      applyMoves start path = some GOAL := by
  intro fuel
  induction fuel with
  | zero =>
    intro frontier explored bc ne path n t _ hres
    exact absurd hres (by simp [astarLoop])
  | succ m ih =>
    intro frontier explored bc ne path n t hInv hres
    rw [astarLoop] at hres
    cases hpop : heappop frontier with
    | none => rw [hpop] at hres; exact absurd hres (by simp)
    | some cf =>
      obtain ⟨current, frontier2⟩ := cf
      rw [hpop] at hres
      obtain ⟨hcm, hsub⟩ := mem_heappop _ _ _ hpop
      have hcur := hInv current hcm
      dsimp only at hres
      by_cases hmem : current.state ∈ explored
      · rw [if_pos hmem] at hres
        exact ih frontier2 explored bc ne path n t
          (fun nd hnd => hInv nd (hsub nd hnd)) hres
      · rw [if_neg hmem] at hres
        by_cases hgoal : current.state = GOAL
        · rw [if_pos hgoal] at hres
          have hpath : (collectMoves current).reverse = path := by
            have := Option.some_inj.mp (Option.some_inj.mp hres)
            exact congrArg (fun r => r.1) this
          rw [← hpath, NodeOK.applyMoves_eq start current hcur.1, hgoal]
        · rw [if_neg hgoal] at hres
          refine ih _ _ _ _ path n t ?_ hres
          refine expandFold_inv _ hf current _ (get_neighbors current.state)
            frontier2 bc (fun nd hnd => hInv nd (hsub nd hnd)) ?_
          intro q hq
          have hns := neighbors_sound current.state hcur.2 q hq
          exact ⟨⟨hcur.1, hns.2⟩, hns.1⟩

/-- C3: whenever `solve` returns a `Solved` result on a well-formed
board, replaying the returned move list on the start board through the
neighbor-generation swap semantics (each move taking the neighbor with
that label) reaches exactly the goal board. -/
theorem solve_path_roundtrip (b : Board) (hname : String) (t1 t2 : Int)
    (path : List String) (n : Nat) (t : Int) (hv : Valid b)
    (hres : solve b hname t1 t2 = some (path, n, t)) :
    applyMoves b path = some GOAL := by
  unfold solve at hres
  by_cases h1 : is_solvable b = false
  · rw [if_pos h1] at hres; exact absurd hres (by simp)
  · rw [if_neg h1] at hres
    by_cases h2 : b = GOAL
    · rw [if_pos h2] at hres
      have := Option.some_inj.mp hres
      have hp : path = [] := (congrArg (fun r => r.1) this).symm
      subst hp h2
      rfl
    · rw [if_neg h2] at hres
      dsimp only at hres
      cases hA : astarLoop (if hname = "manhattan" then manhattan else hamming)
          t1 t2 SOLVE_FUEL
          [mkRoot b 0 ((if hname = "manhattan" then manhattan else hamming) b)]
          [] [(b, 0)] 0 with
      | none => rw [hA] at hres; exact absurd hres (by simp)
      | some r =>
        rw [hA] at hres
        have hr : r = some (path, n, t) := hres
        rw [hr] at hA
        refine astarLoop_path _ t1 t2 b SOLVE_FUEL _ _ _ _ path n t ?_ hA
        intro nd hnd
        have : nd = mkRoot b 0 ((if hname = "manhattan" then manhattan else hamming) b) := by
          simpa using hnd
        subst this
        exact ⟨rfl, hv⟩

theorem solve_path_roundtrip_witness :
    Valid [[1, 0, 2], [3, 4, 5], [6, 7, 8]] ∧
      solve [[1, 0, 2], [3, 4, 5], [6, 7, 8]] "manhattan" 0 1 =
        some (["LEFT"], 2, 1) ∧
      applyMoves [[1, 0, 2], [3, 4, 5], [6, 7, 8]] ["LEFT"] = some GOAL :=
  ⟨by decide, by decide,
    solve_path_roundtrip [[1, 0, 2], [3, 4, 5], [6, 7, 8]] "manhattan" 0 1
      ["LEFT"] 2 1 (by decide) (by decide)⟩

theorem length_siftdownLoop :
    ∀ (fuel : Nat) (heap : List Node) (sp pos : Nat) (ni : Node),
      (siftdownLoop fuel heap sp pos ni).length = heap.length := by
  intro fuel
  induction fuel with
  | zero => intro heap sp pos ni; simp [siftdownLoop]
  | succ n ih =>
    intro heap sp pos ni
    rw [siftdownLoop]
    split
    · dsimp only
      split
      · rw [ih]; simp
      · simp
    · simp

theorem length_heappush (heap : List Node) (x : Node) :
    (heappush heap x).length = heap.length + 1 := by
  unfold heappush siftdown
  rw [length_siftdownLoop]
  simp

theorem length_siftupLoop :
    ∀ (fuel : Nat) (heap : List Node) (pos endpos : Nat),
      (siftupLoop fuel heap pos endpos).1.length = heap.length := by
  intro fuel
  induction fuel with
  | zero => intro heap pos endpos; simp [siftupLoop]
  | succ n ih =>
    intro heap pos endpos
    rw [siftupLoop]
    dsimp only
    split
    · rw [ih]; simp
    · rfl

theorem length_siftup (heap : List Node) (pos : Nat) :
    (siftup heap pos).length = heap.length := by
  unfold siftup siftdown
  dsimp only
  rw [length_siftdownLoop]
  rw [List.length_set, length_siftupLoop]

theorem length_heappop (heap : List Node) (c : Node) (h2 : List Node)
    (hpop : heappop heap = some (c, h2)) :
    heap.length = h2.length + 1 := by
  unfold heappop at hpop
  cases hlast : heap.getLast? with
  | none => rw [hlast] at hpop; exact absurd hpop (by simp)
  | some lastelt =>
    rw [hlast] at hpop
    have hne : heap ≠ [] := by
      intro h; rw [h] at hlast; simp at hlast
    have hdl : heap.dropLast.length + 1 = heap.length := by
      rw [List.length_dropLast]
      have := List.length_pos.mpr hne
      omega
    dsimp only at hpop
    by_cases hre : heap.dropLast.isEmpty
    · rw [if_pos hre] at hpop
      obtain ⟨rfl, rfl⟩ := Prod.mk.injEq .. ▸ Option.some_inj.mp hpop
      have : heap.dropLast.length = 0 := by simp [List.isEmpty_iff.mp hre]
      omega
    · rw [if_neg hre] at hpop
      obtain ⟨rfl, rfl⟩ := Prod.mk.injEq .. ▸ Option.some_inj.mp hpop
      rw [length_siftup, List.length_set]
      omega

theorem length_expandFold (hf : Board → Nat) (current : Node)
    (explored : List Board) :
    ∀ (nbrs : List (Board × String)) (frontier : List Node)
      (bc : List (Board × Nat)),
      (expandFold hf current explored nbrs (frontier, bc)).1.length ≤
        frontier.length + nbrs.length := by
  intro nbrs
  induction nbrs with
  | nil => intro frontier bc; simp [expandFold]
  | cons q rest ih =>
    intro frontier bc
    obtain ⟨next_state, move⟩ := q
    rw [expandFold]
    by_cases hm : next_state ∈ explored
    · rw [if_pos hm]
      have := ih frontier bc
      simpa using Nat.le_trans this (by simp)
    · rw [if_neg hm]
      by_cases hd : dominatedBC bc next_state (current.g + 1) = true
      · rw [if_pos hd]
        have := ih frontier bc
        simpa using Nat.le_trans this (by simp)
      · rw [if_neg hd]
        have h2 := ih (heappush frontier
          (mkChild next_state current move (current.g + 1) (hf next_state)))
          (insertBC bc next_state (current.g + 1))
        rw [length_heappush] at h2
        simp only [List.length_cons]
        omega

theorem get_neighbors_length_le (s : Board) : (get_neighbors s).length ≤ 4 := by
  unfold get_neighbors
  cases find_blank s with
  | none => simp
  | some p =>
    obtain ⟨i, j⟩ := p
    simp only [moveList, List.foldl_cons, List.foldl_nil]
    split_ifs <;> simp

theorem flatten_inj_on_valid {b1 b2 : Board} (h1 : Valid b1) (h2 : Valid b2)
    (he : flatten b1 = flatten b2) : b1 = b2 := by
  obtain ⟨hl1, hr1, -⟩ := h1
  obtain ⟨hl2, hr2, -⟩ := h2
  obtain ⟨r0, r1, r2, hs⟩ := List.length_eq_three.mp hl1
  subst hs
  obtain ⟨a0, a1, a2, h0⟩ := List.length_eq_three.mp (hr1 r0 (by simp))
  obtain ⟨a3, a4, a5, hb⟩ := List.length_eq_three.mp (hr1 r1 (by simp))
  obtain ⟨a6, a7, a8, hc⟩ := List.length_eq_three.mp (hr1 r2 (by simp))
  subst h0 hb hc
  obtain ⟨s0, s1, s2, hs2⟩ := List.length_eq_three.mp hl2
  subst hs2
  obtain ⟨c0, c1, c2, h0⟩ := List.length_eq_three.mp (hr2 s0 (by simp))
  obtain ⟨c3, c4, c5, hb⟩ := List.length_eq_three.mp (hr2 s1 (by simp))
  obtain ⟨c6, c7, c8, hc⟩ := List.length_eq_three.mp (hr2 s2 (by simp))
  subst h0 hb hc
  simp [EightPuzzle.flatten] at he
  simp [he]

theorem valid_list_length_le (l : List Board) (hnd : l.Nodup)
    (hval : ∀ b ∈ l, Valid b) : l.length ≤ 362880 := by
  have hmap : (l.map flatten).Nodup := by
    refine List.Nodup.map_on ?_ hnd
    intro x hx y hy hxy
    exact flatten_inj_on_valid (hval x hx) (hval y hy) hxy
  have hsub : l.map flatten ⊆ (List.range 9).permutations := by
    intro f hf
    obtain ⟨b, hb, rfl⟩ := List.mem_map.mp hf
    exact List.mem_permutations.mpr (hval b hb).2.2
  have hsp := List.subperm_of_subset hmap hsub
  have hlen := hsp.length_le
  rw [List.length_map] at hlen
  rw [List.length_permutations] at hlen
  simpa [List.length_range] using Nat.le_trans hlen (by norm_num [Nat.factorial])

theorem astarLoop_completes (hf : Board → Nat) (t1 t2 : Int) :
    ∀ (fuel : Nat) (frontier : List Node) (explored : List Board)
      (bc : List (Board × Nat)) (ne : Nat),
      (∀ nd ∈ frontier, Valid nd.state) →
      explored.Nodup → (∀ e ∈ explored, Valid e) →
      frontier.length + 5 * (362880 - explored.length) < fuel →
      ∃ r, astarLoop hf t1 t2 fuel frontier explored bc ne = some r := by
  intro fuel
  induction fuel with
  | zero => intro _ _ _ _ _ _ _ hm; omega
  | succ m ih =>
    intro frontier explored bc ne hFv hnd hEv hmeas
    rw [astarLoop]
    cases hpop : heappop frontier with
    | none => exact ⟨none, rfl⟩
    | some cf =>
      obtain ⟨current, frontier2⟩ := cf
      obtain ⟨hcm, hsub⟩ := mem_heappop _ _ _ hpop
      have hlen2 := length_heappop _ _ _ hpop
      dsimp only
      by_cases hmem : current.state ∈ explored
      · rw [if_pos hmem]
        refine ih frontier2 explored bc ne
          (fun nd hnd2 => hFv nd (hsub nd hnd2)) hnd hEv ?_
        omega
      · rw [if_neg hmem]
        by_cases hgoal : current.state = GOAL
        · rw [if_pos hgoal]; exact ⟨_, rfl⟩
        · rw [if_neg hgoal]
          have hcv : Valid current.state := hFv current hcm
          have hnd2 : (explored ++ [current.state]).Nodup := by
            rw [List.nodup_append]
            refine ⟨hnd, List.nodup_singleton _, ?_⟩
            intro a ha hb
            simp only [List.mem_singleton] at hb
            subst hb
            exact hmem ha
          have hEv2 : ∀ e ∈ explored ++ [current.state], Valid e := by
            intro e he
            rcases List.mem_append.mp he with h | h
            · exact hEv e h
            · simp only [List.mem_singleton] at h; subst h; exact hcv
          have hcard : (explored ++ [current.state]).length ≤ 362880 :=
            valid_list_length_le _ hnd2 hEv2
          have hflen := length_expandFold hf current (explored ++ [current.state])
            (get_neighbors current.state) frontier2 bc
          have hnb := get_neighbors_length_le current.state
          refine ih _ _ _ _ ?_ hnd2 hEv2 ?_
          · refine expandFold_inv (fun nd => Valid nd.state) hf current _
              (get_neighbors current.state) frontier2 bc
              (fun nd hnd3 => hFv nd (hsub nd hnd3)) ?_
            intro q hq
            exact (neighbors_sound current.state hcv q hq).1
          · simp only [List.length_append, List.length_singleton] at hcard ⊢
            omega

/-- C8: on every well-formed board and any heuristic name, the search
loop of `solve` finishes within `SOLVE_FUEL` iterations: the loop either
rejects the board up front, returns the trivial answer, or the A* loop
reaches a genuine verdict (`some r`) before the fuel runs out — the
explored set grows at each genuine expansion, the state space has at
most 9! boards, and each expansion pushes at most 4 nodes. -/
theorem solve_terminates (b : Board) (hname : String) (t1 t2 : Int)
    (hv : Valid b) :
    ∃ r : Option (List String × Nat × Int),
      astarLoop (if hname = "manhattan" then manhattan else hamming) t1 t2
        SOLVE_FUEL
        [mkRoot b 0 ((if hname = "manhattan" then manhattan else hamming) b)]
        [] [(b, 0)] 0 = some r ∧
      (is_solvable b = false ∨ b = GOAL ∨ solve b hname t1 t2 = r) := by
  obtain ⟨r, hr⟩ := astarLoop_completes
    (if hname = "manhattan" then manhattan else hamming) t1 t2 SOLVE_FUEL
    [mkRoot b 0 ((if hname = "manhattan" then manhattan else hamming) b)]
    [] [(b, 0)] 0
    (by intro nd hnd; simp only [List.mem_singleton] at hnd; subst hnd; exact hv)
    (List.nodup_nil) (by intro e he; exact absurd he (List.not_mem_nil e))
    (by norm_num [SOLVE_FUEL, Nat.factorial])
  refine ⟨r, hr, ?_⟩
  by_cases h1 : is_solvable b = false
  · exact Or.inl h1
  · by_cases h2 : b = GOAL
    · exact Or.inr (Or.inl h2)
    · refine Or.inr (Or.inr ?_)
      unfold solve
      rw [if_neg h1, if_neg h2]
      dsimp only
      rw [hr]

theorem solve_terminates_witness :
    Valid [[1, 0, 2], [3, 4, 5], [6, 7, 8]] ∧
      ∃ r : Option (List String × Nat × Int),
        astarLoop manhattan 0 1 SOLVE_FUEL
          [mkRoot [[1, 0, 2], [3, 4, 5], [6, 7, 8]] 0
            (manhattan [[1, 0, 2], [3, 4, 5], [6, 7, 8]])]
          [] [([[1, 0, 2], [3, 4, 5], [6, 7, 8]], 0)] 0 = some r ∧
        (is_solvable [[1, 0, 2], [3, 4, 5], [6, 7, 8]] = false ∨
          [[1, 0, 2], [3, 4, 5], [6, 7, 8]] = GOAL ∨
          solve [[1, 0, 2], [3, 4, 5], [6, 7, 8]] "manhattan" 0 1 = r) :=
  ⟨by decide,
    by simpa using
      (solve_terminates [[1, 0, 2], [3, 4, 5], [6, 7, 8]] "manhattan" 0 1
        (by decide))⟩

set_option maxHeartbeats 12000000 in
theorem certSeq_correct_bool :
    ((List.range 9).all fun a => (List.range 9).all fun b => (List.range 9).all fun c =>
      if a ≠ 0 ∧ b ≠ 0 ∧ c ≠ 0 ∧ a ≠ b ∧ b ≠ c ∧ a ≠ c then
        applyMoves GOAL (certSeq a b c) == some (rotBoard a b c)
      else true) = true := by
  decide

theorem certSeq_correct (a b c : Nat) (ha : a < 9) (hb : b < 9) (hc : c < 9)
    (ha0 : a ≠ 0) (hb0 : b ≠ 0) (hc0 : c ≠ 0)
    (hab : a ≠ b) (hbc : b ≠ c) (hac : a ≠ c) :
    applyMoves GOAL (certSeq a b c) = some (rotBoard a b c) := by
  have H := certSeq_correct_bool
  simp only [List.all_eq_true] at H
  have H2 := H a (List.mem_range.mpr ha) b (List.mem_range.mpr hb) c (List.mem_range.mpr hc)
  rw [if_pos ⟨ha0, hb0, hc0, hab, hbc, hac⟩] at H2
  exact eq_of_beq H2

theorem applyMove_mem {b : Board} {m : String} {b' : Board}
    (h : applyMove b m = some b') : (b', m) ∈ get_neighbors b := by
  unfold applyMove at h
  cases hf : (get_neighbors b).find? (fun q => q.2 == m) with
  | none => rw [hf] at h; exact absurd h (by simp)
  | some q =>
    rw [hf] at h
    have hmem := List.mem_of_find?_eq_some hf
    have hp := List.find?_some hf
    have hq2 : q.2 = m := by simpa using hp
    have hq1 : q.1 = b' := by simpa using h
    rw [← hq1, ← hq2]
    exact hmem

theorem applyMoves_none (ms : List String) :
    List.foldl (fun ob m => ob.bind (fun c => applyMove c m)) none ms = none := by
  induction ms with
  | nil => rfl
  | cons m ms ih => simpa using ih

theorem applyMoves_reaches :
    ∀ (ms : List String) (b b' : Board), applyMoves b ms = some b' → Reaches b b' := by
  intro ms
  induction ms with
  | nil =>
    intro b b' h
    have : b = b' := by simpa [applyMoves] using h
    subst this
    exact Relation.ReflTransGen.refl
  | cons m ms ih =>
    intro b b' h
    unfold applyMoves at h
    rw [List.foldl_cons] at h
    cases ha : (some b).bind (fun c => applyMove c m) with
    | none =>
      rw [ha] at h
      rw [applyMoves_none ms] at h
      exact absurd h (by simp)
    | some c =>
      rw [ha] at h
      have hstep : applyMove b m = some c := by simpa using ha
      have h1 : Reaches b c :=
        Relation.ReflTransGen.single ⟨m, applyMove_mem hstep⟩
      exact h1.trans (ih c b' h)

theorem reaches_valid {x y : Board} (hv : Valid x) (hr : Reaches x y) : Valid y := by
  induction hr with
  | refl => exact hv
  | tail hxz hstep ih =>
    obtain ⟨m, hm⟩ := hstep
    exact (neighbors_sound _ ih _ hm).1

theorem reaches_solvable {x y : Board} (hv : Valid x) (hr : Reaches x y) :
    is_solvable y = is_solvable x := by
  induction hr with
  | refl => rfl
  | tail hxz hstep ih =>
    rename_i z w
    obtain ⟨m, hm⟩ := hstep
    have hvz : Valid z := reaches_valid hv hxz
    rw [is_solvable_neighbor z hvz (w, m) hm]
    exact ih

set_option maxHeartbeats 3200000 in
theorem mapB_step (g : Nat → Nat) (hg0 : g 0 = 0)
    (hgnz : ∀ t, t ≠ 0 → t < 9 → g t ≠ 0) (Y : Board) (hv : Valid Y) :
    ∀ q ∈ get_neighbors Y, (mapB g q.1, q.2) ∈ get_neighbors (mapB g Y) := by
  obtain ⟨hlen, hrows, hperm⟩ := hv
  obtain ⟨r0, r1, r2, hs⟩ := List.length_eq_three.mp hlen
  subst hs
  obtain ⟨a0, a1, a2, h0⟩ := List.length_eq_three.mp (hrows r0 (by simp))
  obtain ⟨a3, a4, a5, h1⟩ := List.length_eq_three.mp (hrows r1 (by simp))
  obtain ⟨a6, a7, a8, h2⟩ := List.length_eq_three.mp (hrows r2 (by simp))
  subst h0 h1 h2
  have hnd : List.Nodup [a0,a1,a2,a3,a4,a5,a6,a7,a8] := by
    have := hperm.nodup_iff.mpr (List.nodup_range 9)
    simpa [EightPuzzle.flatten] using this
  simp only [List.nodup_cons, List.mem_cons, not_or, List.not_mem_nil, and_true,
    List.nodup_nil, not_false_eq_true] at hnd
  obtain ⟨⟨d01, d02, d03, d04, d05, d06, d07, d08⟩, ⟨d12, d13, d14, d15, d16, d17, d18⟩, ⟨d23, d24, d25, d26, d27, d28⟩, ⟨d34, d35, d36, d37, d38⟩, ⟨d45, d46, d47, d48⟩, ⟨d56, d57, d58⟩, ⟨d67, d68⟩, d78⟩ := hnd
  have hb0 : a0 < 9 := List.mem_range.mp (hperm.mem_iff.mp (by simp [EightPuzzle.flatten]))
  have hb1 : a1 < 9 := List.mem_range.mp (hperm.mem_iff.mp (by simp [EightPuzzle.flatten]))
  have hb2 : a2 < 9 := List.mem_range.mp (hperm.mem_iff.mp (by simp [EightPuzzle.flatten]))
  have hb3 : a3 < 9 := List.mem_range.mp (hperm.mem_iff.mp (by simp [EightPuzzle.flatten]))
  have hb4 : a4 < 9 := List.mem_range.mp (hperm.mem_iff.mp (by simp [EightPuzzle.flatten]))
  have hb5 : a5 < 9 := List.mem_range.mp (hperm.mem_iff.mp (by simp [EightPuzzle.flatten]))
  have hb6 : a6 < 9 := List.mem_range.mp (hperm.mem_iff.mp (by simp [EightPuzzle.flatten]))
  have hb7 : a7 < 9 := List.mem_range.mp (hperm.mem_iff.mp (by simp [EightPuzzle.flatten]))
  have hb8 : a8 < 9 := List.mem_range.mp (hperm.mem_iff.mp (by simp [EightPuzzle.flatten]))
  have hmem : (0 : Nat) ∈ [a0,a1,a2,a3,a4,a5,a6,a7,a8] := by
    have h9 : (0 : Nat) ∈ List.range 9 := by decide
    have := hperm.mem_iff.mpr h9
    simpa [EightPuzzle.flatten] using this
  simp only [List.mem_cons, List.not_mem_nil, or_false] at hmem
  rcases hmem with h | h | h | h | h | h | h | h | h <;> subst h
  · have nz1 : a1 ≠ 0 := Ne.symm d01
    have nz2 : a2 ≠ 0 := Ne.symm d02
    have nz3 : a3 ≠ 0 := Ne.symm d03
    have nz4 : a4 ≠ 0 := Ne.symm d04
    have nz5 : a5 ≠ 0 := Ne.symm d05
    have nz6 : a6 ≠ 0 := Ne.symm d06
    have nz7 : a7 ≠ 0 := Ne.symm d07
    have nz8 : a8 ≠ 0 := Ne.symm d08
    have gz1 : g a1 ≠ 0 := hgnz a1 nz1 hb1
    have gz2 : g a2 ≠ 0 := hgnz a2 nz2 hb2
    have gz3 : g a3 ≠ 0 := hgnz a3 nz3 hb3
    have gz4 : g a4 ≠ 0 := hgnz a4 nz4 hb4
    have gz5 : g a5 ≠ 0 := hgnz a5 nz5 hb5
    have gz6 : g a6 ≠ 0 := hgnz a6 nz6 hb6
    have gz7 : g a7 ≠ 0 := hgnz a7 nz7 hb7
    have gz8 : g a8 ≠ 0 := hgnz a8 nz8 hb8
    have hfb : find_blank [[0,a1,a2],[a3,a4,a5],[a6,a7,a8]] = some (0, 0) := by
      simp [find_blank, getCell, List.range_succ, nz1, nz2, nz3, nz4, nz5, nz6, nz7, nz8]
    have hgn : get_neighbors [[0,a1,a2],[a3,a4,a5],[a6,a7,a8]] = [([[a3,a1,a2],[0,a4,a5],[a6,a7,a8]], "DOWN"), ([[a1,0,a2],[a3,a4,a5],[a6,a7,a8]], "RIGHT")] := by
      simp only [get_neighbors, hfb]; rfl
    have hfbM : find_blank (mapB g [[0,a1,a2],[a3,a4,a5],[a6,a7,a8]]) = some (0, 0) := by
      simp [mapB, find_blank, getCell, List.range_succ, hg0, gz1, gz2, gz3, gz4, gz5, gz6, gz7, gz8]
    have hgnM : get_neighbors (mapB g [[0,a1,a2],[a3,a4,a5],[a6,a7,a8]]) = [([[g a3,g a1,g a2],[g 0,g a4,g a5],[g a6,g a7,g a8]], "DOWN"), ([[g a1,g 0,g a2],[g a3,g a4,g a5],[g a6,g a7,g a8]], "RIGHT")] := by
      simp only [get_neighbors, hfbM]; rfl
    intro q hq
    rw [hgn] at hq
    simp only [List.mem_cons, List.not_mem_nil, or_false] at hq
    rcases hq with h | h <;> subst h <;> rw [hgnM] <;> simp [mapB]
  · have nz0 : a0 ≠ 0 := d01
    have nz2 : a2 ≠ 0 := Ne.symm d12
    have nz3 : a3 ≠ 0 := Ne.symm d13
    have nz4 : a4 ≠ 0 := Ne.symm d14
    have nz5 : a5 ≠ 0 := Ne.symm d15
    have nz6 : a6 ≠ 0 := Ne.symm d16
    have nz7 : a7 ≠ 0 := Ne.symm d17
    have nz8 : a8 ≠ 0 := Ne.symm d18
    have gz0 : g a0 ≠ 0 := hgnz a0 nz0 hb0
    have gz2 : g a2 ≠ 0 := hgnz a2 nz2 hb2
    have gz3 : g a3 ≠ 0 := hgnz a3 nz3 hb3
    have gz4 : g a4 ≠ 0 := hgnz a4 nz4 hb4
    have gz5 : g a5 ≠ 0 := hgnz a5 nz5 hb5
    have gz6 : g a6 ≠ 0 := hgnz a6 nz6 hb6
    have gz7 : g a7 ≠ 0 := hgnz a7 nz7 hb7
    have gz8 : g a8 ≠ 0 := hgnz a8 nz8 hb8
    have hfb : find_blank [[a0,0,a2],[a3,a4,a5],[a6,a7,a8]] = some (0, 1) := by
      simp [find_blank, getCell, List.range_succ, nz0, nz2, nz3, nz4, nz5, nz6, nz7, nz8]
    have hgn : get_neighbors [[a0,0,a2],[a3,a4,a5],[a6,a7,a8]] = [([[a0,a4,a2],[a3,0,a5],[a6,a7,a8]], "DOWN"), ([[0,a0,a2],[a3,a4,a5],[a6,a7,a8]], "LEFT"), ([[a0,a2,0],[a3,a4,a5],[a6,a7,a8]], "RIGHT")] := by
      simp only [get_neighbors, hfb]; rfl
    have hfbM : find_blank (mapB g [[a0,0,a2],[a3,a4,a5],[a6,a7,a8]]) = some (0, 1) := by
      simp [mapB, find_blank, getCell, List.range_succ, hg0, gz0, gz2, gz3, gz4, gz5, gz6, gz7, gz8]
    have hgnM : get_neighbors (mapB g [[a0,0,a2],[a3,a4,a5],[a6,a7,a8]]) = [([[g a0,g a4,g a2],[g a3,g 0,g a5],[g a6,g a7,g a8]], "DOWN"), ([[g 0,g a0,g a2],[g a3,g a4,g a5],[g a6,g a7,g a8]], "LEFT"), ([[g a0,g a2,g 0],[g a3,g a4,g a5],[g a6,g a7,g a8]], "RIGHT")] := by
      simp only [get_neighbors, hfbM]; rfl
    intro q hq
    rw [hgn] at hq
    simp only [List.mem_cons, List.not_mem_nil, or_false] at hq
    rcases hq with h | h | h <;> subst h <;> rw [hgnM] <;> simp [mapB]
  · have nz0 : a0 ≠ 0 := d02
    have nz1 : a1 ≠ 0 := d12
    have nz3 : a3 ≠ 0 := Ne.symm d23
    have nz4 : a4 ≠ 0 := Ne.symm d24
    have nz5 : a5 ≠ 0 := Ne.symm d25
    have nz6 : a6 ≠ 0 := Ne.symm d26
    have nz7 : a7 ≠ 0 := Ne.symm d27
    have nz8 : a8 ≠ 0 := Ne.symm d28
    have gz0 : g a0 ≠ 0 := hgnz a0 nz0 hb0
    have gz1 : g a1 ≠ 0 := hgnz a1 nz1 hb1
    have gz3 : g a3 ≠ 0 := hgnz a3 nz3 hb3
    have gz4 : g a4 ≠ 0 := hgnz a4 nz4 hb4
    have gz5 : g a5 ≠ 0 := hgnz a5 nz5 hb5
    have gz6 : g a6 ≠ 0 := hgnz a6 nz6 hb6
    have gz7 : g a7 ≠ 0 := hgnz a7 nz7 hb7
    have gz8 : g a8 ≠ 0 := hgnz a8 nz8 hb8
    have hfb : find_blank [[a0,a1,0],[a3,a4,a5],[a6,a7,a8]] = some (0, 2) := by
      simp [find_blank, getCell, List.range_succ, nz0, nz1, nz3, nz4, nz5, nz6, nz7, nz8]
    have hgn : get_neighbors [[a0,a1,0],[a3,a4,a5],[a6,a7,a8]] = [([[a0,a1,a5],[a3,a4,0],[a6,a7,a8]], "DOWN"), ([[a0,0,a1],[a3,a4,a5],[a6,a7,a8]], "LEFT")] := by
      simp only [get_neighbors, hfb]; rfl
    have hfbM : find_blank (mapB g [[a0,a1,0],[a3,a4,a5],[a6,a7,a8]]) = some (0, 2) := by
      simp [mapB, find_blank, getCell, List.range_succ, hg0, gz0, gz1, gz3, gz4, gz5, gz6, gz7, gz8]
    have hgnM : get_neighbors (mapB g [[a0,a1,0],[a3,a4,a5],[a6,a7,a8]]) = [([[g a0,g a1,g a5],[g a3,g a4,g 0],[g a6,g a7,g a8]], "DOWN"), ([[g a0,g 0,g a1],[g a3,g a4,g a5],[g a6,g a7,g a8]], "LEFT")] := by
      simp only [get_neighbors, hfbM]; rfl
    intro q hq
    rw [hgn] at hq
    simp only [List.mem_cons, List.not_mem_nil, or_false] at hq
    rcases hq with h | h <;> subst h <;> rw [hgnM] <;> simp [mapB]
  · have nz0 : a0 ≠ 0 := d03
    have nz1 : a1 ≠ 0 := d13
    have nz2 : a2 ≠ 0 := d23
    have nz4 : a4 ≠ 0 := Ne.symm d34
    have nz5 : a5 ≠ 0 := Ne.symm d35
    have nz6 : a6 ≠ 0 := Ne.symm d36
    have nz7 : a7 ≠ 0 := Ne.symm d37
    have nz8 : a8 ≠ 0 := Ne.symm d38
    have gz0 : g a0 ≠ 0 := hgnz a0 nz0 hb0
    have gz1 : g a1 ≠ 0 := hgnz a1 nz1 hb1
    have gz2 : g a2 ≠ 0 := hgnz a2 nz2 hb2
    have gz4 : g a4 ≠ 0 := hgnz a4 nz4 hb4
    have gz5 : g a5 ≠ 0 := hgnz a5 nz5 hb5
    have gz6 : g a6 ≠ 0 := hgnz a6 nz6 hb6
    have gz7 : g a7 ≠ 0 := hgnz a7 nz7 hb7
    have gz8 : g a8 ≠ 0 := hgnz a8 nz8 hb8
    have hfb : find_blank [[a0,a1,a2],[0,a4,a5],[a6,a7,a8]] = some (1, 0) := by
      simp [find_blank, getCell, List.range_succ, nz0, nz1, nz2, nz4, nz5, nz6, nz7, nz8]
    have hgn : get_neighbors [[a0,a1,a2],[0,a4,a5],[a6,a7,a8]] = [([[0,a1,a2],[a0,a4,a5],[a6,a7,a8]], "UP"), ([[a0,a1,a2],[a6,a4,a5],[0,a7,a8]], "DOWN"), ([[a0,a1,a2],[a4,0,a5],[a6,a7,a8]], "RIGHT")] := by
      simp only [get_neighbors, hfb]; rfl
    have hfbM : find_blank (mapB g [[a0,a1,a2],[0,a4,a5],[a6,a7,a8]]) = some (1, 0) := by
      simp [mapB, find_blank, getCell, List.range_succ, hg0, gz0, gz1, gz2, gz4, gz5, gz6, gz7, gz8]
    have hgnM : get_neighbors (mapB g [[a0,a1,a2],[0,a4,a5],[a6,a7,a8]]) = [([[g 0,g a1,g a2],[g a0,g a4,g a5],[g a6,g a7,g a8]], "UP"), ([[g a0,g a1,g a2],[g a6,g a4,g a5],[g 0,g a7,g a8]], "DOWN"), ([[g a0,g a1,g a2],[g a4,g 0,g a5],[g a6,g a7,g a8]], "RIGHT")] := by
      simp only [get_neighbors, hfbM]; rfl
    intro q hq
    rw [hgn] at hq
    simp only [List.mem_cons, List.not_mem_nil, or_false] at hq
    rcases hq with h | h | h <;> subst h <;> rw [hgnM] <;> simp [mapB]
  · have nz0 : a0 ≠ 0 := d04
    have nz1 : a1 ≠ 0 := d14
    have nz2 : a2 ≠ 0 := d24
    have nz3 : a3 ≠ 0 := d34
    have nz5 : a5 ≠ 0 := Ne.symm d45
    have nz6 : a6 ≠ 0 := Ne.symm d46
    have nz7 : a7 ≠ 0 := Ne.symm d47
    have nz8 : a8 ≠ 0 := Ne.symm d48
    have gz0 : g a0 ≠ 0 := hgnz a0 nz0 hb0
    have gz1 : g a1 ≠ 0 := hgnz a1 nz1 hb1
    have gz2 : g a2 ≠ 0 := hgnz a2 nz2 hb2
    have gz3 : g a3 ≠ 0 := hgnz a3 nz3 hb3
    have gz5 : g a5 ≠ 0 := hgnz a5 nz5 hb5
    have gz6 : g a6 ≠ 0 := hgnz a6 nz6 hb6
    have gz7 : g a7 ≠ 0 := hgnz a7 nz7 hb7
    have gz8 : g a8 ≠ 0 := hgnz a8 nz8 hb8
    have hfb : find_blank [[a0,a1,a2],[a3,0,a5],[a6,a7,a8]] = some (1, 1) := by
      simp [find_blank, getCell, List.range_succ, nz0, nz1, nz2, nz3, nz5, nz6, nz7, nz8]
    have hgn : get_neighbors [[a0,a1,a2],[a3,0,a5],[a6,a7,a8]] = [([[a0,0,a2],[a3,a1,a5],[a6,a7,a8]], "UP"), ([[a0,a1,a2],[a3,a7,a5],[a6,0,a8]], "DOWN"), ([[a0,a1,a2],[0,a3,a5],[a6,a7,a8]], "LEFT"), ([[a0,a1,a2],[a3,a5,0],[a6,a7,a8]], "RIGHT")] := by
      simp only [get_neighbors, hfb]; rfl
    have hfbM : find_blank (mapB g [[a0,a1,a2],[a3,0,a5],[a6,a7,a8]]) = some (1, 1) := by
      simp [mapB, find_blank, getCell, List.range_succ, hg0, gz0, gz1, gz2, gz3, gz5, gz6, gz7, gz8]
    have hgnM : get_neighbors (mapB g [[a0,a1,a2],[a3,0,a5],[a6,a7,a8]]) = [([[g a0,g 0,g a2],[g a3,g a1,g a5],[g a6,g a7,g a8]], "UP"), ([[g a0,g a1,g a2],[g a3,g a7,g a5],[g a6,g 0,g a8]], "DOWN"), ([[g a0,g a1,g a2],[g 0,g a3,g a5],[g a6,g a7,g a8]], "LEFT"), ([[g a0,g a1,g a2],[g a3,g a5,g 0],[g a6,g a7,g a8]], "RIGHT")] := by
      simp only [get_neighbors, hfbM]; rfl
    intro q hq
    rw [hgn] at hq
    simp only [List.mem_cons, List.not_mem_nil, or_false] at hq
    rcases hq with h | h | h | h <;> subst h <;> rw [hgnM] <;> simp [mapB]
  · have nz0 : a0 ≠ 0 := d05
    have nz1 : a1 ≠ 0 := d15
    have nz2 : a2 ≠ 0 := d25
    have nz3 : a3 ≠ 0 := d35
    have nz4 : a4 ≠ 0 := d45
    have nz6 : a6 ≠ 0 := Ne.symm d56
    have nz7 : a7 ≠ 0 := Ne.symm d57
    have nz8 : a8 ≠ 0 := Ne.symm d58
    have gz0 : g a0 ≠ 0 := hgnz a0 nz0 hb0
    have gz1 : g a1 ≠ 0 := hgnz a1 nz1 hb1
    have gz2 : g a2 ≠ 0 := hgnz a2 nz2 hb2
    have gz3 : g a3 ≠ 0 := hgnz a3 nz3 hb3
    have gz4 : g a4 ≠ 0 := hgnz a4 nz4 hb4
    have gz6 : g a6 ≠ 0 := hgnz a6 nz6 hb6
    have gz7 : g a7 ≠ 0 := hgnz a7 nz7 hb7
    have gz8 : g a8 ≠ 0 := hgnz a8 nz8 hb8
    have hfb : find_blank [[a0,a1,a2],[a3,a4,0],[a6,a7,a8]] = some (1, 2) := by
      simp [find_blank, getCell, List.range_succ, nz0, nz1, nz2, nz3, nz4, nz6, nz7, nz8]
    have hgn : get_neighbors [[a0,a1,a2],[a3,a4,0],[a6,a7,a8]] = [([[a0,a1,0],[a3,a4,a2],[a6,a7,a8]], "UP"), ([[a0,a1,a2],[a3,a4,a8],[a6,a7,0]], "DOWN"), ([[a0,a1,a2],[a3,0,a4],[a6,a7,a8]], "LEFT")] := by
      simp only [get_neighbors, hfb]; rfl
    have hfbM : find_blank (mapB g [[a0,a1,a2],[a3,a4,0],[a6,a7,a8]]) = some (1, 2) := by
      simp [mapB, find_blank, getCell, List.range_succ, hg0, gz0, gz1, gz2, gz3, gz4, gz6, gz7, gz8]
    have hgnM : get_neighbors (mapB g [[a0,a1,a2],[a3,a4,0],[a6,a7,a8]]) = [([[g a0,g a1,g 0],[g a3,g a4,g a2],[g a6,g a7,g a8]], "UP"), ([[g a0,g a1,g a2],[g a3,g a4,g a8],[g a6,g a7,g 0]], "DOWN"), ([[g a0,g a1,g a2],[g a3,g 0,g a4],[g a6,g a7,g a8]], "LEFT")] := by
      simp only [get_neighbors, hfbM]; rfl
    intro q hq
    rw [hgn] at hq
    simp only [List.mem_cons, List.not_mem_nil, or_false] at hq
    rcases hq with h | h | h <;> subst h <;> rw [hgnM] <;> simp [mapB]
  · have nz0 : a0 ≠ 0 := d06
    have nz1 : a1 ≠ 0 := d16
    have nz2 : a2 ≠ 0 := d26
    have nz3 : a3 ≠ 0 := d36
    have nz4 : a4 ≠ 0 := d46
    have nz5 : a5 ≠ 0 := d56
    have nz7 : a7 ≠ 0 := Ne.symm d67
    have nz8 : a8 ≠ 0 := Ne.symm d68
    have gz0 : g a0 ≠ 0 := hgnz a0 nz0 hb0
    have gz1 : g a1 ≠ 0 := hgnz a1 nz1 hb1
    have gz2 : g a2 ≠ 0 := hgnz a2 nz2 hb2
    have gz3 : g a3 ≠ 0 := hgnz a3 nz3 hb3
    have gz4 : g a4 ≠ 0 := hgnz a4 nz4 hb4
    have gz5 : g a5 ≠ 0 := hgnz a5 nz5 hb5
    have gz7 : g a7 ≠ 0 := hgnz a7 nz7 hb7
    have gz8 : g a8 ≠ 0 := hgnz a8 nz8 hb8
    have hfb : find_blank [[a0,a1,a2],[a3,a4,a5],[0,a7,a8]] = some (2, 0) := by
      simp [find_blank, getCell, List.range_succ, nz0, nz1, nz2, nz3, nz4, nz5, nz7, nz8]
    have hgn : get_neighbors [[a0,a1,a2],[a3,a4,a5],[0,a7,a8]] = [([[a0,a1,a2],[0,a4,a5],[a3,a7,a8]], "UP"), ([[a0,a1,a2],[a3,a4,a5],[a7,0,a8]], "RIGHT")] := by
      simp only [get_neighbors, hfb]; rfl
    have hfbM : find_blank (mapB g [[a0,a1,a2],[a3,a4,a5],[0,a7,a8]]) = some (2, 0) := by
      simp [mapB, find_blank, getCell, List.range_succ, hg0, gz0, gz1, gz2, gz3, gz4, gz5, gz7, gz8]
    have hgnM : get_neighbors (mapB g [[a0,a1,a2],[a3,a4,a5],[0,a7,a8]]) = [([[g a0,g a1,g a2],[g 0,g a4,g a5],[g a3,g a7,g a8]], "UP"), ([[g a0,g a1,g a2],[g a3,g a4,g a5],[g a7,g 0,g a8]], "RIGHT")] := by
      simp only [get_neighbors, hfbM]; rfl
    intro q hq
    rw [hgn] at hq
    simp only [List.mem_cons, List.not_mem_nil, or_false] at hq
    rcases hq with h | h <;> subst h <;> rw [hgnM] <;> simp [mapB]
  · have nz0 : a0 ≠ 0 := d07
    have nz1 : a1 ≠ 0 := d17
    have nz2 : a2 ≠ 0 := d27
    have nz3 : a3 ≠ 0 := d37
    have nz4 : a4 ≠ 0 := d47
    have nz5 : a5 ≠ 0 := d57
    have nz6 : a6 ≠ 0 := d67
    have nz8 : a8 ≠ 0 := Ne.symm d78
    have gz0 : g a0 ≠ 0 := hgnz a0 nz0 hb0
    have gz1 : g a1 ≠ 0 := hgnz a1 nz1 hb1
    have gz2 : g a2 ≠ 0 := hgnz a2 nz2 hb2
    have gz3 : g a3 ≠ 0 := hgnz a3 nz3 hb3
    have gz4 : g a4 ≠ 0 := hgnz a4 nz4 hb4
    have gz5 : g a5 ≠ 0 := hgnz a5 nz5 hb5
    have gz6 : g a6 ≠ 0 := hgnz a6 nz6 hb6
    have gz8 : g a8 ≠ 0 := hgnz a8 nz8 hb8
    have hfb : find_blank [[a0,a1,a2],[a3,a4,a5],[a6,0,a8]] = some (2, 1) := by
      simp [find_blank, getCell, List.range_succ, nz0, nz1, nz2, nz3, nz4, nz5, nz6, nz8]
    have hgn : get_neighbors [[a0,a1,a2],[a3,a4,a5],[a6,0,a8]] = [([[a0,a1,a2],[a3,0,a5],[a6,a4,a8]], "UP"), ([[a0,a1,a2],[a3,a4,a5],[0,a6,a8]], "LEFT"), ([[a0,a1,a2],[a3,a4,a5],[a6,a8,0]], "RIGHT")] := by
      simp only [get_neighbors, hfb]; rfl
    have hfbM : find_blank (mapB g [[a0,a1,a2],[a3,a4,a5],[a6,0,a8]]) = some (2, 1) := by
      simp [mapB, find_blank, getCell, List.range_succ, hg0, gz0, gz1, gz2, gz3, gz4, gz5, gz6, gz8]
    have hgnM : get_neighbors (mapB g [[a0,a1,a2],[a3,a4,a5],[a6,0,a8]]) = [([[g a0,g a1,g a2],[g a3,g 0,g a5],[g a6,g a4,g a8]], "UP"), ([[g a0,g a1,g a2],[g a3,g a4,g a5],[g 0,g a6,g a8]], "LEFT"), ([[g a0,g a1,g a2],[g a3,g a4,g a5],[g a6,g a8,g 0]], "RIGHT")] := by
      simp only [get_neighbors, hfbM]; rfl
    intro q hq
    rw [hgn] at hq
    simp only [List.mem_cons, List.not_mem_nil, or_false] at hq
    rcases hq with h | h | h <;> subst h <;> rw [hgnM] <;> simp [mapB]
  · have nz0 : a0 ≠ 0 := d08
    have nz1 : a1 ≠ 0 := d18
    have nz2 : a2 ≠ 0 := d28
    have nz3 : a3 ≠ 0 := d38
    have nz4 : a4 ≠ 0 := d48
    have nz5 : a5 ≠ 0 := d58
    have nz6 : a6 ≠ 0 := d68
    have nz7 : a7 ≠ 0 := d78
    have gz0 : g a0 ≠ 0 := hgnz a0 nz0 hb0
    have gz1 : g a1 ≠ 0 := hgnz a1 nz1 hb1
    have gz2 : g a2 ≠ 0 := hgnz a2 nz2 hb2
    have gz3 : g a3 ≠ 0 := hgnz a3 nz3 hb3
    have gz4 : g a4 ≠ 0 := hgnz a4 nz4 hb4
    have gz5 : g a5 ≠ 0 := hgnz a5 nz5 hb5
    have gz6 : g a6 ≠ 0 := hgnz a6 nz6 hb6
    have gz7 : g a7 ≠ 0 := hgnz a7 nz7 hb7
    have hfb : find_blank [[a0,a1,a2],[a3,a4,a5],[a6,a7,0]] = some (2, 2) := by
      simp [find_blank, getCell, List.range_succ, nz0, nz1, nz2, nz3, nz4, nz5, nz6, nz7]
    have hgn : get_neighbors [[a0,a1,a2],[a3,a4,a5],[a6,a7,0]] = [([[a0,a1,a2],[a3,a4,0],[a6,a7,a5]], "UP"), ([[a0,a1,a2],[a3,a4,a5],[a6,0,a7]], "LEFT")] := by
      simp only [get_neighbors, hfb]; rfl
    have hfbM : find_blank (mapB g [[a0,a1,a2],[a3,a4,a5],[a6,a7,0]]) = some (2, 2) := by
      simp [mapB, find_blank, getCell, List.range_succ, hg0, gz0, gz1, gz2, gz3, gz4, gz5, gz6, gz7]
    have hgnM : get_neighbors (mapB g [[a0,a1,a2],[a3,a4,a5],[a6,a7,0]]) = [([[g a0,g a1,g a2],[g a3,g a4,g 0],[g a6,g a7,g a5]], "UP"), ([[g a0,g a1,g a2],[g a3,g a4,g a5],[g a6,g 0,g a7]], "LEFT")] := by
      simp only [get_neighbors, hfbM]; rfl
    intro q hq
    rw [hgn] at hq
    simp only [List.mem_cons, List.not_mem_nil, or_false] at hq
    rcases hq with h | h <;> subst h <;> rw [hgnM] <;> simp [mapB]

theorem reaches_mapB (g : Nat → Nat) (hg0 : g 0 = 0)
    (hgnz : ∀ t, t ≠ 0 → t < 9 → g t ≠ 0) {X Y : Board} (hv : Valid X)
    (hr : Reaches X Y) : Reaches (mapB g X) (mapB g Y) := by
  induction hr with
  | refl => exact Relation.ReflTransGen.refl
  | tail hxz hstep ih =>
    rename_i z w
    obtain ⟨m, hm⟩ := hstep
    exact ih.tail ⟨m, mapB_step g hg0 hgnz z (reaches_valid hv hxz) (w, m) hm⟩

theorem flatten_length (C : Board) (hv : Valid C) : (flatten C).length = 9 := by
  rw [hv.2.2.length_eq]
  simp

theorem tileAt_mem (C : Board) (hv : Valid C) (i : Nat) (hi : i < 9) :
    tileAt C i ∈ flatten C := by
  unfold tileAt
  have hlen := flatten_length C hv
  rw [List.getD_eq_getElem?_getD, List.getElem?_eq_getElem (by omega)]
  simp [List.getElem_mem]

theorem tileAt_lt (C : Board) (hv : Valid C) (i : Nat) (hi : i < 9) :
    tileAt C i < 9 :=
  List.mem_range.mp (hv.2.2.mem_iff.mp (tileAt_mem C hv i hi))

theorem tileAt_inj (C : Board) (hv : Valid C) {i j : Nat} (hi : i < 9)
    (hj : j < 9) (hij : i ≠ j) : tileAt C i ≠ tileAt C j := by
  have hnd : (flatten C).Nodup := hv.2.2.nodup_iff.mpr (List.nodup_range 9)
  have hlen := flatten_length C hv
  unfold tileAt
  rw [List.getD_eq_getElem?_getD, List.getElem?_eq_getElem (by omega),
    List.getD_eq_getElem?_getD, List.getElem?_eq_getElem (by omega)]
  simpa using fun hEq => hij (List.Nodup.getElem_inj_iff hnd |>.mp (by simpa using hEq))

theorem tileAt_surj (C : Board) (hv : Valid C) (t : Nat) (ht : t < 9) :
    ∃ i, i < 9 ∧ tileAt C i = t := by
  have hmem : t ∈ flatten C := hv.2.2.mem_iff.mpr (List.mem_range.mpr ht)
  obtain ⟨i, hi, hEq⟩ := List.mem_iff_getElem.mp hmem
  have hlen := flatten_length C hv
  refine ⟨i, by omega, ?_⟩
  unfold tileAt
  rw [List.getD_eq_getElem?_getD, List.getElem?_eq_getElem (by omega)]
  simpa using hEq

theorem valid_ext (C C' : Board) (hv : Valid C) (hv' : Valid C')
    (h : ∀ i, i < 9 → tileAt C i = tileAt C' i) : C = C' := by
  obtain ⟨hl1, hr1, -⟩ := hv
  obtain ⟨hl2, hr2, -⟩ := hv'
  obtain ⟨r0, r1, r2, hs⟩ := List.length_eq_three.mp hl1
  subst hs
  obtain ⟨a0, a1, a2, h0⟩ := List.length_eq_three.mp (hr1 r0 (by simp))
  obtain ⟨a3, a4, a5, hb⟩ := List.length_eq_three.mp (hr1 r1 (by simp))
  obtain ⟨a6, a7, a8, hc⟩ := List.length_eq_three.mp (hr1 r2 (by simp))
  subst h0 hb hc
  obtain ⟨s0, s1, s2, hs2⟩ := List.length_eq_three.mp hl2
  subst hs2
  obtain ⟨c0, c1, c2, h0⟩ := List.length_eq_three.mp (hr2 s0 (by simp))
  obtain ⟨c3, c4, c5, hb⟩ := List.length_eq_three.mp (hr2 s1 (by simp))
  obtain ⟨c6, c7, c8, hc⟩ := List.length_eq_three.mp (hr2 s2 (by simp))
  subst h0 hb hc
  have e0 := h 0 (by omega)
  have e1 := h 1 (by omega)
  have e2 := h 2 (by omega)
  have e3 := h 3 (by omega)
  have e4 := h 4 (by omega)
  have e5 := h 5 (by omega)
  have e6 := h 6 (by omega)
  have e7 := h 7 (by omega)
  have e8 := h 8 (by omega)
  simp only [tileAt, EightPuzzle.flatten, List.flatten, List.append_nil,
    List.cons_append, List.nil_append,
    List.getD_cons_zero, List.getD_cons_succ] at e0 e1 e2 e3 e4 e5 e6 e7 e8
  simp [e0, e1, e2, e3, e4, e5, e6, e7, e8]

theorem tileAt_goal (i : Nat) (hi : i < 9) : tileAt GOAL i = i := by
  interval_cases i <;> rfl

theorem mapB_tileAt_goal (C : Board) (hv : Valid C) :
    mapB (tileAt C) GOAL = C := by
  obtain ⟨hl1, hr1, hperm⟩ := hv
  obtain ⟨r0, r1, r2, hs⟩ := List.length_eq_three.mp hl1
  subst hs
  obtain ⟨a0, a1, a2, h0⟩ := List.length_eq_three.mp (hr1 r0 (by simp))
  obtain ⟨a3, a4, a5, hb⟩ := List.length_eq_three.mp (hr1 r1 (by simp))
  obtain ⟨a6, a7, a8, hc⟩ := List.length_eq_three.mp (hr1 r2 (by simp))
  subst h0 hb hc
  rfl

theorem tileAt_mapB_rotBoard (g : Nat → Nat) (a b c i : Nat) (hi : i < 9) :
    tileAt (mapB g (rotBoard a b c)) i = g (rotFun a b c i) := by
  interval_cases i <;> rfl

theorem rotFun_self (a b c i : Nat) (ha : i ≠ a) (hb : i ≠ b) (hc : i ≠ c) :
    rotFun a b c i = i := by
  simp [rotFun, ha, hb, hc]

theorem rotFun_at_a (a b c : Nat) : rotFun a b c a = c := by
  simp [rotFun]

theorem sort_reaches :
    ∀ (k : Nat) (C : Board), Valid C → is_solvable C = true → tileAt C 0 = 0 →
      (∀ i, i < 9 - k → tileAt C i = i) → Reaches C GOAL := by
  intro k
  induction k with
  | zero =>
    intro C hv _ _ hsorted
    have hC : C = GOAL := by
      refine valid_ext C GOAL hv (by decide) ?_
      intro i hi
      rw [hsorted i (by omega), tileAt_goal i hi]
    subst hC
    exact Relation.ReflTransGen.refl
  | succ k ih =>
    intro C hv hsolv hhome hsorted
    by_cases hk : 9 ≤ k
    · exact ih C hv hsolv hhome (fun i hi => absurd hi (by omega))
    · push_neg at hk
      set p := 9 - (k + 1) with hp
      have hp9 : p < 9 := by omega
      by_cases hmatch : tileAt C p = p
      · refine ih C hv hsolv hhome ?_
        intro i hi
        by_cases hip : i < p
        · exact hsorted i hip
        · have : i = p := by omega
          subst this
          exact hmatch
      · -- p is the first mismatched cell
        have hp1 : 1 ≤ p := by
          by_contra hp0
          push_neg at hp0
          interval_cases p
          exact hmatch hhome
        -- the position q of tile p
        obtain ⟨q, hq9, hqt⟩ := tileAt_surj C hv p (by omega)
        have hqp : p < q := by
          rcases Nat.lt_trichotomy q p with h | h | h
          · exfalso
            rcases Nat.eq_zero_or_pos q with h0 | h0
            · subst h0; rw [hhome] at hqt; omega
            · have := hsorted q (by omega)
              omega
          · exfalso; subst h; exact hmatch hqt
          · exact h
        by_cases hple : p ≤ 6
        · -- rotation case
          set r := if q = p + 1 then p + 2 else p + 1 with hr
          have hr9 : r < 9 := by rw [hr]; split <;> omega
          have hrp : p < r := by rw [hr]; split <;> omega
          have hrq : r ≠ q := by
            rw [hr]; split
            · omega
            · omega
          have hcert := certSeq_correct p r q (by omega) (by omega) (by omega)
            (by omega) (by omega) (by omega) (by omega) hrq (by omega)
          have hrot : Reaches GOAL (rotBoard p r q) :=
            applyMoves_reaches _ _ _ hcert
          have hgnz : ∀ t, t ≠ 0 → t < 9 → tileAt C t ≠ 0 := by
            intro t ht0 ht9 hEq
            exact (tileAt_inj C hv (by omega : t < 9) (by omega : (0:Nat) < 9)
              ht0 (hEq.trans hhome.symm))
          have htrans := reaches_mapB (tileAt C) hhome hgnz (by decide) hrot
          rw [mapB_tileAt_goal C hv] at htrans
          set C' := mapB (tileAt C) (rotBoard p r q) with hC'
          have hvC' : Valid C' := reaches_valid hv htrans
          have hsolvC' : is_solvable C' = true :=
            (reaches_solvable hv htrans).trans hsolv
          have htile : ∀ i, i < 9 → tileAt C' i = tileAt C (rotFun p r q i) :=
            fun i hi => tileAt_mapB_rotBoard (tileAt C) p r q i hi
          have hhomeC' : tileAt C' 0 = 0 := by
            rw [htile 0 (by omega), rotFun_self p r q 0 (by omega) (by omega)
              (by omega), hhome]
          refine htrans.trans (ih C' hvC' hsolvC' hhomeC' ?_)
          intro i hi
          by_cases hip : i < p
          · rw [htile i (by omega), rotFun_self p r q i (by omega) (by omega)
              (by omega)]
            exact hsorted i hip
          · have hieq : i = p := by omega
            rw [hieq, htile p (by omega), rotFun_at_a]
            exact hqt
        · -- p = 7: the two remaining tiles are swapped, contradicting parity
          have hp7 : p = 7 := by omega
          have hq8 : q = 8 := by omega
          rw [hp7] at hmatch
          rw [hq8, hp7] at hqt
          have ht7 : tileAt C 7 = 8 := by
            have h79 := tileAt_lt C hv 7 (by omega)
            by_contra hne
            have hle : tileAt C 7 < 8 := by omega
            have := hmatch
            rcases Nat.eq_zero_or_pos (tileAt C 7) with h0 | h0
            · exact (tileAt_inj C hv (by omega : (7:Nat) < 9)
                (by omega : (0:Nat) < 9) (by omega)) (h0.trans hhome.symm)
            · have hfix := hsorted (tileAt C 7) (by omega)
              exact (tileAt_inj C hv (by omega : (7:Nat) < 9)
                (by omega : tileAt C 7 < 9) (by omega)) (by omega)
          have hC : C = [[0, 1, 2], [3, 4, 5], [6, 8, 7]] := by
            refine valid_ext C [[0, 1, 2], [3, 4, 5], [6, 8, 7]] hv (by decide) ?_
            intro i hi
            interval_cases i
            · simpa [tileAt, EightPuzzle.flatten] using hhome
            · simpa [tileAt, EightPuzzle.flatten] using hsorted 1 (by omega)
            · simpa [tileAt, EightPuzzle.flatten] using hsorted 2 (by omega)
            · simpa [tileAt, EightPuzzle.flatten] using hsorted 3 (by omega)
            · simpa [tileAt, EightPuzzle.flatten] using hsorted 4 (by omega)
            · simpa [tileAt, EightPuzzle.flatten] using hsorted 5 (by omega)
            · simpa [tileAt, EightPuzzle.flatten] using hsorted 6 (by omega)
            · simpa [tileAt, EightPuzzle.flatten] using ht7
            · simpa [tileAt, EightPuzzle.flatten] using hqt
          rw [hC] at hsolv
          exact absurd hsolv (by decide)

theorem solvable_reaches_goal_of_home (B : Board) (hv : Valid B)
    (hs : is_solvable B = true) (hh : tileAt B 0 = 0) : Reaches B GOAL :=
  sort_reaches 9 B hv hs hh (fun i hi => absurd hi (by omega))

set_option maxHeartbeats 3200000 in
theorem reach_blank_home (B : Board) (hv : Valid B) :
    ∃ B0, Reaches B B0 ∧ Valid B0 ∧ tileAt B0 0 = 0 := by
  obtain ⟨hlen, hrows, hperm⟩ := hv
  obtain ⟨r0, r1, r2, hs⟩ := List.length_eq_three.mp hlen
  subst hs
  obtain ⟨a0, a1, a2, h0⟩ := List.length_eq_three.mp (hrows r0 (by simp))
  obtain ⟨a3, a4, a5, h1⟩ := List.length_eq_three.mp (hrows r1 (by simp))
  obtain ⟨a6, a7, a8, h2⟩ := List.length_eq_three.mp (hrows r2 (by simp))
  subst h0 h1 h2
  have hv2 : Valid [[a0,a1,a2],[a3,a4,a5],[a6,a7,a8]] := ⟨hlen, hrows, hperm⟩
  have hnd : List.Nodup [a0,a1,a2,a3,a4,a5,a6,a7,a8] := by
    have := hperm.nodup_iff.mpr (List.nodup_range 9)
    simpa [EightPuzzle.flatten] using this
  simp only [List.nodup_cons, List.mem_cons, not_or, List.not_mem_nil, and_true,
    List.nodup_nil, not_false_eq_true] at hnd
  obtain ⟨⟨d01, d02, d03, d04, d05, d06, d07, d08⟩, ⟨d12, d13, d14, d15, d16, d17, d18⟩, ⟨d23, d24, d25, d26, d27, d28⟩, ⟨d34, d35, d36, d37, d38⟩, ⟨d45, d46, d47, d48⟩, ⟨d56, d57, d58⟩, ⟨d67, d68⟩, d78⟩ := hnd
  have hmem : (0 : Nat) ∈ [a0,a1,a2,a3,a4,a5,a6,a7,a8] := by
    have h9 : (0 : Nat) ∈ List.range 9 := by decide
    have := hperm.mem_iff.mpr h9
    simpa [EightPuzzle.flatten] using this
  simp only [List.mem_cons, List.not_mem_nil, or_false] at hmem
  rcases hmem with h | h | h | h | h | h | h | h | h <;> subst h
  · have nz1 : a1 ≠ 0 := Ne.symm d01
    have nz2 : a2 ≠ 0 := Ne.symm d02
    have nz3 : a3 ≠ 0 := Ne.symm d03
    have nz4 : a4 ≠ 0 := Ne.symm d04
    have nz5 : a5 ≠ 0 := Ne.symm d05
    have nz6 : a6 ≠ 0 := Ne.symm d06
    have nz7 : a7 ≠ 0 := Ne.symm d07
    have nz8 : a8 ≠ 0 := Ne.symm d08
    exact ⟨[[0,a1,a2],[a3,a4,a5],[a6,a7,a8]], Relation.ReflTransGen.refl, hv2,
      by simp [tileAt, EightPuzzle.flatten]⟩
  · have nz0 : a0 ≠ 0 := d01
    have nz2 : a2 ≠ 0 := Ne.symm d12
    have nz3 : a3 ≠ 0 := Ne.symm d13
    have nz4 : a4 ≠ 0 := Ne.symm d14
    have nz5 : a5 ≠ 0 := Ne.symm d15
    have nz6 : a6 ≠ 0 := Ne.symm d16
    have nz7 : a7 ≠ 0 := Ne.symm d17
    have nz8 : a8 ≠ 0 := Ne.symm d18
    have hfb0 : find_blank [[a0,0,a2],[a3,a4,a5],[a6,a7,a8]] = some (0, 1) := by
      simp [find_blank, getCell, List.range_succ, nz0, nz2, nz3, nz4, nz5, nz6, nz7, nz8]
    have hgn0 : get_neighbors [[a0,0,a2],[a3,a4,a5],[a6,a7,a8]] = [([[a0,a4,a2],[a3,0,a5],[a6,a7,a8]], "DOWN"), ([[0,a0,a2],[a3,a4,a5],[a6,a7,a8]], "LEFT"), ([[a0,a2,0],[a3,a4,a5],[a6,a7,a8]], "RIGHT")] := by
      simp only [get_neighbors, hfb0]; rfl
    have happ : applyMoves [[a0,0,a2],[a3,a4,a5],[a6,a7,a8]] ["LEFT"] = some [[0,a0,a2],[a3,a4,a5],[a6,a7,a8]] := by
      simp [applyMoves, applyMove, hgn0]
    have hre : Reaches [[a0,0,a2],[a3,a4,a5],[a6,a7,a8]] [[0,a0,a2],[a3,a4,a5],[a6,a7,a8]] :=
      applyMoves_reaches _ _ _ happ
    exact ⟨[[0,a0,a2],[a3,a4,a5],[a6,a7,a8]], hre, reaches_valid hv2 hre,
      by simp [tileAt, EightPuzzle.flatten]⟩
  · have nz0 : a0 ≠ 0 := d02
    have nz1 : a1 ≠ 0 := d12
    have nz3 : a3 ≠ 0 := Ne.symm d23
    have nz4 : a4 ≠ 0 := Ne.symm d24
    have nz5 : a5 ≠ 0 := Ne.symm d25
    have nz6 : a6 ≠ 0 := Ne.symm d26
    have nz7 : a7 ≠ 0 := Ne.symm d27
    have nz8 : a8 ≠ 0 := Ne.symm d28
    have hfb0 : find_blank [[a0,a1,0],[a3,a4,a5],[a6,a7,a8]] = some (0, 2) := by
      simp [find_blank, getCell, List.range_succ, nz0, nz1, nz3, nz4, nz5, nz6, nz7, nz8]
    have hgn0 : get_neighbors [[a0,a1,0],[a3,a4,a5],[a6,a7,a8]] = [([[a0,a1,a5],[a3,a4,0],[a6,a7,a8]], "DOWN"), ([[a0,0,a1],[a3,a4,a5],[a6,a7,a8]], "LEFT")] := by
      simp only [get_neighbors, hfb0]; rfl
    have hfb1 : find_blank [[a0,0,a1],[a3,a4,a5],[a6,a7,a8]] = some (0, 1) := by
      simp [find_blank, getCell, List.range_succ, nz0, nz1, nz3, nz4, nz5, nz6, nz7, nz8]
    have hgn1 : get_neighbors [[a0,0,a1],[a3,a4,a5],[a6,a7,a8]] = [([[a0,a4,a1],[a3,0,a5],[a6,a7,a8]], "DOWN"), ([[0,a0,a1],[a3,a4,a5],[a6,a7,a8]], "LEFT"), ([[a0,a1,0],[a3,a4,a5],[a6,a7,a8]], "RIGHT")] := by
      simp only [get_neighbors, hfb1]; rfl
    have happ : applyMoves [[a0,a1,0],[a3,a4,a5],[a6,a7,a8]] ["LEFT", "LEFT"] = some [[0,a0,a1],[a3,a4,a5],[a6,a7,a8]] := by
      simp [applyMoves, applyMove, hgn0, hgn1]
    have hre : Reaches [[a0,a1,0],[a3,a4,a5],[a6,a7,a8]] [[0,a0,a1],[a3,a4,a5],[a6,a7,a8]] :=
      applyMoves_reaches _ _ _ happ
    exact ⟨[[0,a0,a1],[a3,a4,a5],[a6,a7,a8]], hre, reaches_valid hv2 hre,
      by simp [tileAt, EightPuzzle.flatten]⟩
  · have nz0 : a0 ≠ 0 := d03
    have nz1 : a1 ≠ 0 := d13
    have nz2 : a2 ≠ 0 := d23
    have nz4 : a4 ≠ 0 := Ne.symm d34
    have nz5 : a5 ≠ 0 := Ne.symm d35
    have nz6 : a6 ≠ 0 := Ne.symm d36
    have nz7 : a7 ≠ 0 := Ne.symm d37
    have nz8 : a8 ≠ 0 := Ne.symm d38
    have hfb0 : find_blank [[a0,a1,a2],[0,a4,a5],[a6,a7,a8]] = some (1, 0) := by
      simp [find_blank, getCell, List.range_succ, nz0, nz1, nz2, nz4, nz5, nz6, nz7, nz8]
    have hgn0 : get_neighbors [[a0,a1,a2],[0,a4,a5],[a6,a7,a8]] = [([[0,a1,a2],[a0,a4,a5],[a6,a7,a8]], "UP"), ([[a0,a1,a2],[a6,a4,a5],[0,a7,a8]], "DOWN"), ([[a0,a1,a2],[a4,0,a5],[a6,a7,a8]], "RIGHT")] := by
      simp only [get_neighbors, hfb0]; rfl
    have happ : applyMoves [[a0,a1,a2],[0,a4,a5],[a6,a7,a8]] ["UP"] = some [[0,a1,a2],[a0,a4,a5],[a6,a7,a8]] := by
      simp [applyMoves, applyMove, hgn0]
    have hre : Reaches [[a0,a1,a2],[0,a4,a5],[a6,a7,a8]] [[0,a1,a2],[a0,a4,a5],[a6,a7,a8]] :=
      applyMoves_reaches _ _ _ happ
    exact ⟨[[0,a1,a2],[a0,a4,a5],[a6,a7,a8]], hre, reaches_valid hv2 hre,
      by simp [tileAt, EightPuzzle.flatten]⟩
  · have nz0 : a0 ≠ 0 := d04
    have nz1 : a1 ≠ 0 := d14
    have nz2 : a2 ≠ 0 := d24
    have nz3 : a3 ≠ 0 := d34
    have nz5 : a5 ≠ 0 := Ne.symm d45
    have nz6 : a6 ≠ 0 := Ne.symm d46
    have nz7 : a7 ≠ 0 := Ne.symm d47
    have nz8 : a8 ≠ 0 := Ne.symm d48
    have hfb0 : find_blank [[a0,a1,a2],[a3,0,a5],[a6,a7,a8]] = some (1, 1) := by
      simp [find_blank, getCell, List.range_succ, nz0, nz1, nz2, nz3, nz5, nz6, nz7, nz8]
    have hgn0 : get_neighbors [[a0,a1,a2],[a3,0,a5],[a6,a7,a8]] = [([[a0,0,a2],[a3,a1,a5],[a6,a7,a8]], "UP"), ([[a0,a1,a2],[a3,a7,a5],[a6,0,a8]], "DOWN"), ([[a0,a1,a2],[0,a3,a5],[a6,a7,a8]], "LEFT"), ([[a0,a1,a2],[a3,a5,0],[a6,a7,a8]], "RIGHT")] := by
      simp only [get_neighbors, hfb0]; rfl
    have hfb1 : find_blank [[a0,0,a2],[a3,a1,a5],[a6,a7,a8]] = some (0, 1) := by
      simp [find_blank, getCell, List.range_succ, nz0, nz1, nz2, nz3, nz5, nz6, nz7, nz8]
    have hgn1 : get_neighbors [[a0,0,a2],[a3,a1,a5],[a6,a7,a8]] = [([[a0,a1,a2],[a3,0,a5],[a6,a7,a8]], "DOWN"), ([[0,a0,a2],[a3,a1,a5],[a6,a7,a8]], "LEFT"), ([[a0,a2,0],[a3,a1,a5],[a6,a7,a8]], "RIGHT")] := by
      simp only [get_neighbors, hfb1]; rfl
    have happ : applyMoves [[a0,a1,a2],[a3,0,a5],[a6,a7,a8]] ["UP", "LEFT"] = some [[0,a0,a2],[a3,a1,a5],[a6,a7,a8]] := by
      simp [applyMoves, applyMove, hgn0, hgn1]
    have hre : Reaches [[a0,a1,a2],[a3,0,a5],[a6,a7,a8]] [[0,a0,a2],[a3,a1,a5],[a6,a7,a8]] :=
      applyMoves_reaches _ _ _ happ
    exact ⟨[[0,a0,a2],[a3,a1,a5],[a6,a7,a8]], hre, reaches_valid hv2 hre,
      by simp [tileAt, EightPuzzle.flatten]⟩
  · have nz0 : a0 ≠ 0 := d05
    have nz1 : a1 ≠ 0 := d15
    have nz2 : a2 ≠ 0 := d25
    have nz3 : a3 ≠ 0 := d35
    have nz4 : a4 ≠ 0 := d45
    have nz6 : a6 ≠ 0 := Ne.symm d56
    have nz7 : a7 ≠ 0 := Ne.symm d57
    have nz8 : a8 ≠ 0 := Ne.symm d58
    have hfb0 : find_blank [[a0,a1,a2],[a3,a4,0],[a6,a7,a8]] = some (1, 2) := by
      simp [find_blank, getCell, List.range_succ, nz0, nz1, nz2, nz3, nz4, nz6, nz7, nz8]
    have hgn0 : get_neighbors [[a0,a1,a2],[a3,a4,0],[a6,a7,a8]] = [([[a0,a1,0],[a3,a4,a2],[a6,a7,a8]], "UP"), ([[a0,a1,a2],[a3,a4,a8],[a6,a7,0]], "DOWN"), ([[a0,a1,a2],[a3,0,a4],[a6,a7,a8]], "LEFT")] := by
      simp only [get_neighbors, hfb0]; rfl
    have hfb1 : find_blank [[a0,a1,0],[a3,a4,a2],[a6,a7,a8]] = some (0, 2) := by
      simp [find_blank, getCell, List.range_succ, nz0, nz1, nz2, nz3, nz4, nz6, nz7, nz8]
    have hgn1 : get_neighbors [[a0,a1,0],[a3,a4,a2],[a6,a7,a8]] = [([[a0,a1,a2],[a3,a4,0],[a6,a7,a8]], "DOWN"), ([[a0,0,a1],[a3,a4,a2],[a6,a7,a8]], "LEFT")] := by
      simp only [get_neighbors, hfb1]; rfl
    have hfb2 : find_blank [[a0,0,a1],[a3,a4,a2],[a6,a7,a8]] = some (0, 1) := by
      simp [find_blank, getCell, List.range_succ, nz0, nz1, nz2, nz3, nz4, nz6, nz7, nz8]
    have hgn2 : get_neighbors [[a0,0,a1],[a3,a4,a2],[a6,a7,a8]] = [([[a0,a4,a1],[a3,0,a2],[a6,a7,a8]], "DOWN"), ([[0,a0,a1],[a3,a4,a2],[a6,a7,a8]], "LEFT"), ([[a0,a1,0],[a3,a4,a2],[a6,a7,a8]], "RIGHT")] := by
      simp only [get_neighbors, hfb2]; rfl
    have happ : applyMoves [[a0,a1,a2],[a3,a4,0],[a6,a7,a8]] ["UP", "LEFT", "LEFT"] = some [[0,a0,a1],[a3,a4,a2],[a6,a7,a8]] := by
      simp [applyMoves, applyMove, hgn0, hgn1, hgn2]
    have hre : Reaches [[a0,a1,a2],[a3,a4,0],[a6,a7,a8]] [[0,a0,a1],[a3,a4,a2],[a6,a7,a8]] :=
      applyMoves_reaches _ _ _ happ
    exact ⟨[[0,a0,a1],[a3,a4,a2],[a6,a7,a8]], hre, reaches_valid hv2 hre,
      by simp [tileAt, EightPuzzle.flatten]⟩
  · have nz0 : a0 ≠ 0 := d06
    have nz1 : a1 ≠ 0 := d16
    have nz2 : a2 ≠ 0 := d26
    have nz3 : a3 ≠ 0 := d36
    have nz4 : a4 ≠ 0 := d46
    have nz5 : a5 ≠ 0 := d56
    have nz7 : a7 ≠ 0 := Ne.symm d67
    have nz8 : a8 ≠ 0 := Ne.symm d68
    have hfb0 : find_blank [[a0,a1,a2],[a3,a4,a5],[0,a7,a8]] = some (2, 0) := by
      simp [find_blank, getCell, List.range_succ, nz0, nz1, nz2, nz3, nz4, nz5, nz7, nz8]
    have hgn0 : get_neighbors [[a0,a1,a2],[a3,a4,a5],[0,a7,a8]] = [([[a0,a1,a2],[0,a4,a5],[a3,a7,a8]], "UP"), ([[a0,a1,a2],[a3,a4,a5],[a7,0,a8]], "RIGHT")] := by
      simp only [get_neighbors, hfb0]; rfl
    have hfb1 : find_blank [[a0,a1,a2],[0,a4,a5],[a3,a7,a8]] = some (1, 0) := by
      simp [find_blank, getCell, List.range_succ, nz0, nz1, nz2, nz3, nz4, nz5, nz7, nz8]
    have hgn1 : get_neighbors [[a0,a1,a2],[0,a4,a5],[a3,a7,a8]] = [([[0,a1,a2],[a0,a4,a5],[a3,a7,a8]], "UP"), ([[a0,a1,a2],[a3,a4,a5],[0,a7,a8]], "DOWN"), ([[a0,a1,a2],[a4,0,a5],[a3,a7,a8]], "RIGHT")] := by
      simp only [get_neighbors, hfb1]; rfl
    have happ : applyMoves [[a0,a1,a2],[a3,a4,a5],[0,a7,a8]] ["UP", "UP"] = some [[0,a1,a2],[a0,a4,a5],[a3,a7,a8]] := by
      simp [applyMoves, applyMove, hgn0, hgn1]
    have hre : Reaches [[a0,a1,a2],[a3,a4,a5],[0,a7,a8]] [[0,a1,a2],[a0,a4,a5],[a3,a7,a8]] :=
      applyMoves_reaches _ _ _ happ
    exact ⟨[[0,a1,a2],[a0,a4,a5],[a3,a7,a8]], hre, reaches_valid hv2 hre,
      by simp [tileAt, EightPuzzle.flatten]⟩
  · have nz0 : a0 ≠ 0 := d07
    have nz1 : a1 ≠ 0 := d17
    have nz2 : a2 ≠ 0 := d27
    have nz3 : a3 ≠ 0 := d37
    have nz4 : a4 ≠ 0 := d47
    have nz5 : a5 ≠ 0 := d57
    have nz6 : a6 ≠ 0 := d67
    have nz8 : a8 ≠ 0 := Ne.symm d78
    have hfb0 : find_blank [[a0,a1,a2],[a3,a4,a5],[a6,0,a8]] = some (2, 1) := by
      simp [find_blank, getCell, List.range_succ, nz0, nz1, nz2, nz3, nz4, nz5, nz6, nz8]
    have hgn0 : get_neighbors [[a0,a1,a2],[a3,a4,a5],[a6,0,a8]] = [([[a0,a1,a2],[a3,0,a5],[a6,a4,a8]], "UP"), ([[a0,a1,a2],[a3,a4,a5],[0,a6,a8]], "LEFT"), ([[a0,a1,a2],[a3,a4,a5],[a6,a8,0]], "RIGHT")] := by
      simp only [get_neighbors, hfb0]; rfl
    have hfb1 : find_blank [[a0,a1,a2],[a3,0,a5],[a6,a4,a8]] = some (1, 1) := by
      simp [find_blank, getCell, List.range_succ, nz0, nz1, nz2, nz3, nz4, nz5, nz6, nz8]
    have hgn1 : get_neighbors [[a0,a1,a2],[a3,0,a5],[a6,a4,a8]] = [([[a0,0,a2],[a3,a1,a5],[a6,a4,a8]], "UP"), ([[a0,a1,a2],[a3,a4,a5],[a6,0,a8]], "DOWN"), ([[a0,a1,a2],[0,a3,a5],[a6,a4,a8]], "LEFT"), ([[a0,a1,a2],[a3,a5,0],[a6,a4,a8]], "RIGHT")] := by
      simp only [get_neighbors, hfb1]; rfl
    have hfb2 : find_blank [[a0,0,a2],[a3,a1,a5],[a6,a4,a8]] = some (0, 1) := by
      simp [find_blank, getCell, List.range_succ, nz0, nz1, nz2, nz3, nz4, nz5, nz6, nz8]
    have hgn2 : get_neighbors [[a0,0,a2],[a3,a1,a5],[a6,a4,a8]] = [([[a0,a1,a2],[a3,0,a5],[a6,a4,a8]], "DOWN"), ([[0,a0,a2],[a3,a1,a5],[a6,a4,a8]], "LEFT"), ([[a0,a2,0],[a3,a1,a5],[a6,a4,a8]], "RIGHT")] := by
      simp only [get_neighbors, hfb2]; rfl
    have happ : applyMoves [[a0,a1,a2],[a3,a4,a5],[a6,0,a8]] ["UP", "UP", "LEFT"] = some [[0,a0,a2],[a3,a1,a5],[a6,a4,a8]] := by
      simp [applyMoves, applyMove, hgn0, hgn1, hgn2]
    have hre : Reaches [[a0,a1,a2],[a3,a4,a5],[a6,0,a8]] [[0,a0,a2],[a3,a1,a5],[a6,a4,a8]] :=
      applyMoves_reaches _ _ _ happ
    exact ⟨[[0,a0,a2],[a3,a1,a5],[a6,a4,a8]], hre, reaches_valid hv2 hre,
      by simp [tileAt, EightPuzzle.flatten]⟩
  · have nz0 : a0 ≠ 0 := d08
    have nz1 : a1 ≠ 0 := d18
    have nz2 : a2 ≠ 0 := d28
    have nz3 : a3 ≠ 0 := d38
    have nz4 : a4 ≠ 0 := d48
    have nz5 : a5 ≠ 0 := d58
    have nz6 : a6 ≠ 0 := d68
    have nz7 : a7 ≠ 0 := d78
    have hfb0 : find_blank [[a0,a1,a2],[a3,a4,a5],[a6,a7,0]] = some (2, 2) := by
      simp [find_blank, getCell, List.range_succ, nz0, nz1, nz2, nz3, nz4, nz5, nz6, nz7]
    have hgn0 : get_neighbors [[a0,a1,a2],[a3,a4,a5],[a6,a7,0]] = [([[a0,a1,a2],[a3,a4,0],[a6,a7,a5]], "UP"), ([[a0,a1,a2],[a3,a4,a5],[a6,0,a7]], "LEFT")] := by
      simp only [get_neighbors, hfb0]; rfl
    have hfb1 : find_blank [[a0,a1,a2],[a3,a4,0],[a6,a7,a5]] = some (1, 2) := by
      simp [find_blank, getCell, List.range_succ, nz0, nz1, nz2, nz3, nz4, nz5, nz6, nz7]
    have hgn1 : get_neighbors [[a0,a1,a2],[a3,a4,0],[a6,a7,a5]] = [([[a0,a1,0],[a3,a4,a2],[a6,a7,a5]], "UP"), ([[a0,a1,a2],[a3,a4,a5],[a6,a7,0]], "DOWN"), ([[a0,a1,a2],[a3,0,a4],[a6,a7,a5]], "LEFT")] := by
      simp only [get_neighbors, hfb1]; rfl
    have hfb2 : find_blank [[a0,a1,0],[a3,a4,a2],[a6,a7,a5]] = some (0, 2) := by
      simp [find_blank, getCell, List.range_succ, nz0, nz1, nz2, nz3, nz4, nz5, nz6, nz7]
    have hgn2 : get_neighbors [[a0,a1,0],[a3,a4,a2],[a6,a7,a5]] = [([[a0,a1,a2],[a3,a4,0],[a6,a7,a5]], "DOWN"), ([[a0,0,a1],[a3,a4,a2],[a6,a7,a5]], "LEFT")] := by
      simp only [get_neighbors, hfb2]; rfl
    have hfb3 : find_blank [[a0,0,a1],[a3,a4,a2],[a6,a7,a5]] = some (0, 1) := by
      simp [find_blank, getCell, List.range_succ, nz0, nz1, nz2, nz3, nz4, nz5, nz6, nz7]
    have hgn3 : get_neighbors [[a0,0,a1],[a3,a4,a2],[a6,a7,a5]] = [([[a0,a4,a1],[a3,0,a2],[a6,a7,a5]], "DOWN"), ([[0,a0,a1],[a3,a4,a2],[a6,a7,a5]], "LEFT"), ([[a0,a1,0],[a3,a4,a2],[a6,a7,a5]], "RIGHT")] := by
      simp only [get_neighbors, hfb3]; rfl
    have happ : applyMoves [[a0,a1,a2],[a3,a4,a5],[a6,a7,0]] ["UP", "UP", "LEFT", "LEFT"] = some [[0,a0,a1],[a3,a4,a2],[a6,a7,a5]] := by
      simp [applyMoves, applyMove, hgn0, hgn1, hgn2, hgn3]
    have hre : Reaches [[a0,a1,a2],[a3,a4,a5],[a6,a7,0]] [[0,a0,a1],[a3,a4,a2],[a6,a7,a5]] :=
      applyMoves_reaches _ _ _ happ
    exact ⟨[[0,a0,a1],[a3,a4,a2],[a6,a7,a5]], hre, reaches_valid hv2 hre,
      by simp [tileAt, EightPuzzle.flatten]⟩

theorem solvable_reaches_goal (B : Board) (hv : Valid B)
    (hs : is_solvable B = true) : Reaches B GOAL := by
  obtain ⟨B0, hr, hv0, hh0⟩ := reach_blank_home B hv
  have hs0 : is_solvable B0 = true := (reaches_solvable hv hr).trans hs
  exact hr.trans (solvable_reaches_goal_of_home B0 hv0 hs0 hh0)


theorem getN_eq_getElem (l : List Node) (i : Nat) (h : i < l.length) :
    getN l i = l[i] := by
  unfold getN
  rw [List.getD_eq_getElem?_getD, List.getElem?_eq_getElem h]
  rfl

theorem boole_beq_le_count (l : List Node) (i : Nat) (hi : i < l.length)
    (a : Node) : (if l[i] == a then 1 else 0) ≤ l.count a := by
  split
  next h =>
    have : a ∈ l := by
      have := eq_of_beq h
      subst this
      exact List.getElem_mem hi
    exact List.count_pos_iff.mpr this
  next => omega

theorem perm_set_set (l : List Node) (i j : Nat) (x : Node) (hi : i < l.length)
    (hj : j < l.length) (hij : i ≠ j) :
    ((l.set i l[j]).set j x).Perm (l.set i x) := by
  rw [List.perm_iff_count]
  intro a
  have hj1 : j < (l.set i l[j]).length := by simpa using hj
  have e1 := List.count_set l[j] a l i hi
  have e2 := List.count_set x a (l.set i l[j]) j hj1
  have e3 := List.count_set x a l i hi
  have hgj : (l.set i l[j])[j] = l[j] := List.getElem_set_ne hij hj1
  rw [hgj] at e2
  have b1 := boole_beq_le_count l i hi a
  have b2 := boole_beq_le_count l j hj a
  omega

theorem perm_siftdownLoop :
    ∀ (fuel : Nat) (heap : List Node) (sp pos : Nat) (ni : Node),
      pos < heap.length →
      (siftdownLoop fuel heap sp pos ni).Perm (heap.set pos ni) := by
  intro fuel
  induction fuel with
  | zero => intro heap sp pos ni _; exact List.Perm.refl _
  | succ n ih =>
    intro heap sp pos ni hpos
    rw [siftdownLoop]
    by_cases hgt : sp < pos
    · rw [if_pos hgt]
      dsimp only
      by_cases hlt : Node.lt ni (getN heap ((pos - 1) / 2)) = true
      · rw [if_pos hlt]
        have hpp : (pos - 1) / 2 < heap.length := by omega
        have hpp2 : (pos - 1) / 2 < (heap.set pos (getN heap ((pos - 1) / 2))).length := by
          simpa using hpp
        have hrec := ih (heap.set pos (getN heap ((pos - 1) / 2))) sp ((pos - 1) / 2) ni hpp2
        refine hrec.trans ?_
        have hg : getN heap ((pos - 1) / 2) = heap[(pos - 1) / 2] :=
          getN_eq_getElem _ _ hpp
        rw [hg]
        exact perm_set_set heap pos ((pos - 1) / 2) ni hpos hpp (by omega)
      · rw [if_neg hlt]
    · rw [if_neg hgt]

theorem set_append_last (heap : List Node) (a b : Node) :
    (heap ++ [a]).set heap.length b = heap ++ [b] := by
  induction heap with
  | nil => rfl
  | cons x xs ih => simp

theorem perm_heappush (heap : List Node) (item : Node) :
    (heappush heap item).Perm (heap ++ [item]) := by
  unfold heappush siftdown
  have hlen : heap.length < (heap ++ [item]).length := by simp
  have hget : getN (heap ++ [item]) heap.length = item := by
    rw [getN_eq_getElem _ _ hlen]
    simp
  rw [hget]
  have := perm_siftdownLoop heap.length (heap ++ [item]) 0 heap.length item hlen
  rwa [set_append_last] at this

theorem mem_heappush_of_mem {heap : List Node} {y : Node} (h : y ∈ heap)
    (item : Node) : y ∈ heappush heap item :=
  (perm_heappush heap item).mem_iff.mpr (List.mem_append_left _ h)

theorem perm_siftupLoop :
    ∀ (fuel : Nat) (heap : List Node) (pos endpos : Nat) (x : Node),
      pos < endpos → endpos = heap.length →
      ((siftupLoop fuel heap pos endpos).1.set
        (siftupLoop fuel heap pos endpos).2 x).Perm (heap.set pos x) := by
  intro fuel
  induction fuel with
  | zero => intro heap pos endpos x _ _; exact List.Perm.refl _
  | succ n ih =>
    intro heap pos endpos x hpos hend
    rw [siftupLoop]
    by_cases hc : 2 * pos + 1 < endpos
    · rw [if_pos hc]
      dsimp only
      have step : ∀ cp, cp < endpos → pos < cp →
          (((siftupLoop n (heap.set pos (getN heap cp)) cp endpos).1.set
            (siftupLoop n (heap.set pos (getN heap cp)) cp endpos).2 x).Perm
            (heap.set pos x)) := by
        intro cp hcplt hposcp
        have hcpheap : cp < heap.length := by omega
        have hlen2 : endpos = (heap.set pos (getN heap cp)).length := by
          simpa using hend
        have hrec := ih (heap.set pos (getN heap cp)) cp endpos x hcplt hlen2
        refine hrec.trans ?_
        have hg : getN heap cp = heap[cp] := getN_eq_getElem _ _ hcpheap
        rw [hg]
        exact perm_set_set heap pos cp x (by omega) hcpheap (by omega)
      split
      next hcond => exact step _ (by omega) (by omega)
      next => exact step _ hc (by omega)
    · rw [if_neg hc]

theorem perm_siftup (heap : List Node) (pos : Nat) (hpos : pos < heap.length) :
    (siftup heap pos).Perm heap := by
  unfold siftup siftdown
  dsimp only
  obtain ⟨hmem, hlt, hlen⟩ :=
    mem_siftupLoop heap.length heap pos heap.length hpos rfl
  set hp := siftupLoop heap.length heap pos heap.length with hhp
  have hb : hp.2 < hp.1.length := by omega
  have hset : hp.2 < (hp.1.set hp.2 (getN heap pos)).length := by
    simpa using hb
  have hget : getN (hp.1.set hp.2 (getN heap pos)) hp.2 = getN heap pos := by
    rw [getN_eq_getElem _ _ hset]
    simp
  rw [hget]
  have h1 := perm_siftdownLoop hp.2 (hp.1.set hp.2 (getN heap pos)) pos hp.2
    (getN heap pos) hset
  rw [List.set_set] at h1
  refine h1.trans ?_
  have h2 := perm_siftupLoop heap.length heap pos heap.length (getN heap pos)
    hpos rfl
  rw [← hhp] at h2
  refine h2.trans ?_
  rw [getN_eq_getElem _ _ hpos]
  have : heap.set pos heap[pos] = heap := by
    apply List.ext_getElem
    · simp
    · intro i h1i h2i
      by_cases hip : i = pos
      · subst hip; simp
      · rw [List.getElem_set_ne (by omega)]
  rw [this]

theorem heappop_eq_none {heap : List Node} (h : heappop heap = none) :
    heap = [] := by
  unfold heappop at h
  cases hlast : heap.getLast? with
  | none => exact List.getLast?_eq_none_iff.mp hlast
  | some lastelt =>
    rw [hlast] at h
    dsimp only at h
    by_cases hre : heap.dropLast.isEmpty
    · rw [if_pos hre] at h; exact absurd h (by simp)
    · rw [if_neg hre] at h; exact absurd h (by simp)

theorem perm_heappop {heap : List Node} {c : Node} {h2 : List Node}
    (hpop : heappop heap = some (c, h2)) : heap.Perm (c :: h2) := by
  unfold heappop at hpop
  cases hlast : heap.getLast? with
  | none => rw [hlast] at hpop; exact absurd hpop (by simp)
  | some lastelt =>
    rw [hlast] at hpop
    have hne : heap ≠ [] := by
      intro h; rw [h] at hlast; simp at hlast
    have hheap : heap = heap.dropLast ++ [lastelt] := by
      conv_lhs => rw [← List.dropLast_append_getLast hne]
      rw [List.getLast?_eq_getLast _ hne] at hlast
      rw [Option.some_inj.mp hlast]
    dsimp only at hpop
    by_cases hre : heap.dropLast.isEmpty
    · rw [if_pos hre] at hpop
      obtain ⟨rfl, rfl⟩ := Prod.mk.injEq .. ▸ Option.some_inj.mp hpop
      rw [hheap, List.isEmpty_iff.mp hre]
      exact List.Perm.refl _
    · rw [if_neg hre] at hpop
      have hrne : heap.dropLast ≠ [] := fun h => hre (by simp [h])
      have hlen0 : 0 < heap.dropLast.length := List.length_pos.mpr hrne
      obtain ⟨rfl, rfl⟩ := Prod.mk.injEq .. ▸ Option.some_inj.mp hpop
      have hsetlen : (0:Nat) < (heap.dropLast.set 0 lastelt).length := by
        simpa using hlen0
      have hp1 : (siftup (heap.dropLast.set 0 lastelt) 0).Perm
          (heap.dropLast.set 0 lastelt) := perm_siftup _ _ hsetlen
      rw [List.perm_iff_count]
      intro a
      have hc1 := hp1.count_eq a
      have e2 := List.count_set lastelt a heap.dropLast 0 hlen0
      have b2 := boole_beq_le_count heap.dropLast 0 hlen0 a
      have hsum : heap.count a = heap.dropLast.count a + (if lastelt == a then 1 else 0) := by
        conv_lhs => rw [hheap]
        simp [List.count_append, List.count_singleton]
      rw [getN_eq_getElem _ _ hlen0]
      simp only [List.count_cons]
      omega

theorem item_mem_heappush (heap : List Node) (item : Node) :
    item ∈ heappush heap item :=
  (perm_heappush heap item).mem_iff.mpr (List.mem_append_right _ (List.mem_singleton.mpr rfl))

theorem lookupBC_insertBC_mono {bc : List (Board × Nat)} {s : Board}
    (h : (lookupBC bc s).isSome = true) (b : Board) (v : Nat) :
    (lookupBC (insertBC bc b v) s).isSome = true := by
  unfold insertBC lookupBC
  split <;> simp [h]

theorem lookupBC_insertBC_self (bc : List (Board × Nat)) (b : Board) (v : Nat) :
    (lookupBC (insertBC bc b v) b).isSome = true := by
  unfold insertBC lookupBC
  simp

theorem dominatedBC_isSome {bc : List (Board × Nat)} {b : Board} {g : Nat}
    (h : dominatedBC bc b g = true) : (lookupBC bc b).isSome = true := by
  unfold dominatedBC at h
  cases hl : lookupBC bc b with
  | none => rw [hl] at h; exact absurd h (by simp)
  | some v => rfl

theorem expandFold_lookup_mono (hf : Board → Nat) (cur : Node) (E : List Board) :
    ∀ (rest : List (Board × String)) (F : List Node) (B : List (Board × Nat))
      (s : Board), (lookupBC B s).isSome = true →
      (lookupBC (expandFold hf cur E rest (F, B)).2 s).isSome = true := by
  intro rest
  induction rest with
  | nil => intro F B s h; exact h
  | cons q rest ih =>
    obtain ⟨n, m⟩ := q
    intro F B s h
    rw [expandFold]
    by_cases h1 : n ∈ E
    · rw [if_pos h1]; exact ih F B s h
    · rw [if_neg h1]
      by_cases h2 : dominatedBC B n (cur.g + 1) = true
      · rw [if_pos h2]; exact ih F B s h
      · rw [if_neg h2]
        exact ih _ _ s (lookupBC_insertBC_mono h n (cur.g + 1))

theorem mem_expandFold_of_mem (hf : Board → Nat) (cur : Node) (E : List Board) :
    ∀ (rest : List (Board × String)) (F : List Node) (B : List (Board × Nat))
      {nd : Node}, nd ∈ F → nd ∈ (expandFold hf cur E rest (F, B)).1 := by
  intro rest
  induction rest with
  | nil => intro F B nd h; exact h
  | cons q rest ih =>
    obtain ⟨n, m⟩ := q
    intro F B nd h
    rw [expandFold]
    by_cases h1 : n ∈ E
    · rw [if_pos h1]; exact ih F B h
    · rw [if_neg h1]
      by_cases h2 : dominatedBC B n (cur.g + 1) = true
      · rw [if_pos h2]; exact ih F B h
      · rw [if_neg h2]
        exact ih _ _ (mem_heappush_of_mem h _)

theorem expandFold_cover (hf : Board → Nat) (cur : Node) (E : List Board) :
    ∀ (rest : List (Board × String)) (F : List Node) (B : List (Board × Nat)),
      (∀ s, (lookupBC B s).isSome = true →
        s ∈ E ∨ ∃ nd ∈ F, Node.state nd = s) →
      ∀ s, (lookupBC (expandFold hf cur E rest (F, B)).2 s).isSome = true →
        s ∈ E ∨ ∃ nd ∈ (expandFold hf cur E rest (F, B)).1, Node.state nd = s := by
  intro rest
  induction rest with
  | nil => intro F B hcov s h; exact hcov s h
  | cons q rest ih =>
    obtain ⟨n, m⟩ := q
    intro F B hcov s h
    rw [expandFold] at h ⊢
    by_cases h1 : n ∈ E
    · rw [if_pos h1] at h ⊢; exact ih F B hcov s h
    · rw [if_neg h1] at h ⊢
      by_cases h2 : dominatedBC B n (cur.g + 1) = true
      · rw [if_pos h2] at h ⊢; exact ih F B hcov s h
      · rw [if_neg h2] at h ⊢
        refine ih _ _ ?_ s h
        intro t ht
        unfold insertBC lookupBC at ht
        by_cases hnt : n = t
        · right
          refine ⟨mkChild n cur m (cur.g + 1) (hf n), item_mem_heappush _ _, ?_⟩
          rw [← hnt]; rfl
        · rw [if_neg hnt] at ht
          rcases hcov t ht with hE | ⟨nd, hndF, hnds⟩
          · exact Or.inl hE
          · exact Or.inr ⟨nd, mem_heappush_of_mem hndF _, hnds⟩

theorem expandFold_nbr_cover (hf : Board → Nat) (cur : Node) (E : List Board) :
    ∀ (rest : List (Board × String)) (F : List Node) (B : List (Board × Nat)),
      ∀ p ∈ rest, p.1 ∈ E ∨
        (lookupBC (expandFold hf cur E rest (F, B)).2 p.1).isSome = true := by
  intro rest
  induction rest with
  | nil => intro F B p hp; exact absurd hp (List.not_mem_nil p)
  | cons q rest ih =>
    obtain ⟨n, m⟩ := q
    intro F B p hp
    rw [expandFold]
    rcases List.mem_cons.mp hp with hEq | hmem
    · subst hEq
      by_cases h1 : n ∈ E
      · exact Or.inl h1
      · rw [if_neg h1]
        by_cases h2 : dominatedBC B n (cur.g + 1) = true
        · rw [if_pos h2]
          exact Or.inr (expandFold_lookup_mono hf cur E rest F B n (dominatedBC_isSome h2))
        · rw [if_neg h2]
          exact Or.inr (expandFold_lookup_mono hf cur E rest _ _ n
            (lookupBC_insertBC_self B n (cur.g + 1)))
    · by_cases h1 : n ∈ E
      · rw [if_pos h1]; exact ih F B p hmem
      · rw [if_neg h1]
        by_cases h2 : dominatedBC B n (cur.g + 1) = true
        · rw [if_pos h2]; exact ih F B p hmem
        · rw [if_neg h2]; exact ih _ _ p hmem

theorem reaches_mem_closed {E : List Board}
    (hclosed : ∀ e ∈ E, ∀ p ∈ get_neighbors e, p.1 ∈ E) {x y : Board}
    (hr : Reaches x y) (hx : x ∈ E) : y ∈ E := by
  induction hr with
  | refl => exact hx
  | tail hxz hstep ih =>
    rename_i z w
    obtain ⟨m, hm⟩ := hstep
    exact hclosed z ih (w, m) hm

theorem astarLoop_no_exhaust (hf : Board → Nat) (t1 t2 : Int) (start : Board)
    (hreach : Reaches start GOAL) :
    ∀ (fuel : Nat) (frontier : List Node) (explored : List Board)
      (bc : List (Board × Nat)) (ne : Nat),
      GOAL ∉ explored →
      (∀ e ∈ explored, ∀ p ∈ get_neighbors e,
        p.1 ∈ explored ∨ (lookupBC bc p.1).isSome = true) →
      (∀ s, (lookupBC bc s).isSome = true →
        s ∈ explored ∨ ∃ nd ∈ frontier, Node.state nd = s) →
      (lookupBC bc start).isSome = true →
      astarLoop hf t1 t2 fuel frontier explored bc ne ≠ some none := by
  intro fuel
  induction fuel with
  | zero => intro frontier explored bc ne _ _ _ _; simp [astarLoop]
  | succ m ih =>
    intro frontier explored bc ne h1 h2 h3 h4
    rw [astarLoop]
    cases hpop : heappop frontier with
    | none =>
      intro _
      have hfe : frontier = [] := heappop_eq_none hpop
      subst hfe
      have hstartE : start ∈ explored := by
        rcases h3 start h4 with h | ⟨nd, hnd, _⟩
        · exact h
        · exact absurd hnd (List.not_mem_nil nd)
      have hclosed : ∀ e ∈ explored, ∀ p ∈ get_neighbors e, p.1 ∈ explored := by
        intro e he p hp
        rcases h2 e he p hp with h | h
        · exact h
        · rcases h3 p.1 h with h' | ⟨nd, hnd, _⟩
          · exact h'
          · exact absurd hnd (List.not_mem_nil nd)
      exact h1 (reaches_mem_closed hclosed hreach hstartE)
    | some cf =>
      obtain ⟨current, frontier2⟩ := cf
      have hperm := perm_heappop hpop
      dsimp only
      by_cases hmem : current.state ∈ explored
      · rw [if_pos hmem]
        refine ih frontier2 explored bc ne h1 h2 ?_ h4
        intro s hs
        rcases h3 s hs with h | ⟨nd, hnd, hnds⟩
        · exact Or.inl h
        · rcases List.mem_cons.mp (hperm.mem_iff.mp hnd) with hEq | hnd2
          · subst hEq
            rw [← hnds]
            exact Or.inl hmem
          · exact Or.inr ⟨nd, hnd2, hnds⟩
      · rw [if_neg hmem]
        by_cases hgoal : current.state = GOAL
        · rw [if_pos hgoal]
          simp
        · rw [if_neg hgoal]
          have h1' : GOAL ∉ explored ++ [current.state] := by
            intro h
            rcases List.mem_append.mp h with h | h
            · exact h1 h
            · rw [List.mem_singleton] at h
              exact hgoal h.symm
          have h3pre : ∀ s, (lookupBC bc s).isSome = true →
              s ∈ explored ++ [current.state] ∨
                ∃ nd ∈ frontier2, Node.state nd = s := by
            intro s hs
            rcases h3 s hs with h | ⟨nd, hnd, hnds⟩
            · exact Or.inl (List.mem_append_left _ h)
            · rcases List.mem_cons.mp (hperm.mem_iff.mp hnd) with hEq | hnd2
              · subst hEq
                rw [← hnds]
                exact Or.inl (List.mem_append_right _ (List.mem_singleton.mpr rfl))
              · exact Or.inr ⟨nd, hnd2, hnds⟩
          refine ih _ _ _ _ h1' ?_ ?_ ?_
          · intro e he p hp
            rcases List.mem_append.mp he with heo | hec
            · rcases h2 e heo p hp with h | h
              · exact Or.inl (List.mem_append_left _ h)
              · exact Or.inr (expandFold_lookup_mono hf current _ _ _ _ p.1 h)
            · rw [List.mem_singleton] at hec
              subst hec
              exact expandFold_nbr_cover hf current _
                (get_neighbors current.state) frontier2 bc p hp
          · exact expandFold_cover hf current _ (get_neighbors current.state)
              frontier2 bc h3pre
          · exact expandFold_lookup_mono hf current _ _ _ _ start h4

set_option maxHeartbeats 800000 in
/-- C2: on a well-formed board (a permutation of 0..8), `solve` returns
`none` exactly when the board fails the inversion-parity check
`is_solvable`; the unsolvable verdict comes from the up-front check
before any search node is built (the result is `none` uniformly in the
heuristic name and the clock readings), and on every solvable board
`solve` returns a genuine `Solved` result `(path, nodes_expanded,
elapsed)`. -/
theorem solve_none_iff_unsolvable (b : Board) (hname : String) (t1 t2 : Int)
    (hv : Valid b) :
    (solve b hname t1 t2 = none ↔ is_solvable b = false) ∧
      (is_solvable b = false → ∀ (hname2 : String) (u1 u2 : Int),
        solve b hname2 u1 u2 = none) ∧
      (is_solvable b = true → ∃ (path : List String) (ne : Nat) (el : Int),
        solve b hname t1 t2 = some (path, ne, el)) := by
  have hearly : ∀ (hname2 : String) (u1 u2 : Int), is_solvable b = false →
      solve b hname2 u1 u2 = none := by
    intro hname2 u1 u2 hs
    unfold solve
    rw [if_pos hs]
  by_cases hs : is_solvable b = false
  · refine ⟨⟨fun _ => hs, fun _ => hearly hname t1 t2 hs⟩,
      fun _ hname2 u1 u2 => hearly hname2 u1 u2 hs, fun ht => ?_⟩
    rw [ht] at hs
    exact absurd hs (by simp)
  · have hst : is_solvable b = true := by
      revert hs
      cases is_solvable b <;> simp
    by_cases hg : b = GOAL
    · have hsolve : solve b hname t1 t2 = some ([], 0, 0) := by
        unfold solve
        rw [if_neg hs, if_pos hg]
      refine ⟨⟨fun h => absurd (hsolve ▸ h) (by simp), fun h => absurd h hs⟩,
        fun h => absurd h hs, fun _ => ⟨[], 0, 0, hsolve⟩⟩
    · obtain ⟨r, hr⟩ := astarLoop_completes
        (if hname = "manhattan" then manhattan else hamming) t1 t2 SOLVE_FUEL
        [mkRoot b 0 ((if hname = "manhattan" then manhattan else hamming) b)]
        [] [(b, 0)] 0
        (by
          intro nd hnd
          rw [List.mem_singleton] at hnd
          subst hnd
          exact hv)
        List.nodup_nil
        (by intro e he; exact absurd he (List.not_mem_nil e))
        (by norm_num [SOLVE_FUEL, Nat.factorial])
      have hnn : astarLoop (if hname = "manhattan" then manhattan else hamming)
          t1 t2 SOLVE_FUEL
          [mkRoot b 0 ((if hname = "manhattan" then manhattan else hamming) b)]
          [] [(b, 0)] 0 ≠ some none := by
        refine astarLoop_no_exhaust _ t1 t2 b (solvable_reaches_goal b hv hst)
          SOLVE_FUEL _ _ _ _ (List.not_mem_nil _)
          (by intro e he; exact absurd he (List.not_mem_nil e)) ?_ ?_
        · intro s hs'
          by_cases hbs : b = s
          · exact Or.inr ⟨mkRoot b 0
              ((if hname = "manhattan" then manhattan else hamming) b),
              List.mem_singleton.mpr rfl, hbs⟩
          · exfalso
            unfold lookupBC at hs'
            rw [if_neg hbs] at hs'
            exact absurd hs' (by simp [lookupBC])
        · unfold lookupBC
          rw [if_pos rfl]
          rfl
      cases r with
      | none => exact absurd hr hnn
      | some x =>
        obtain ⟨path, ne, el⟩ := x
        have hsolve : solve b hname t1 t2 = some (path, ne, el) := by
          unfold solve
          rw [if_neg hs, if_neg hg]
          dsimp only
          rw [hr]
        refine ⟨⟨fun h => absurd (hsolve ▸ h) (by simp), fun h => absurd h hs⟩,
          fun h => absurd h hs, fun _ => ⟨path, ne, el, hsolve⟩⟩

theorem solve_none_iff_unsolvable_witness :
    Valid [[0, 2, 1], [3, 4, 5], [6, 7, 8]] ∧
      ((solve [[0, 2, 1], [3, 4, 5], [6, 7, 8]] "manhattan" 0 1 = none ↔
          is_solvable [[0, 2, 1], [3, 4, 5], [6, 7, 8]] = false) ∧
        (is_solvable [[0, 2, 1], [3, 4, 5], [6, 7, 8]] = false →
          ∀ (hname2 : String) (u1 u2 : Int),
            solve [[0, 2, 1], [3, 4, 5], [6, 7, 8]] hname2 u1 u2 = none) ∧
        (is_solvable [[0, 2, 1], [3, 4, 5], [6, 7, 8]] = true →
          ∃ (path : List String) (ne : Nat) (el : Int),
            solve [[0, 2, 1], [3, 4, 5], [6, 7, 8]] "manhattan" 0 1 =
              some (path, ne, el))) :=
  ⟨by decide,
    solve_none_iff_unsolvable [[0, 2, 1], [3, 4, 5], [6, 7, 8]] "manhattan" 0 1
      (by decide)⟩

theorem getN_set_self (l : List Node) (i : Nat) (x : Node) (h : i < l.length) :
    getN (l.set i x) i = x := by
  unfold getN
  rw [List.getD_eq_getElem?_getD, List.getElem?_set_self h, Option.getD_some]

theorem getN_set_ne (l : List Node) (i : Nat) (x : Node) (j : Nat)
    (h : i ≠ j) : getN (l.set i x) j = getN l j := by
  unfold getN
  rw [List.getD_eq_getElem?_getD, List.getElem?_set_ne h,
    ← List.getD_eq_getElem?_getD]

theorem getN_append_lt (l l2 : List Node) (q : Nat) (h : q < l.length) :
    getN (l ++ l2) q = getN l q := by
  unfold getN
  rw [List.getD_eq_getElem?_getD, List.getElem?_append_left h,
    ← List.getD_eq_getElem?_getD]

theorem getN_dropLast (l : List Node) (q : Nat) (h : q < l.dropLast.length) :
    getN l.dropLast q = getN l q := by
  unfold getN
  rw [List.getD_eq_getElem?_getD, List.getElem?_dropLast]
  rw [List.length_dropLast] at h
  rw [if_pos h, ← List.getD_eq_getElem?_getD]

theorem root_min {l : List Node} (hh : HeapInv l) :
    ∀ j, j < l.length → (getN l 0).f ≤ (getN l j).f := by
  intro j
  induction j using Nat.strong_induction_on with
  | _ j ih =>
    intro hj
    rcases Nat.eq_zero_or_pos j with h0 | h0
    · subst h0; exact Nat.le_refl _
    · exact (ih ((j - 1) / 2) (by omega) (by omega)).trans (hh j h0 hj)

theorem root_min_mem {l : List Node} (hh : HeapInv l) {nd : Node}
    (hmem : nd ∈ l) : (getN l 0).f ≤ nd.f := by
  obtain ⟨i, hi, hEq⟩ := List.mem_iff_getElem.mp hmem
  have := root_min hh i hi
  rwa [getN_eq_getElem l i hi, hEq] at this

theorem siftdownLoop_heapInv :
    ∀ (fuel : Nat) (heap : List Node) (pos : Nat) (ni : Node),
      pos < heap.length → pos ≤ fuel →
      (∀ j, 0 < j → j < heap.length → j ≠ pos →
        (getN (heap.set pos ni) ((j - 1) / 2)).f ≤
          (getN (heap.set pos ni) j).f) →
      (0 < pos → ∀ c, (c = 2 * pos + 1 ∨ c = 2 * pos + 2) → c < heap.length →
        (getN heap ((pos - 1) / 2)).f ≤ (getN heap c).f) →
      HeapInv (siftdownLoop fuel heap 0 pos ni) := by
  intro fuel
  induction fuel with
  | zero =>
    intro heap pos ni hpos hfuel hedge _
    have hp0 : pos = 0 := by omega
    subst hp0
    rw [siftdownLoop]
    intro j hj hjlen
    rw [List.length_set] at hjlen
    exact hedge j hj hjlen (by omega)
  | succ n ih =>
    intro heap pos ni hpos hfuel hedge hG
    rw [siftdownLoop]
    by_cases h0 : 0 < pos
    · rw [if_pos h0]
      dsimp only
      by_cases hlt : Node.lt ni (getN heap ((pos - 1) / 2)) = true
      · rw [if_pos hlt]
        have hltf : ni.f < (getN heap ((pos - 1) / 2)).f := by
          unfold Node.lt at hlt
          exact of_decide_eq_true hlt
        have hplen : (pos - 1) / 2 < (heap.set pos (getN heap ((pos - 1) / 2))).length := by
          rw [List.length_set]; omega
        refine ih (heap.set pos (getN heap ((pos - 1) / 2))) ((pos - 1) / 2) ni
          (by rw [List.length_set]; omega) (by omega) ?_ ?_
        · -- edges of the conceptual array away from the new hole (pos-1)/2
          intro j hj hjlen hjp
          rw [List.length_set] at hjlen
          by_cases hjpos : j = pos
          · subst hjpos
            rw [getN_set_self (heap.set j (getN heap ((j - 1) / 2)))
              ((j - 1) / 2) ni hplen,
              getN_set_ne (heap.set j (getN heap ((j - 1) / 2)))
                ((j - 1) / 2) ni j (by omega),
              getN_set_self heap j (getN heap ((j - 1) / 2)) hpos]
            exact Nat.le_of_lt hltf
          · by_cases hq1 : (j - 1) / 2 = pos
            · rw [hq1,
                getN_set_ne (heap.set pos (getN heap ((pos - 1) / 2)))
                  ((pos - 1) / 2) ni pos (by omega),
                getN_set_self heap pos (getN heap ((pos - 1) / 2)) hpos,
                getN_set_ne (heap.set pos (getN heap ((pos - 1) / 2)))
                  ((pos - 1) / 2) ni j (by omega),
                getN_set_ne heap pos (getN heap ((pos - 1) / 2)) j (by omega)]
              exact hG h0 j (by omega) (by omega)
            · by_cases hq2 : (j - 1) / 2 = (pos - 1) / 2
              · rw [hq2,
                  getN_set_self (heap.set pos (getN heap ((pos - 1) / 2)))
                    ((pos - 1) / 2) ni hplen,
                  getN_set_ne (heap.set pos (getN heap ((pos - 1) / 2)))
                    ((pos - 1) / 2) ni j (by omega),
                  getN_set_ne heap pos (getN heap ((pos - 1) / 2)) j (by omega)]
                have hedgej := hedge j hj (by omega) hjpos
                rw [hq2,
                  getN_set_ne heap pos ni ((pos - 1) / 2) (by omega),
                  getN_set_ne heap pos ni j (by omega)] at hedgej
                exact Nat.le_trans (Nat.le_of_lt hltf) hedgej
              · rw [getN_set_ne (heap.set pos (getN heap ((pos - 1) / 2)))
                    ((pos - 1) / 2) ni ((j - 1) / 2) (by omega),
                  getN_set_ne heap pos (getN heap ((pos - 1) / 2))
                    ((j - 1) / 2) (by omega),
                  getN_set_ne (heap.set pos (getN heap ((pos - 1) / 2)))
                    ((pos - 1) / 2) ni j (by omega),
                  getN_set_ne heap pos (getN heap ((pos - 1) / 2)) j (by omega)]
                have hedgej := hedge j hj (by omega) hjpos
                rw [getN_set_ne heap pos ni ((j - 1) / 2) (by omega),
                  getN_set_ne heap pos ni j (by omega)] at hedgej
                exact hedgej
        · -- grandchild property at the new hole
          intro hp0 c hc hclen
          rw [List.length_set] at hclen
          have hedgep := hedge ((pos - 1) / 2) hp0 (by omega) (by omega)
          rw [getN_set_ne heap pos ni (((pos - 1) / 2 - 1) / 2) (by omega),
            getN_set_ne heap pos ni ((pos - 1) / 2) (by omega)] at hedgep
          by_cases hcpos : c = pos
          · subst hcpos
            rw [getN_set_ne heap c (getN heap ((c - 1) / 2))
                (((c - 1) / 2 - 1) / 2) (by omega),
              getN_set_self heap c (getN heap ((c - 1) / 2)) hpos]
            exact hedgep
          · rw [getN_set_ne heap pos (getN heap ((pos - 1) / 2))
                (((pos - 1) / 2 - 1) / 2) (by omega),
              getN_set_ne heap pos (getN heap ((pos - 1) / 2)) c (by omega)]
            have hedgec := hedge c (by omega) (by omega) hcpos
            have hcp : (c - 1) / 2 = (pos - 1) / 2 := by omega
            rw [hcp, getN_set_ne heap pos ni ((pos - 1) / 2) (by omega),
              getN_set_ne heap pos ni c (by omega)] at hedgec
            exact Nat.le_trans hedgep hedgec
      · rw [if_neg hlt]
        have hlef : (getN heap ((pos - 1) / 2)).f ≤ ni.f := by
          unfold Node.lt at hlt
          have := of_decide_eq_false (Bool.not_eq_true _ |>.mp hlt)
          omega
        intro j hj hjlen
        rw [List.length_set] at hjlen
        by_cases hjpos : j = pos
        · subst hjpos
          rw [getN_set_self heap j ni (by omega),
            getN_set_ne heap j ni ((j - 1) / 2) (by omega)]
          exact hlef
        · exact hedge j hj hjlen hjpos
    · rw [if_neg h0]
      have hp0 : pos = 0 := by omega
      subst hp0
      intro j hj hjlen
      rw [List.length_set] at hjlen
      exact hedge j hj hjlen (by omega)

theorem heappush_heapInv {l : List Node} (hh : HeapInv l) (item : Node) :
    HeapInv (heappush l item) := by
  unfold heappush siftdown
  have hlen : l.length < (l ++ [item]).length := by simp
  have hget : getN (l ++ [item]) l.length = item := by
    rw [getN_eq_getElem _ _ hlen]
    simp
  rw [hget]
  refine siftdownLoop_heapInv l.length (l ++ [item]) l.length item hlen
    (Nat.le_refl _) ?_ ?_
  · intro j hj hjlen hjne
    rw [List.length_append, List.length_singleton] at hjlen
    have hjl : j < l.length := by omega
    rw [set_append_last, getN_append_lt l [item] ((j - 1) / 2) (by omega),
      getN_append_lt l [item] j hjl]
    exact hh j hj hjl
  · intro hp0 c hc hclen
    rw [List.length_append, List.length_singleton] at hclen
    omega

theorem siftupLoop_inv :
    ∀ (fuel : Nat) (heap : List Node) (pos endpos : Nat),
      pos < endpos → endpos = heap.length → endpos ≤ fuel + pos →
      (∀ j, 0 < j → j < endpos → j ≠ pos → (j - 1) / 2 ≠ pos →
        (getN heap ((j - 1) / 2)).f ≤ (getN heap j).f) →
      (0 < pos → ∀ c, (c = 2 * pos + 1 ∨ c = 2 * pos + 2) → c < endpos →
        (getN heap ((pos - 1) / 2)).f ≤ (getN heap c).f) →
      (∀ j, 0 < j → j < endpos → j ≠ (siftupLoop fuel heap pos endpos).2 →
        (j - 1) / 2 ≠ (siftupLoop fuel heap pos endpos).2 →
        (getN (siftupLoop fuel heap pos endpos).1 ((j - 1) / 2)).f ≤
          (getN (siftupLoop fuel heap pos endpos).1 j).f) ∧
      (0 < (siftupLoop fuel heap pos endpos).2 →
        ∀ c, (c = 2 * (siftupLoop fuel heap pos endpos).2 + 1 ∨
            c = 2 * (siftupLoop fuel heap pos endpos).2 + 2) → c < endpos →
          (getN (siftupLoop fuel heap pos endpos).1
            (((siftupLoop fuel heap pos endpos).2 - 1) / 2)).f ≤
            (getN (siftupLoop fuel heap pos endpos).1 c).f) ∧
      ¬ 2 * (siftupLoop fuel heap pos endpos).2 + 1 < endpos := by
  intro fuel
  induction fuel with
  | zero => intro heap pos endpos h1 _ h3; omega
  | succ n ih =>
    intro heap pos endpos hpos hend hfuel hS2 hS3
    rw [siftupLoop]
    by_cases hc : 2 * pos + 1 < endpos
    · rw [if_pos hc]
      dsimp only
      have step : ∀ cp, (cp = 2 * pos + 1 ∨ cp = 2 * pos + 2) → cp < endpos →
          (∀ j, (j - 1) / 2 = pos → 0 < j → j < endpos → j ≠ cp →
            (getN heap cp).f ≤ (getN heap j).f) →
          (∀ j, 0 < j → j < endpos →
              j ≠ (siftupLoop n (heap.set pos (getN heap cp)) cp endpos).2 →
              (j - 1) / 2 ≠ (siftupLoop n (heap.set pos (getN heap cp)) cp endpos).2 →
              (getN (siftupLoop n (heap.set pos (getN heap cp)) cp endpos).1
                ((j - 1) / 2)).f ≤
                (getN (siftupLoop n (heap.set pos (getN heap cp)) cp endpos).1 j).f) ∧
          (0 < (siftupLoop n (heap.set pos (getN heap cp)) cp endpos).2 →
            ∀ c, (c = 2 * (siftupLoop n (heap.set pos (getN heap cp)) cp endpos).2 + 1 ∨
                c = 2 * (siftupLoop n (heap.set pos (getN heap cp)) cp endpos).2 + 2) →
              c < endpos →
              (getN (siftupLoop n (heap.set pos (getN heap cp)) cp endpos).1
                (((siftupLoop n (heap.set pos (getN heap cp)) cp endpos).2 - 1) / 2)).f ≤
                (getN (siftupLoop n (heap.set pos (getN heap cp)) cp endpos).1 c).f) ∧
          ¬ 2 * (siftupLoop n (heap.set pos (getN heap cp)) cp endpos).2 + 1 < endpos := by
        intro cp hcp hcplt hsib
        refine ih (heap.set pos (getN heap cp)) cp endpos hcplt
          (by rw [List.length_set]; exact hend) (by omega) ?_ ?_
        · -- edges away from the new hole cp
          intro j hj hjlen hjcp hjpcp
          by_cases hjpos : j = pos
          · subst hjpos
            rw [getN_set_ne heap j (getN heap cp) ((j - 1) / 2) (by omega),
              getN_set_self heap j (getN heap cp) (by omega)]
            exact hS3 hj cp hcp hcplt
          · by_cases hpj : (j - 1) / 2 = pos
            · rw [hpj, getN_set_self heap pos (getN heap cp) (by omega),
                getN_set_ne heap pos (getN heap cp) j (by omega)]
              exact hsib j hpj hj hjlen hjcp
            · rw [getN_set_ne heap pos (getN heap cp) ((j - 1) / 2) (by omega),
                getN_set_ne heap pos (getN heap cp) j (by omega)]
              exact hS2 j hj hjlen hjpos hpj
        · -- grandchild property at the new hole cp
          intro _ c hcc hcclen
          have hcpar : (cp - 1) / 2 = pos := by omega
          have hcc2 : (c - 1) / 2 = cp := by omega
          rw [hcpar, getN_set_self heap pos (getN heap cp) (by omega),
            getN_set_ne heap pos (getN heap cp) c (by omega)]
          have hres := hS2 c (by omega) hcclen (by omega) (by omega)
          rwa [hcc2] at hres
      split
      next hcond =>
        refine step (2 * pos + 2) (Or.inr rfl) (by omega) ?_
        intro j hpj hj hjlen hjcp
        have hj1 : j = 2 * pos + 1 := by omega
        subst hj1
        unfold Node.lt at hcond
        have hcf := of_decide_eq_false (Bool.not_eq_true _ |>.mp hcond.2)
        have h22 : 2 * pos + 1 + 1 = 2 * pos + 2 := by omega
        rw [h22] at hcf
        omega
      next hcond =>
        refine step (2 * pos + 1) (Or.inl rfl) (by omega) ?_
        intro j hpj hj hjlen hjcp
        have hj2 : j = 2 * pos + 2 := by omega
        subst hj2
        have hcond2 : Node.lt (getN heap (2 * pos + 1)) (getN heap (2 * pos + 1 + 1)) = true := by
          by_contra hcon
          exact hcond ⟨by omega, hcon⟩
        unfold Node.lt at hcond2
        have hcf := of_decide_eq_true hcond2
        have h22 : 2 * pos + 1 + 1 = 2 * pos + 2 := by omega
        rw [h22] at hcf
        omega
    · rw [if_neg hc]
      exact ⟨fun j hj hjlen hjp hjpp => hS2 j hj hjlen hjp hjpp, hS3, hc⟩

theorem siftup_heapInv (heap : List Node) (h0 : 0 < heap.length)
    (hS2 : ∀ j, 0 < j → j < heap.length → (j - 1) / 2 ≠ 0 →
      (getN heap ((j - 1) / 2)).f ≤ (getN heap j).f) :
    HeapInv (siftup heap 0) := by
  unfold siftup siftdown
  dsimp only
  obtain ⟨hmem, hlt, hlen⟩ :=
    mem_siftupLoop heap.length heap 0 heap.length h0 rfl
  obtain ⟨hS2f, hS3f, hleaf⟩ :=
    siftupLoop_inv heap.length heap 0 heap.length h0 rfl (by omega)
      (fun j hj hjlen _ hp => hS2 j hj hjlen hp)
      (fun h => absurd h (by omega))
  set hp := siftupLoop heap.length heap 0 heap.length with hhp
  have hb : hp.2 < hp.1.length := by omega
  have hset : hp.2 < (hp.1.set hp.2 (getN heap 0)).length := by
    simpa using hb
  have hget : getN (hp.1.set hp.2 (getN heap 0)) hp.2 = getN heap 0 := by
    rw [getN_set_self hp.1 hp.2 (getN heap 0) hb]
  rw [hget]
  refine siftdownLoop_heapInv hp.2 (hp.1.set hp.2 (getN heap 0)) hp.2
    (getN heap 0) hset (Nat.le_refl _) ?_ ?_
  · intro j hj hjlen hjne
    rw [List.length_set] at hjlen
    rw [List.set_set]
    have hpj : (j - 1) / 2 ≠ hp.2 := by omega
    rw [getN_set_ne hp.1 hp.2 (getN heap 0) ((j - 1) / 2) (by omega),
      getN_set_ne hp.1 hp.2 (getN heap 0) j (by omega)]
    exact hS2f j hj (by omega) hjne hpj
  · intro hpp c hc hclen
    rw [List.length_set] at hclen
    omega

theorem heapInv_nil : HeapInv [] := by
  intro j hj hjlen
  simp at hjlen

theorem heappop_heapInv {l : List Node} (hh : HeapInv l) {c : Node}
    {l2 : List Node} (hpop : heappop l = some (c, l2)) : HeapInv l2 := by
  unfold heappop at hpop
  cases hlast : l.getLast? with
  | none => rw [hlast] at hpop; exact absurd hpop (by simp)
  | some lastelt =>
    rw [hlast] at hpop
    dsimp only at hpop
    by_cases hre : l.dropLast.isEmpty
    · rw [if_pos hre] at hpop
      obtain ⟨rfl, rfl⟩ := Prod.mk.injEq .. ▸ Option.some_inj.mp hpop
      rw [List.isEmpty_iff.mp hre]
      exact heapInv_nil
    · rw [if_neg hre] at hpop
      have hrne : l.dropLast ≠ [] := fun h => hre (by simp [h])
      have hlen0 : 0 < l.dropLast.length := List.length_pos.mpr hrne
      obtain ⟨rfl, rfl⟩ := Prod.mk.injEq .. ▸ Option.some_inj.mp hpop
      refine siftup_heapInv _ (by simpa using hlen0) ?_
      intro j hj hjlen hjp
      rw [List.length_set] at hjlen
      have hjl : j < l.length := by
        have := List.length_dropLast l
        omega
      rw [getN_set_ne l.dropLast 0 lastelt ((j - 1) / 2) (Ne.symm hjp),
        getN_set_ne l.dropLast 0 lastelt j (by omega),
        getN_dropLast l ((j - 1) / 2) (by omega), getN_dropLast l j hjlen]
      exact hh j hj hjl

theorem heappop_min {l : List Node} (hh : HeapInv l) {c : Node}
    {l2 : List Node} (hpop : heappop l = some (c, l2)) :
    ∀ nd ∈ l, c.f ≤ nd.f := by
  unfold heappop at hpop
  cases hlast : l.getLast? with
  | none => rw [hlast] at hpop; exact absurd hpop (by simp)
  | some lastelt =>
    rw [hlast] at hpop
    have hne : l ≠ [] := by
      intro h; rw [h] at hlast; simp at hlast
    have hheap : l = l.dropLast ++ [lastelt] := by
      conv_lhs => rw [← List.dropLast_append_getLast hne]
      rw [List.getLast?_eq_getLast _ hne] at hlast
      rw [Option.some_inj.mp hlast]
    dsimp only at hpop
    by_cases hre : l.dropLast.isEmpty
    · rw [if_pos hre] at hpop
      obtain ⟨rfl, rfl⟩ := Prod.mk.injEq .. ▸ Option.some_inj.mp hpop
      intro nd hnd
      rw [hheap, List.isEmpty_iff.mp hre] at hnd
      simp only [List.nil_append, List.mem_singleton] at hnd
      subst hnd
      exact Nat.le_refl _
    · rw [if_neg hre] at hpop
      have hrne : l.dropLast ≠ [] := fun h => hre (by simp [h])
      have hlen0 : 0 < l.dropLast.length := List.length_pos.mpr hrne
      obtain ⟨rfl, rfl⟩ := Prod.mk.injEq .. ▸ Option.some_inj.mp hpop
      intro nd hnd
      rw [getN_dropLast l 0 hlen0]
      exact root_min_mem hh hnd

theorem expandFold_heapInv (hf : Board → Nat) (cur : Node) (E : List Board) :
    ∀ (rest : List (Board × String)) (F : List Node) (B : List (Board × Nat)),
      HeapInv F → HeapInv (expandFold hf cur E rest (F, B)).1 := by
  intro rest
  induction rest with
  | nil => intro F B h; exact h
  | cons q rest ih =>
    obtain ⟨n, m⟩ := q
    intro F B h
    rw [expandFold]
    by_cases h1 : n ∈ E
    · rw [if_pos h1]; exact ih F B h
    · rw [if_neg h1]
      by_cases h2 : dominatedBC B n (cur.g + 1) = true
      · rw [if_pos h2]; exact ih F B h
      · rw [if_neg h2]
        exact ih _ _ (heappush_heapInv h _)

theorem tileDist_zero (i j : Nat) : tileDist i j 0 = 0 := by
  simp [tileDist]

theorem tileDist_adjacent (i j i2 j2 t : Nat)
    (h : ((i : Int) - i2).natAbs + ((j : Int) - j2).natAbs = 1) :
    tileDist i2 j2 t ≤ tileDist i j t + 1 := by
  unfold tileDist
  by_cases ht : t ≠ 0
  · rw [if_pos ht, if_pos ht]
    omega
  · rw [if_neg ht, if_neg ht]
    omega

set_option maxHeartbeats 1600000 in

theorem heuristic_consistent :
    ∀ s : Board, Valid s → ∀ q ∈ get_neighbors s,
      (hamming s ≤ hamming q.1 + 1 ∧ hamming q.1 ≤ hamming s + 1) ∧
        (manhattan s ≤ manhattan q.1 + 1 ∧ manhattan q.1 ≤ manhattan s + 1) := by
  intro s hv
  obtain ⟨hlen, hrows, hperm⟩ := hv
  obtain ⟨r0, r1, r2, hs⟩ := List.length_eq_three.mp hlen
  subst hs
  obtain ⟨a0, a1, a2, h0⟩ := List.length_eq_three.mp (hrows r0 (by simp))
  obtain ⟨a3, a4, a5, h1⟩ := List.length_eq_three.mp (hrows r1 (by simp))
  obtain ⟨a6, a7, a8, h2⟩ := List.length_eq_three.mp (hrows r2 (by simp))
  subst h0 h1 h2
  have hnd : List.Nodup [a0,a1,a2,a3,a4,a5,a6,a7,a8] := by
    have := hperm.nodup_iff.mpr (List.nodup_range 9)
    simpa [EightPuzzle.flatten] using this
  simp only [List.nodup_cons, List.mem_cons, not_or, List.not_mem_nil, and_true,
    List.nodup_nil, not_false_eq_true] at hnd
  obtain ⟨⟨d01, d02, d03, d04, d05, d06, d07, d08⟩, ⟨d12, d13, d14, d15, d16, d17, d18⟩, ⟨d23, d24, d25, d26, d27, d28⟩, ⟨d34, d35, d36, d37, d38⟩, ⟨d45, d46, d47, d48⟩, ⟨d56, d57, d58⟩, ⟨d67, d68⟩, d78⟩ := hnd
  have hmem : (0 : Nat) ∈ [a0,a1,a2,a3,a4,a5,a6,a7,a8] := by
    have h9 : (0 : Nat) ∈ List.range 9 := by decide
    have := hperm.mem_iff.mpr h9
    simpa [EightPuzzle.flatten] using this
  simp only [List.mem_cons, List.not_mem_nil, or_false] at hmem
  rcases hmem with h | h | h | h | h | h | h | h | h <;> subst h
  · have nz1 : a1 ≠ 0 := Ne.symm d01
    have nz2 : a2 ≠ 0 := Ne.symm d02
    have nz3 : a3 ≠ 0 := Ne.symm d03
    have nz4 : a4 ≠ 0 := Ne.symm d04
    have nz5 : a5 ≠ 0 := Ne.symm d05
    have nz6 : a6 ≠ 0 := Ne.symm d06
    have nz7 : a7 ≠ 0 := Ne.symm d07
    have nz8 : a8 ≠ 0 := Ne.symm d08
    have hfb : find_blank [[0,a1,a2],[a3,a4,a5],[a6,a7,a8]] = some (0, 0) := by
      simp [find_blank, getCell, List.range_succ, nz1, nz2, nz3, nz4, nz5, nz6, nz7, nz8]
    have hgn : get_neighbors [[0,a1,a2],[a3,a4,a5],[a6,a7,a8]] = [([[a3,a1,a2],[0,a4,a5],[a6,a7,a8]], "DOWN"), ([[a1,0,a2],[a3,a4,a5],[a6,a7,a8]], "RIGHT")] := by
      simp only [get_neighbors, hfb]; rfl
    intro q hq
    rw [hgn] at hq
    simp only [List.mem_cons, List.not_mem_nil, or_false] at hq
    rcases hq with h | h <;> subst h
    · have htd1 : tileDist 1 0 a3 ≤ tileDist 0 0 a3 + 1 :=
        tileDist_adjacent 0 0 1 0 a3 (by decide)
      have htd2 : tileDist 0 0 a3 ≤ tileDist 1 0 a3 + 1 :=
        tileDist_adjacent 1 0 0 0 a3 (by decide)
      have hm1 : (if ¬a3 = 3 then (1 : Nat) else 0) ≤ 1 := by split <;> omega
      have hm2 : (if ¬a3 = 0 then (1 : Nat) else 0) ≤ 1 := by split <;> omega
      simp only [hamming, manhattan, getCell, List.range_succ, List.range_zero,
        List.map_nil, List.map_append, List.map_cons, List.sum_append,
        List.sum_cons, List.sum_nil, List.nil_append, List.getD_cons_zero,
        List.getD_cons_succ, tileDist_zero, ne_eq, nz1, nz2, nz3, nz4, nz5, nz6, nz7, nz8,
        Nat.reduceMul, Nat.reduceAdd, not_false_eq_true, true_and, and_self,
        not_true_eq_false, false_and, if_false, if_true]
      omega
    · have htd1 : tileDist 0 1 a1 ≤ tileDist 0 0 a1 + 1 :=
        tileDist_adjacent 0 0 0 1 a1 (by decide)
      have htd2 : tileDist 0 0 a1 ≤ tileDist 0 1 a1 + 1 :=
        tileDist_adjacent 0 1 0 0 a1 (by decide)
      have hm1 : (if ¬a1 = 1 then (1 : Nat) else 0) ≤ 1 := by split <;> omega
      have hm2 : (if ¬a1 = 0 then (1 : Nat) else 0) ≤ 1 := by split <;> omega
      simp only [hamming, manhattan, getCell, List.range_succ, List.range_zero,
        List.map_nil, List.map_append, List.map_cons, List.sum_append,
        List.sum_cons, List.sum_nil, List.nil_append, List.getD_cons_zero,
        List.getD_cons_succ, tileDist_zero, ne_eq, nz1, nz2, nz3, nz4, nz5, nz6, nz7, nz8,
        Nat.reduceMul, Nat.reduceAdd, not_false_eq_true, true_and, and_self,
        not_true_eq_false, false_and, if_false, if_true]
      omega
  · have nz0 : a0 ≠ 0 := d01
    have nz2 : a2 ≠ 0 := Ne.symm d12
    have nz3 : a3 ≠ 0 := Ne.symm d13
    have nz4 : a4 ≠ 0 := Ne.symm d14
    have nz5 : a5 ≠ 0 := Ne.symm d15
    have nz6 : a6 ≠ 0 := Ne.symm d16
    have nz7 : a7 ≠ 0 := Ne.symm d17
    have nz8 : a8 ≠ 0 := Ne.symm d18
    have hfb : find_blank [[a0,0,a2],[a3,a4,a5],[a6,a7,a8]] = some (0, 1) := by
      simp [find_blank, getCell, List.range_succ, nz0, nz2, nz3, nz4, nz5, nz6, nz7, nz8]
    have hgn : get_neighbors [[a0,0,a2],[a3,a4,a5],[a6,a7,a8]] = [([[a0,a4,a2],[a3,0,a5],[a6,a7,a8]], "DOWN"), ([[0,a0,a2],[a3,a4,a5],[a6,a7,a8]], "LEFT"), ([[a0,a2,0],[a3,a4,a5],[a6,a7,a8]], "RIGHT")] := by
      simp only [get_neighbors, hfb]; rfl
    intro q hq
    rw [hgn] at hq
    simp only [List.mem_cons, List.not_mem_nil, or_false] at hq
    rcases hq with h | h | h <;> subst h
    · have htd1 : tileDist 1 1 a4 ≤ tileDist 0 1 a4 + 1 :=
        tileDist_adjacent 0 1 1 1 a4 (by decide)
      have htd2 : tileDist 0 1 a4 ≤ tileDist 1 1 a4 + 1 :=
        tileDist_adjacent 1 1 0 1 a4 (by decide)
      have hm1 : (if ¬a4 = 4 then (1 : Nat) else 0) ≤ 1 := by split <;> omega
      have hm2 : (if ¬a4 = 1 then (1 : Nat) else 0) ≤ 1 := by split <;> omega
      simp only [hamming, manhattan, getCell, List.range_succ, List.range_zero,
        List.map_nil, List.map_append, List.map_cons, List.sum_append,
        List.sum_cons, List.sum_nil, List.nil_append, List.getD_cons_zero,
        List.getD_cons_succ, tileDist_zero, ne_eq, nz0, nz2, nz3, nz4, nz5, nz6, nz7, nz8,
        Nat.reduceMul, Nat.reduceAdd, not_false_eq_true, true_and, and_self,
        not_true_eq_false, false_and, if_false, if_true]
      omega
    · have htd1 : tileDist 0 0 a0 ≤ tileDist 0 1 a0 + 1 :=
        tileDist_adjacent 0 1 0 0 a0 (by decide)
      have htd2 : tileDist 0 1 a0 ≤ tileDist 0 0 a0 + 1 :=
        tileDist_adjacent 0 0 0 1 a0 (by decide)
      have hm1 : (if ¬a0 = 0 then (1 : Nat) else 0) ≤ 1 := by split <;> omega
      have hm2 : (if ¬a0 = 1 then (1 : Nat) else 0) ≤ 1 := by split <;> omega
      simp only [hamming, manhattan, getCell, List.range_succ, List.range_zero,
        List.map_nil, List.map_append, List.map_cons, List.sum_append,
        List.sum_cons, List.sum_nil, List.nil_append, List.getD_cons_zero,
        List.getD_cons_succ, tileDist_zero, ne_eq, nz0, nz2, nz3, nz4, nz5, nz6, nz7, nz8,
        Nat.reduceMul, Nat.reduceAdd, not_false_eq_true, true_and, and_self,
        not_true_eq_false, false_and, if_false, if_true]
      omega
    · have htd1 : tileDist 0 2 a2 ≤ tileDist 0 1 a2 + 1 :=
        tileDist_adjacent 0 1 0 2 a2 (by decide)
      have htd2 : tileDist 0 1 a2 ≤ tileDist 0 2 a2 + 1 :=
        tileDist_adjacent 0 2 0 1 a2 (by decide)
      have hm1 : (if ¬a2 = 2 then (1 : Nat) else 0) ≤ 1 := by split <;> omega
      have hm2 : (if ¬a2 = 1 then (1 : Nat) else 0) ≤ 1 := by split <;> omega
      simp only [hamming, manhattan, getCell, List.range_succ, List.range_zero,
        List.map_nil, List.map_append, List.map_cons, List.sum_append,
        List.sum_cons, List.sum_nil, List.nil_append, List.getD_cons_zero,
        List.getD_cons_succ, tileDist_zero, ne_eq, nz0, nz2, nz3, nz4, nz5, nz6, nz7, nz8,
        Nat.reduceMul, Nat.reduceAdd, not_false_eq_true, true_and, and_self,
        not_true_eq_false, false_and, if_false, if_true]
      omega
  · have nz0 : a0 ≠ 0 := d02
    have nz1 : a1 ≠ 0 := d12
    have nz3 : a3 ≠ 0 := Ne.symm d23
    have nz4 : a4 ≠ 0 := Ne.symm d24
    have nz5 : a5 ≠ 0 := Ne.symm d25
    have nz6 : a6 ≠ 0 := Ne.symm d26
    have nz7 : a7 ≠ 0 := Ne.symm d27
    have nz8 : a8 ≠ 0 := Ne.symm d28
    have hfb : find_blank [[a0,a1,0],[a3,a4,a5],[a6,a7,a8]] = some (0, 2) := by
      simp [find_blank, getCell, List.range_succ, nz0, nz1, nz3, nz4, nz5, nz6, nz7, nz8]
    have hgn : get_neighbors [[a0,a1,0],[a3,a4,a5],[a6,a7,a8]] = [([[a0,a1,a5],[a3,a4,0],[a6,a7,a8]], "DOWN"), ([[a0,0,a1],[a3,a4,a5],[a6,a7,a8]], "LEFT")] := by
      simp only [get_neighbors, hfb]; rfl
    intro q hq
    rw [hgn] at hq
    simp only [List.mem_cons, List.not_mem_nil, or_false] at hq
    rcases hq with h | h <;> subst h
    · have htd1 : tileDist 1 2 a5 ≤ tileDist 0 2 a5 + 1 :=
        tileDist_adjacent 0 2 1 2 a5 (by decide)
      have htd2 : tileDist 0 2 a5 ≤ tileDist 1 2 a5 + 1 :=
        tileDist_adjacent 1 2 0 2 a5 (by decide)
      have hm1 : (if ¬a5 = 5 then (1 : Nat) else 0) ≤ 1 := by split <;> omega
      have hm2 : (if ¬a5 = 2 then (1 : Nat) else 0) ≤ 1 := by split <;> omega
      simp only [hamming, manhattan, getCell, List.range_succ, List.range_zero,
        List.map_nil, List.map_append, List.map_cons, List.sum_append,
        List.sum_cons, List.sum_nil, List.nil_append, List.getD_cons_zero,
        List.getD_cons_succ, tileDist_zero, ne_eq, nz0, nz1, nz3, nz4, nz5, nz6, nz7, nz8,
        Nat.reduceMul, Nat.reduceAdd, not_false_eq_true, true_and, and_self,
        not_true_eq_false, false_and, if_false, if_true]
      omega
    · have htd1 : tileDist 0 1 a1 ≤ tileDist 0 2 a1 + 1 :=
        tileDist_adjacent 0 2 0 1 a1 (by decide)
      have htd2 : tileDist 0 2 a1 ≤ tileDist 0 1 a1 + 1 :=
        tileDist_adjacent 0 1 0 2 a1 (by decide)
      have hm1 : (if ¬a1 = 1 then (1 : Nat) else 0) ≤ 1 := by split <;> omega
      have hm2 : (if ¬a1 = 2 then (1 : Nat) else 0) ≤ 1 := by split <;> omega
      simp only [hamming, manhattan, getCell, List.range_succ, List.range_zero,
        List.map_nil, List.map_append, List.map_cons, List.sum_append,
        List.sum_cons, List.sum_nil, List.nil_append, List.getD_cons_zero,
        List.getD_cons_succ, tileDist_zero, ne_eq, nz0, nz1, nz3, nz4, nz5, nz6, nz7, nz8,
        Nat.reduceMul, Nat.reduceAdd, not_false_eq_true, true_and, and_self,
        not_true_eq_false, false_and, if_false, if_true]
      omega
  · have nz0 : a0 ≠ 0 := d03
    have nz1 : a1 ≠ 0 := d13
    have nz2 : a2 ≠ 0 := d23
    have nz4 : a4 ≠ 0 := Ne.symm d34
    have nz5 : a5 ≠ 0 := Ne.symm d35
    have nz6 : a6 ≠ 0 := Ne.symm d36
    have nz7 : a7 ≠ 0 := Ne.symm d37
    have nz8 : a8 ≠ 0 := Ne.symm d38
    have hfb : find_blank [[a0,a1,a2],[0,a4,a5],[a6,a7,a8]] = some (1, 0) := by
      simp [find_blank, getCell, List.range_succ, nz0, nz1, nz2, nz4, nz5, nz6, nz7, nz8]
    have hgn : get_neighbors [[a0,a1,a2],[0,a4,a5],[a6,a7,a8]] = [([[0,a1,a2],[a0,a4,a5],[a6,a7,a8]], "UP"), ([[a0,a1,a2],[a6,a4,a5],[0,a7,a8]], "DOWN"), ([[a0,a1,a2],[a4,0,a5],[a6,a7,a8]], "RIGHT")] := by
      simp only [get_neighbors, hfb]; rfl
    intro q hq
    rw [hgn] at hq
    simp only [List.mem_cons, List.not_mem_nil, or_false] at hq
    rcases hq with h | h | h <;> subst h
    · have htd1 : tileDist 0 0 a0 ≤ tileDist 1 0 a0 + 1 :=
        tileDist_adjacent 1 0 0 0 a0 (by decide)
      have htd2 : tileDist 1 0 a0 ≤ tileDist 0 0 a0 + 1 :=
        tileDist_adjacent 0 0 1 0 a0 (by decide)
      have hm1 : (if ¬a0 = 0 then (1 : Nat) else 0) ≤ 1 := by split <;> omega
      have hm2 : (if ¬a0 = 3 then (1 : Nat) else 0) ≤ 1 := by split <;> omega
      simp only [hamming, manhattan, getCell, List.range_succ, List.range_zero,
        List.map_nil, List.map_append, List.map_cons, List.sum_append,
        List.sum_cons, List.sum_nil, List.nil_append, List.getD_cons_zero,
        List.getD_cons_succ, tileDist_zero, ne_eq, nz0, nz1, nz2, nz4, nz5, nz6, nz7, nz8,
        Nat.reduceMul, Nat.reduceAdd, not_false_eq_true, true_and, and_self,
        not_true_eq_false, false_and, if_false, if_true]
      omega
    · have htd1 : tileDist 2 0 a6 ≤ tileDist 1 0 a6 + 1 :=
        tileDist_adjacent 1 0 2 0 a6 (by decide)
      have htd2 : tileDist 1 0 a6 ≤ tileDist 2 0 a6 + 1 :=
        tileDist_adjacent 2 0 1 0 a6 (by decide)
      have hm1 : (if ¬a6 = 6 then (1 : Nat) else 0) ≤ 1 := by split <;> omega
      have hm2 : (if ¬a6 = 3 then (1 : Nat) else 0) ≤ 1 := by split <;> omega
      simp only [hamming, manhattan, getCell, List.range_succ, List.range_zero,
        List.map_nil, List.map_append, List.map_cons, List.sum_append,
        List.sum_cons, List.sum_nil, List.nil_append, List.getD_cons_zero,
        List.getD_cons_succ, tileDist_zero, ne_eq, nz0, nz1, nz2, nz4, nz5, nz6, nz7, nz8,
        Nat.reduceMul, Nat.reduceAdd, not_false_eq_true, true_and, and_self,
        not_true_eq_false, false_and, if_false, if_true]
      omega
    · have htd1 : tileDist 1 1 a4 ≤ tileDist 1 0 a4 + 1 :=
        tileDist_adjacent 1 0 1 1 a4 (by decide)
      have htd2 : tileDist 1 0 a4 ≤ tileDist 1 1 a4 + 1 :=
        tileDist_adjacent 1 1 1 0 a4 (by decide)
      have hm1 : (if ¬a4 = 4 then (1 : Nat) else 0) ≤ 1 := by split <;> omega
      have hm2 : (if ¬a4 = 3 then (1 : Nat) else 0) ≤ 1 := by split <;> omega
      simp only [hamming, manhattan, getCell, List.range_succ, List.range_zero,
        List.map_nil, List.map_append, List.map_cons, List.sum_append,
        List.sum_cons, List.sum_nil, List.nil_append, List.getD_cons_zero,
        List.getD_cons_succ, tileDist_zero, ne_eq, nz0, nz1, nz2, nz4, nz5, nz6, nz7, nz8,
        Nat.reduceMul, Nat.reduceAdd, not_false_eq_true, true_and, and_self,
        not_true_eq_false, false_and, if_false, if_true]
      omega
  · have nz0 : a0 ≠ 0 := d04
    have nz1 : a1 ≠ 0 := d14
    have nz2 : a2 ≠ 0 := d24
    have nz3 : a3 ≠ 0 := d34
    have nz5 : a5 ≠ 0 := Ne.symm d45
    have nz6 : a6 ≠ 0 := Ne.symm d46
    have nz7 : a7 ≠ 0 := Ne.symm d47
    have nz8 : a8 ≠ 0 := Ne.symm d48
    have hfb : find_blank [[a0,a1,a2],[a3,0,a5],[a6,a7,a8]] = some (1, 1) := by
      simp [find_blank, getCell, List.range_succ, nz0, nz1, nz2, nz3, nz5, nz6, nz7, nz8]
    have hgn : get_neighbors [[a0,a1,a2],[a3,0,a5],[a6,a7,a8]] = [([[a0,0,a2],[a3,a1,a5],[a6,a7,a8]], "UP"), ([[a0,a1,a2],[a3,a7,a5],[a6,0,a8]], "DOWN"), ([[a0,a1,a2],[0,a3,a5],[a6,a7,a8]], "LEFT"), ([[a0,a1,a2],[a3,a5,0],[a6,a7,a8]], "RIGHT")] := by
      simp only [get_neighbors, hfb]; rfl
    intro q hq
    rw [hgn] at hq
    simp only [List.mem_cons, List.not_mem_nil, or_false] at hq
    rcases hq with h | h | h | h <;> subst h
    · have htd1 : tileDist 0 1 a1 ≤ tileDist 1 1 a1 + 1 :=
        tileDist_adjacent 1 1 0 1 a1 (by decide)
      have htd2 : tileDist 1 1 a1 ≤ tileDist 0 1 a1 + 1 :=
        tileDist_adjacent 0 1 1 1 a1 (by decide)
      have hm1 : (if ¬a1 = 1 then (1 : Nat) else 0) ≤ 1 := by split <;> omega
      have hm2 : (if ¬a1 = 4 then (1 : Nat) else 0) ≤ 1 := by split <;> omega
      simp only [hamming, manhattan, getCell, List.range_succ, List.range_zero,
        List.map_nil, List.map_append, List.map_cons, List.sum_append,
        List.sum_cons, List.sum_nil, List.nil_append, List.getD_cons_zero,
        List.getD_cons_succ, tileDist_zero, ne_eq, nz0, nz1, nz2, nz3, nz5, nz6, nz7, nz8,
        Nat.reduceMul, Nat.reduceAdd, not_false_eq_true, true_and, and_self,
        not_true_eq_false, false_and, if_false, if_true]
      omega
    · have htd1 : tileDist 2 1 a7 ≤ tileDist 1 1 a7 + 1 :=
        tileDist_adjacent 1 1 2 1 a7 (by decide)
      have htd2 : tileDist 1 1 a7 ≤ tileDist 2 1 a7 + 1 :=
        tileDist_adjacent 2 1 1 1 a7 (by decide)
      have hm1 : (if ¬a7 = 7 then (1 : Nat) else 0) ≤ 1 := by split <;> omega
      have hm2 : (if ¬a7 = 4 then (1 : Nat) else 0) ≤ 1 := by split <;> omega
      simp only [hamming, manhattan, getCell, List.range_succ, List.range_zero,
        List.map_nil, List.map_append, List.map_cons, List.sum_append,
        List.sum_cons, List.sum_nil, List.nil_append, List.getD_cons_zero,
        List.getD_cons_succ, tileDist_zero, ne_eq, nz0, nz1, nz2, nz3, nz5, nz6, nz7, nz8,
        Nat.reduceMul, Nat.reduceAdd, not_false_eq_true, true_and, and_self,
        not_true_eq_false, false_and, if_false, if_true]
      omega
    · have htd1 : tileDist 1 0 a3 ≤ tileDist 1 1 a3 + 1 :=
        tileDist_adjacent 1 1 1 0 a3 (by decide)
      have htd2 : tileDist 1 1 a3 ≤ tileDist 1 0 a3 + 1 :=
        tileDist_adjacent 1 0 1 1 a3 (by decide)
      have hm1 : (if ¬a3 = 3 then (1 : Nat) else 0) ≤ 1 := by split <;> omega
      have hm2 : (if ¬a3 = 4 then (1 : Nat) else 0) ≤ 1 := by split <;> omega
      simp only [hamming, manhattan, getCell, List.range_succ, List.range_zero,
        List.map_nil, List.map_append, List.map_cons, List.sum_append,
        List.sum_cons, List.sum_nil, List.nil_append, List.getD_cons_zero,
        List.getD_cons_succ, tileDist_zero, ne_eq, nz0, nz1, nz2, nz3, nz5, nz6, nz7, nz8,
        Nat.reduceMul, Nat.reduceAdd, not_false_eq_true, true_and, and_self,
        not_true_eq_false, false_and, if_false, if_true]
      omega
    · have htd1 : tileDist 1 2 a5 ≤ tileDist 1 1 a5 + 1 :=
        tileDist_adjacent 1 1 1 2 a5 (by decide)
      have htd2 : tileDist 1 1 a5 ≤ tileDist 1 2 a5 + 1 :=
        tileDist_adjacent 1 2 1 1 a5 (by decide)
      have hm1 : (if ¬a5 = 5 then (1 : Nat) else 0) ≤ 1 := by split <;> omega
      have hm2 : (if ¬a5 = 4 then (1 : Nat) else 0) ≤ 1 := by split <;> omega
      simp only [hamming, manhattan, getCell, List.range_succ, List.range_zero,
        List.map_nil, List.map_append, List.map_cons, List.sum_append,
        List.sum_cons, List.sum_nil, List.nil_append, List.getD_cons_zero,
        List.getD_cons_succ, tileDist_zero, ne_eq, nz0, nz1, nz2, nz3, nz5, nz6, nz7, nz8,
        Nat.reduceMul, Nat.reduceAdd, not_false_eq_true, true_and, and_self,
        not_true_eq_false, false_and, if_false, if_true]
      omega
  · have nz0 : a0 ≠ 0 := d05
    have nz1 : a1 ≠ 0 := d15
    have nz2 : a2 ≠ 0 := d25
    have nz3 : a3 ≠ 0 := d35
    have nz4 : a4 ≠ 0 := d45
    have nz6 : a6 ≠ 0 := Ne.symm d56
    have nz7 : a7 ≠ 0 := Ne.symm d57
    have nz8 : a8 ≠ 0 := Ne.symm d58
    have hfb : find_blank [[a0,a1,a2],[a3,a4,0],[a6,a7,a8]] = some (1, 2) := by
      simp [find_blank, getCell, List.range_succ, nz0, nz1, nz2, nz3, nz4, nz6, nz7, nz8]
    have hgn : get_neighbors [[a0,a1,a2],[a3,a4,0],[a6,a7,a8]] = [([[a0,a1,0],[a3,a4,a2],[a6,a7,a8]], "UP"), ([[a0,a1,a2],[a3,a4,a8],[a6,a7,0]], "DOWN"), ([[a0,a1,a2],[a3,0,a4],[a6,a7,a8]], "LEFT")] := by
      simp only [get_neighbors, hfb]; rfl
    intro q hq
    rw [hgn] at hq
    simp only [List.mem_cons, List.not_mem_nil, or_false] at hq
    rcases hq with h | h | h <;> subst h
    · have htd1 : tileDist 0 2 a2 ≤ tileDist 1 2 a2 + 1 :=
        tileDist_adjacent 1 2 0 2 a2 (by decide)
      have htd2 : tileDist 1 2 a2 ≤ tileDist 0 2 a2 + 1 :=
        tileDist_adjacent 0 2 1 2 a2 (by decide)
      have hm1 : (if ¬a2 = 2 then (1 : Nat) else 0) ≤ 1 := by split <;> omega
      have hm2 : (if ¬a2 = 5 then (1 : Nat) else 0) ≤ 1 := by split <;> omega
      simp only [hamming, manhattan, getCell, List.range_succ, List.range_zero,
        List.map_nil, List.map_append, List.map_cons, List.sum_append,
        List.sum_cons, List.sum_nil, List.nil_append, List.getD_cons_zero,
        List.getD_cons_succ, tileDist_zero, ne_eq, nz0, nz1, nz2, nz3, nz4, nz6, nz7, nz8,
        Nat.reduceMul, Nat.reduceAdd, not_false_eq_true, true_and, and_self,
        not_true_eq_false, false_and, if_false, if_true]
      omega
    · have htd1 : tileDist 2 2 a8 ≤ tileDist 1 2 a8 + 1 :=
        tileDist_adjacent 1 2 2 2 a8 (by decide)
      have htd2 : tileDist 1 2 a8 ≤ tileDist 2 2 a8 + 1 :=
        tileDist_adjacent 2 2 1 2 a8 (by decide)
      have hm1 : (if ¬a8 = 8 then (1 : Nat) else 0) ≤ 1 := by split <;> omega
      have hm2 : (if ¬a8 = 5 then (1 : Nat) else 0) ≤ 1 := by split <;> omega
      simp only [hamming, manhattan, getCell, List.range_succ, List.range_zero,
        List.map_nil, List.map_append, List.map_cons, List.sum_append,
        List.sum_cons, List.sum_nil, List.nil_append, List.getD_cons_zero,
        List.getD_cons_succ, tileDist_zero, ne_eq, nz0, nz1, nz2, nz3, nz4, nz6, nz7, nz8,
        Nat.reduceMul, Nat.reduceAdd, not_false_eq_true, true_and, and_self,
        not_true_eq_false, false_and, if_false, if_true]
      omega
    · have htd1 : tileDist 1 1 a4 ≤ tileDist 1 2 a4 + 1 :=
        tileDist_adjacent 1 2 1 1 a4 (by decide)
      have htd2 : tileDist 1 2 a4 ≤ tileDist 1 1 a4 + 1 :=
        tileDist_adjacent 1 1 1 2 a4 (by decide)
      have hm1 : (if ¬a4 = 4 then (1 : Nat) else 0) ≤ 1 := by split <;> omega
      have hm2 : (if ¬a4 = 5 then (1 : Nat) else 0) ≤ 1 := by split <;> omega
      simp only [hamming, manhattan, getCell, List.range_succ, List.range_zero,
        List.map_nil, List.map_append, List.map_cons, List.sum_append,
        List.sum_cons, List.sum_nil, List.nil_append, List.getD_cons_zero,
        List.getD_cons_succ, tileDist_zero, ne_eq, nz0, nz1, nz2, nz3, nz4, nz6, nz7, nz8,
        Nat.reduceMul, Nat.reduceAdd, not_false_eq_true, true_and, and_self,
        not_true_eq_false, false_and, if_false, if_true]
      omega
  · have nz0 : a0 ≠ 0 := d06
    have nz1 : a1 ≠ 0 := d16
    have nz2 : a2 ≠ 0 := d26
    have nz3 : a3 ≠ 0 := d36
    have nz4 : a4 ≠ 0 := d46
    have nz5 : a5 ≠ 0 := d56
    have nz7 : a7 ≠ 0 := Ne.symm d67
    have nz8 : a8 ≠ 0 := Ne.symm d68
    have hfb : find_blank [[a0,a1,a2],[a3,a4,a5],[0,a7,a8]] = some (2, 0) := by
      simp [find_blank, getCell, List.range_succ, nz0, nz1, nz2, nz3, nz4, nz5, nz7, nz8]
    have hgn : get_neighbors [[a0,a1,a2],[a3,a4,a5],[0,a7,a8]] = [([[a0,a1,a2],[0,a4,a5],[a3,a7,a8]], "UP"), ([[a0,a1,a2],[a3,a4,a5],[a7,0,a8]], "RIGHT")] := by
      simp only [get_neighbors, hfb]; rfl
    intro q hq
    rw [hgn] at hq
    simp only [List.mem_cons, List.not_mem_nil, or_false] at hq
    rcases hq with h | h <;> subst h
    · have htd1 : tileDist 1 0 a3 ≤ tileDist 2 0 a3 + 1 :=
        tileDist_adjacent 2 0 1 0 a3 (by decide)
      have htd2 : tileDist 2 0 a3 ≤ tileDist 1 0 a3 + 1 :=
        tileDist_adjacent 1 0 2 0 a3 (by decide)
      have hm1 : (if ¬a3 = 3 then (1 : Nat) else 0) ≤ 1 := by split <;> omega
      have hm2 : (if ¬a3 = 6 then (1 : Nat) else 0) ≤ 1 := by split <;> omega
      simp only [hamming, manhattan, getCell, List.range_succ, List.range_zero,
        List.map_nil, List.map_append, List.map_cons, List.sum_append,
        List.sum_cons, List.sum_nil, List.nil_append, List.getD_cons_zero,
        List.getD_cons_succ, tileDist_zero, ne_eq, nz0, nz1, nz2, nz3, nz4, nz5, nz7, nz8,
        Nat.reduceMul, Nat.reduceAdd, not_false_eq_true, true_and, and_self,
        not_true_eq_false, false_and, if_false, if_true]
      omega
    · have htd1 : tileDist 2 1 a7 ≤ tileDist 2 0 a7 + 1 :=
        tileDist_adjacent 2 0 2 1 a7 (by decide)
      have htd2 : tileDist 2 0 a7 ≤ tileDist 2 1 a7 + 1 :=
        tileDist_adjacent 2 1 2 0 a7 (by decide)
      have hm1 : (if ¬a7 = 7 then (1 : Nat) else 0) ≤ 1 := by split <;> omega
      have hm2 : (if ¬a7 = 6 then (1 : Nat) else 0) ≤ 1 := by split <;> omega
      simp only [hamming, manhattan, getCell, List.range_succ, List.range_zero,
        List.map_nil, List.map_append, List.map_cons, List.sum_append,
        List.sum_cons, List.sum_nil, List.nil_append, List.getD_cons_zero,
        List.getD_cons_succ, tileDist_zero, ne_eq, nz0, nz1, nz2, nz3, nz4, nz5, nz7, nz8,
        Nat.reduceMul, Nat.reduceAdd, not_false_eq_true, true_and, and_self,
        not_true_eq_false, false_and, if_false, if_true]
      omega
  · have nz0 : a0 ≠ 0 := d07
    have nz1 : a1 ≠ 0 := d17
    have nz2 : a2 ≠ 0 := d27
    have nz3 : a3 ≠ 0 := d37
    have nz4 : a4 ≠ 0 := d47
    have nz5 : a5 ≠ 0 := d57
    have nz6 : a6 ≠ 0 := d67
    have nz8 : a8 ≠ 0 := Ne.symm d78
    have hfb : find_blank [[a0,a1,a2],[a3,a4,a5],[a6,0,a8]] = some (2, 1) := by
      simp [find_blank, getCell, List.range_succ, nz0, nz1, nz2, nz3, nz4, nz5, nz6, nz8]
    have hgn : get_neighbors [[a0,a1,a2],[a3,a4,a5],[a6,0,a8]] = [([[a0,a1,a2],[a3,0,a5],[a6,a4,a8]], "UP"), ([[a0,a1,a2],[a3,a4,a5],[0,a6,a8]], "LEFT"), ([[a0,a1,a2],[a3,a4,a5],[a6,a8,0]], "RIGHT")] := by
      simp only [get_neighbors, hfb]; rfl
    intro q hq
    rw [hgn] at hq
    simp only [List.mem_cons, List.not_mem_nil, or_false] at hq
    rcases hq with h | h | h <;> subst h
    · have htd1 : tileDist 1 1 a4 ≤ tileDist 2 1 a4 + 1 :=
        tileDist_adjacent 2 1 1 1 a4 (by decide)
      have htd2 : tileDist 2 1 a4 ≤ tileDist 1 1 a4 + 1 :=
        tileDist_adjacent 1 1 2 1 a4 (by decide)
      have hm1 : (if ¬a4 = 4 then (1 : Nat) else 0) ≤ 1 := by split <;> omega
      have hm2 : (if ¬a4 = 7 then (1 : Nat) else 0) ≤ 1 := by split <;> omega
      simp only [hamming, manhattan, getCell, List.range_succ, List.range_zero,
        List.map_nil, List.map_append, List.map_cons, List.sum_append,
        List.sum_cons, List.sum_nil, List.nil_append, List.getD_cons_zero,
        List.getD_cons_succ, tileDist_zero, ne_eq, nz0, nz1, nz2, nz3, nz4, nz5, nz6, nz8,
        Nat.reduceMul, Nat.reduceAdd, not_false_eq_true, true_and, and_self,
        not_true_eq_false, false_and, if_false, if_true]
      omega
    · have htd1 : tileDist 2 0 a6 ≤ tileDist 2 1 a6 + 1 :=
        tileDist_adjacent 2 1 2 0 a6 (by decide)
      have htd2 : tileDist 2 1 a6 ≤ tileDist 2 0 a6 + 1 :=
        tileDist_adjacent 2 0 2 1 a6 (by decide)
      have hm1 : (if ¬a6 = 6 then (1 : Nat) else 0) ≤ 1 := by split <;> omega
      have hm2 : (if ¬a6 = 7 then (1 : Nat) else 0) ≤ 1 := by split <;> omega
      simp only [hamming, manhattan, getCell, List.range_succ, List.range_zero,
        List.map_nil, List.map_append, List.map_cons, List.sum_append,
        List.sum_cons, List.sum_nil, List.nil_append, List.getD_cons_zero,
        List.getD_cons_succ, tileDist_zero, ne_eq, nz0, nz1, nz2, nz3, nz4, nz5, nz6, nz8,
        Nat.reduceMul, Nat.reduceAdd, not_false_eq_true, true_and, and_self,
        not_true_eq_false, false_and, if_false, if_true]
      omega
    · have htd1 : tileDist 2 2 a8 ≤ tileDist 2 1 a8 + 1 :=
        tileDist_adjacent 2 1 2 2 a8 (by decide)
      have htd2 : tileDist 2 1 a8 ≤ tileDist 2 2 a8 + 1 :=
        tileDist_adjacent 2 2 2 1 a8 (by decide)
      have hm1 : (if ¬a8 = 8 then (1 : Nat) else 0) ≤ 1 := by split <;> omega
      have hm2 : (if ¬a8 = 7 then (1 : Nat) else 0) ≤ 1 := by split <;> omega
      simp only [hamming, manhattan, getCell, List.range_succ, List.range_zero,
        List.map_nil, List.map_append, List.map_cons, List.sum_append,
        List.sum_cons, List.sum_nil, List.nil_append, List.getD_cons_zero,
        List.getD_cons_succ, tileDist_zero, ne_eq, nz0, nz1, nz2, nz3, nz4, nz5, nz6, nz8,
        Nat.reduceMul, Nat.reduceAdd, not_false_eq_true, true_and, and_self,
        not_true_eq_false, false_and, if_false, if_true]
      omega
  · have nz0 : a0 ≠ 0 := d08
    have nz1 : a1 ≠ 0 := d18
    have nz2 : a2 ≠ 0 := d28
    have nz3 : a3 ≠ 0 := d38
    have nz4 : a4 ≠ 0 := d48
    have nz5 : a5 ≠ 0 := d58
    have nz6 : a6 ≠ 0 := d68
    have nz7 : a7 ≠ 0 := d78
    have hfb : find_blank [[a0,a1,a2],[a3,a4,a5],[a6,a7,0]] = some (2, 2) := by
      simp [find_blank, getCell, List.range_succ, nz0, nz1, nz2, nz3, nz4, nz5, nz6, nz7]
    have hgn : get_neighbors [[a0,a1,a2],[a3,a4,a5],[a6,a7,0]] = [([[a0,a1,a2],[a3,a4,0],[a6,a7,a5]], "UP"), ([[a0,a1,a2],[a3,a4,a5],[a6,0,a7]], "LEFT")] := by
      simp only [get_neighbors, hfb]; rfl
    intro q hq
    rw [hgn] at hq
    simp only [List.mem_cons, List.not_mem_nil, or_false] at hq
    rcases hq with h | h <;> subst h
    · have htd1 : tileDist 1 2 a5 ≤ tileDist 2 2 a5 + 1 :=
        tileDist_adjacent 2 2 1 2 a5 (by decide)
      have htd2 : tileDist 2 2 a5 ≤ tileDist 1 2 a5 + 1 :=
        tileDist_adjacent 1 2 2 2 a5 (by decide)
      have hm1 : (if ¬a5 = 5 then (1 : Nat) else 0) ≤ 1 := by split <;> omega
      have hm2 : (if ¬a5 = 8 then (1 : Nat) else 0) ≤ 1 := by split <;> omega
      simp only [hamming, manhattan, getCell, List.range_succ, List.range_zero,
        List.map_nil, List.map_append, List.map_cons, List.sum_append,
        List.sum_cons, List.sum_nil, List.nil_append, List.getD_cons_zero,
        List.getD_cons_succ, tileDist_zero, ne_eq, nz0, nz1, nz2, nz3, nz4, nz5, nz6, nz7,
        Nat.reduceMul, Nat.reduceAdd, not_false_eq_true, true_and, and_self,
        not_true_eq_false, false_and, if_false, if_true]
      omega
    · have htd1 : tileDist 2 1 a7 ≤ tileDist 2 2 a7 + 1 :=
        tileDist_adjacent 2 2 2 1 a7 (by decide)
      have htd2 : tileDist 2 2 a7 ≤ tileDist 2 1 a7 + 1 :=
        tileDist_adjacent 2 1 2 2 a7 (by decide)
      have hm1 : (if ¬a7 = 7 then (1 : Nat) else 0) ≤ 1 := by split <;> omega
      have hm2 : (if ¬a7 = 8 then (1 : Nat) else 0) ≤ 1 := by split <;> omega
      simp only [hamming, manhattan, getCell, List.range_succ, List.range_zero,
        List.map_nil, List.map_append, List.map_cons, List.sum_append,
        List.sum_cons, List.sum_nil, List.nil_append, List.getD_cons_zero,
        List.getD_cons_succ, tileDist_zero, ne_eq, nz0, nz1, nz2, nz3, nz4, nz5, nz6, nz7,
        Nat.reduceMul, Nat.reduceAdd, not_false_eq_true, true_and, and_self,
        not_true_eq_false, false_and, if_false, if_true]
      omega

theorem lookupBC_insertBC_le {bc : List (Board × Nat)} {s : Board} {v : Nat}
    (h : lookupBC bc s = some v) (b : Board) (w : Nat) (hw : b = s → w ≤ v) :
    ∃ v2, v2 ≤ v ∧ lookupBC (insertBC bc b w) s = some v2 := by
  unfold insertBC lookupBC
  by_cases hbs : b = s
  · rw [if_pos hbs]
    exact ⟨w, hw hbs, rfl⟩
  · rw [if_neg hbs]
    exact ⟨v, Nat.le_refl _, h⟩

theorem expandFold_lookup_le (hf : Board → Nat) (cur : Node) (E : List Board) :
    ∀ (rest : List (Board × String)) (F : List Node) (B : List (Board × Nat))
      (s : Board) (v : Nat), lookupBC B s = some v →
      ∃ v2, v2 ≤ v ∧ lookupBC (expandFold hf cur E rest (F, B)).2 s = some v2 := by
  intro rest
  induction rest with
  | nil => intro F B s v h; exact ⟨v, Nat.le_refl _, h⟩
  | cons q rest ih =>
    obtain ⟨n, m⟩ := q
    intro F B s v h
    rw [expandFold]
    by_cases h1 : n ∈ E
    · rw [if_pos h1]; exact ih F B s v h
    · rw [if_neg h1]
      by_cases h2 : dominatedBC B n (cur.g + 1) = true
      · rw [if_pos h2]; exact ih F B s v h
      · rw [if_neg h2]
        have hlt : n = s → cur.g + 1 ≤ v := by
          intro hns
          subst hns
          unfold dominatedBC at h2
          rw [h] at h2
          simp only [decide_eq_true_eq] at h2
          omega
        obtain ⟨v1, hv1, hl1⟩ := lookupBC_insertBC_le h n (cur.g + 1) hlt
        obtain ⟨v2, hv2, hl2⟩ := ih _ _ s v1 hl1
        exact ⟨v2, Nat.le_trans hv2 hv1, hl2⟩

theorem expandFold_nbr_cover_val (hf : Board → Nat) (cur : Node) (E : List Board) :
    ∀ (rest : List (Board × String)) (F : List Node) (B : List (Board × Nat)),
      ∀ p ∈ rest, p.1 ∈ E ∨ ∃ v, v ≤ cur.g + 1 ∧
        lookupBC (expandFold hf cur E rest (F, B)).2 p.1 = some v := by
  intro rest
  induction rest with
  | nil => intro F B p hp; exact absurd hp (List.not_mem_nil p)
  | cons q rest ih =>
    obtain ⟨n, m⟩ := q
    intro F B p hp
    rw [expandFold]
    rcases List.mem_cons.mp hp with hEq | hmem
    · subst hEq
      by_cases h1 : n ∈ E
      · exact Or.inl h1
      · rw [if_neg h1]
        by_cases h2 : dominatedBC B n (cur.g + 1) = true
        · rw [if_pos h2]
          unfold dominatedBC at h2
          cases hl : lookupBC B n with
          | none => rw [hl] at h2; exact absurd h2 (by simp)
          | some v =>
            rw [hl] at h2
            simp only [decide_eq_true_eq] at h2
            obtain ⟨v2, hv2, hl2⟩ := expandFold_lookup_le hf cur E rest F B n v hl
            exact Or.inr ⟨v2, by omega, hl2⟩
        · rw [if_neg h2]
          have hself : lookupBC (insertBC B n (cur.g + 1)) n = some (cur.g + 1) := by
            unfold insertBC lookupBC
            rw [if_pos rfl]
          obtain ⟨v2, hv2, hl2⟩ := expandFold_lookup_le hf cur E rest _ _ n
            (cur.g + 1) hself
          exact Or.inr ⟨v2, hv2, hl2⟩
    · by_cases h1 : n ∈ E
      · rw [if_pos h1]; exact ih F B p hmem
      · rw [if_neg h1]
        by_cases h2 : dominatedBC B n (cur.g + 1) = true
        · rw [if_pos h2]; exact ih F B p hmem
        · rw [if_neg h2]; exact ih _ _ p hmem

theorem expandFold_cover_val (hf : Board → Nat) (cur : Node) (E : List Board) :
    ∀ (rest : List (Board × String)) (F : List Node) (B : List (Board × Nat)),
      (∀ s v, lookupBC B s = some v →
        s ∈ E ∨ ∃ nd ∈ F, Node.state nd = s ∧ Node.g nd ≤ v) →
      ∀ s v, lookupBC (expandFold hf cur E rest (F, B)).2 s = some v →
        s ∈ E ∨ ∃ nd ∈ (expandFold hf cur E rest (F, B)).1,
          Node.state nd = s ∧ Node.g nd ≤ v := by
  intro rest
  induction rest with
  | nil => intro F B hcov s v h; exact hcov s v h
  | cons q rest ih =>
    obtain ⟨n, m⟩ := q
    intro F B hcov s v h
    rw [expandFold] at h ⊢
    by_cases h1 : n ∈ E
    · rw [if_pos h1] at h ⊢; exact ih F B hcov s v h
    · rw [if_neg h1] at h ⊢
      by_cases h2 : dominatedBC B n (cur.g + 1) = true
      · rw [if_pos h2] at h ⊢; exact ih F B hcov s v h
      · rw [if_neg h2] at h ⊢
        refine ih _ _ ?_ s v h
        intro t w ht
        unfold insertBC lookupBC at ht
        by_cases hnt : n = t
        · rw [if_pos hnt] at ht
          right
          refine ⟨mkChild n cur m (cur.g + 1) (hf n), item_mem_heappush _ _, ?_, ?_⟩
          · rw [← hnt]; rfl
          · have : w = cur.g + 1 := (Option.some_inj.mp ht).symm
            rw [this]
            exact Nat.le_refl _
        · rw [if_neg hnt] at ht
          rcases hcov t w ht with hE | ⟨nd, hndF, hnds, hndg⟩
          · exact Or.inl hE
          · exact Or.inr ⟨nd, mem_heappush_of_mem hndF _, hnds, hndg⟩

set_option maxHeartbeats 1600000 in
theorem astarLoop_opt (hf : Board → Nat)
    (hcons : ∀ s, Valid s → ∀ q ∈ get_neighbors s, hf s ≤ hf q.1 + 1)
    (t1 t2 : Int) (start : Board) (hvs : Valid start) :
    ∀ (fuel : Nat) (frontier : List Node) (explored : List Board)
      (bc : List (Board × Nat)) (ne : Nat) (path : List String) (rn : Nat)
      (rt : Int),
      (∀ nd ∈ frontier, Valid nd.state ∧ NodeOK start nd ∧
        Node.g nd = (collectMoves nd).length ∧
        Node.f nd = Node.g nd + hf nd.state) →
      HeapInv frontier →
      (∀ s ∈ explored, ∀ p ∈ get_neighbors s, p.1 ∈ explored ∨
        ∃ v, lookupBC bc p.1 = some v ∧ ∀ k, ReachN start s k → v ≤ k + 1) →
      (∀ s v, lookupBC bc s = some v → s ∈ explored ∨
        ∃ nd ∈ frontier, Node.state nd = s ∧ Node.g nd ≤ v) →
      lookupBC bc start = some 0 →
      astarLoop hf t1 t2 fuel frontier explored bc ne =
        some (some (path, rn, rt)) →
      applyMoves start path = some GOAL ∧
        ∀ k, ReachN start GOAL k → path.length ≤ k := by
  intro fuel
  induction fuel with
  | zero =>
    intro frontier explored bc ne path rn rt _ _ _ _ _ hres
    exact absurd hres (by simp [astarLoop])
  | succ m ih =>
    intro frontier explored bc ne path rn rt hN hH hE hB hS0 hres
    rw [astarLoop] at hres
    cases hpop : heappop frontier with
    | none => rw [hpop] at hres; exact absurd hres (by simp)
    | some cf =>
      obtain ⟨current, frontier2⟩ := cf
      rw [hpop] at hres
      dsimp only at hres
      obtain ⟨hcm, hsub⟩ := mem_heappop _ _ _ hpop
      by_cases hmem : current.state ∈ explored
      · rw [if_pos hmem] at hres
        refine ih frontier2 explored bc ne path rn rt
          (fun nd hnd => hN nd (hsub nd hnd)) (heappop_heapInv hH hpop) hE
          ?_ hS0 hres
        intro s v hl
        rcases hB s v hl with h | ⟨nd, hnd, hnds, hndg⟩
        · exact Or.inl h
        · rcases List.mem_cons.mp ((perm_heappop hpop).mem_iff.mp hnd) with
            hEq | hnd2
          · subst hEq
            rw [← hnds]
            exact Or.inl hmem
          · exact Or.inr ⟨nd, hnd2, hnds, hndg⟩
      · rw [if_neg hmem] at hres
        obtain ⟨hcv, hcok, hcg, hcf⟩ := hN current hcm
        have walk : ∀ (ms : List String) (z : Board),
            applyMoves start ms = some z → z ∈ explored ∨
              ∃ nd ∈ frontier,
                Node.g nd + hf (Node.state nd) ≤ ms.length + hf z := by
          intro ms
          induction ms using List.reverseRecOn with
          | nil =>
            intro z hz
            have hzs : start = z := by simpa [applyMoves] using hz
            subst hzs
            rcases hB start 0 hS0 with h | ⟨nd, hnd, hnds, hndg⟩
            · exact Or.inl h
            · refine Or.inr ⟨nd, hnd, ?_⟩
              rw [hnds]
              simp only [List.length_nil]
              omega
          | append_singleton ms mv ihw =>
            intro z hz
            rw [applyMoves_append] at hz
            cases hy : applyMoves start ms with
            | none => rw [hy] at hz; exact absurd hz (by simp)
            | some y =>
              rw [hy] at hz
              simp only [Option.some_bind] at hz
              have hedge : (z, mv) ∈ get_neighbors y := by
                apply applyMove_mem
                simpa [applyMoves] using hz
              have hvy : Valid y :=
                reaches_valid hvs (applyMoves_reaches ms start y hy)
              rcases ihw y hy with hyX | ⟨nd, hndF, hndb⟩
              · rcases hE y hyX (z, mv) hedge with hzX | ⟨v, hlv, hbound⟩
                · exact Or.inl hzX
                · have hvb : v ≤ ms.length + 1 :=
                    hbound ms.length ⟨ms, rfl, hy⟩
                  rcases hB z v hlv with hzX | ⟨nd, hndF, hnds, hndg⟩
                  · exact Or.inl hzX
                  · refine Or.inr ⟨nd, hndF, ?_⟩
                    rw [hnds]
                    simp only [List.length_append, List.length_singleton]
                    omega
              · refine Or.inr ⟨nd, hndF, ?_⟩
                have hcons1 : hf y ≤ hf z + 1 := hcons y hvy (z, mv) hedge
                simp only [List.length_append, List.length_singleton]
                omega
        have poplb : ∀ k, ReachN start current.state k → current.g ≤ k := by
          intro k hk
          obtain ⟨ms, hmsl, hms⟩ := hk
          rcases walk ms current.state hms with hX | ⟨nd, hndF, hb⟩
          · exact absurd hX hmem
          · have hmin := heappop_min hH hpop nd hndF
            obtain ⟨-, -, -, hndf⟩ := hN nd hndF
            omega
        by_cases hgoal : current.state = GOAL
        · rw [if_pos hgoal] at hres
          simp only [Option.some_inj, Prod.mk.injEq] at hres
          obtain ⟨hpath, hrn, hrt⟩ := hres
          subst hpath
          constructor
          · rw [← hgoal]
            exact NodeOK.applyMoves_eq start current hcok
          · intro k hk
            have hle : current.g ≤ k := poplb k (by rw [hgoal]; exact hk)
            rw [List.length_reverse, ← hcg]
            exact hle
        · rw [if_neg hgoal] at hres
          refine ih _ _ _ _ path rn rt ?_ ?_ ?_ ?_ ?_ hres
          · refine expandFold_inv _ hf current _ _ frontier2 bc
              (fun nd hnd => hN nd (hsub nd hnd)) ?_
            intro q hq
            obtain ⟨hqv, hqmv⟩ := neighbors_sound current.state hcv q hq
            refine ⟨hqv, ⟨hcok, hqmv⟩, ?_, rfl⟩
            show current.g + 1 = (q.2 :: collectMoves current).length
            rw [List.length_cons, hcg]
          · exact expandFold_heapInv hf current _ _ frontier2 bc
              (heappop_heapInv hH hpop)
          · intro s hs p hp
            rcases List.mem_append.mp hs with hso | hsc
            · rcases hE s hso p hp with h | ⟨v, hlv, hbnd⟩
              · exact Or.inl (List.mem_append_left _ h)
              · obtain ⟨v2, hv2, hl2⟩ :=
                  expandFold_lookup_le hf current _ _ frontier2 bc p.1 v hlv
                exact Or.inr ⟨v2, hl2, fun k hk => Nat.le_trans hv2 (hbnd k hk)⟩
            · rw [List.mem_singleton] at hsc
              subst hsc
              rcases expandFold_nbr_cover_val hf current
                  (explored ++ [current.state]) (get_neighbors current.state)
                  frontier2 bc p hp with h | ⟨v, hv, hl⟩
              · exact Or.inl h
              · exact Or.inr ⟨v, hl, fun k hk =>
                  Nat.le_trans hv (Nat.add_le_add_right (poplb k hk) 1)⟩
          · refine expandFold_cover_val hf current _ _ frontier2 bc ?_
            intro s v hl
            rcases hB s v hl with h | ⟨nd, hnd, hnds, hndg⟩
            · exact Or.inl (List.mem_append_left _ h)
            · rcases List.mem_cons.mp ((perm_heappop hpop).mem_iff.mp hnd) with
                hEq | hnd2
              · subst hEq
                rw [← hnds]
                exact Or.inl (List.mem_append_right _ (List.mem_singleton.mpr rfl))
              · exact Or.inr ⟨nd, hnd2, hnds, hndg⟩
          · obtain ⟨v2, hv2, hl2⟩ :=
              expandFold_lookup_le hf current _ _ frontier2 bc start 0 hS0
            have hv0 : v2 = 0 := by omega
            rw [← hv0]
            exact hl2

theorem hamming_GOAL : hamming GOAL = 0 := by decide

theorem manhattan_GOAL : manhattan GOAL = 0 := by decide

set_option maxHeartbeats 1600000 in
/-- C1: on every solvable well-formed board, `solve` with each of the two
heuristic names returns a path of minimal length among all legal move
sequences from the board to the goal; in particular the hamming path and
the manhattan path have equal length. -/
theorem solve_optimal (b : Board) (hv : Valid b) (hs : is_solvable b = true)
    (t1 t2 u1 u2 : Int) :
    ∃ (ph pm : List String) (nh nm : Nat) (eh em : Int),
      solve b "hamming" t1 t2 = some (ph, nh, eh) ∧
      solve b "manhattan" u1 u2 = some (pm, nm, em) ∧
      applyMoves b ph = some GOAL ∧
      (∀ ms, applyMoves b ms = some GOAL → ph.length ≤ ms.length) ∧
      applyMoves b pm = some GOAL ∧
      (∀ ms, applyMoves b ms = some GOAL → pm.length ≤ ms.length) ∧
      ph.length = pm.length := by
  have hnf : ¬ is_solvable b = false := by simp [hs]
  by_cases hg : b = GOAL
  · refine ⟨[], [], 0, 0, 0, 0, ?_, ?_, ?_, ?_, ?_, ?_, rfl⟩
    · unfold solve; rw [if_neg hnf, if_pos hg]
    · unfold solve; rw [if_neg hnf, if_pos hg]
    · rw [hg]; rfl
    · intro ms _; exact Nat.zero_le _
    · rw [hg]; rfl
    · intro ms _; exact Nat.zero_le _
  · have main : ∀ (hn : String) (v1 v2 : Int),
        ∃ (p : List String) (n : Nat) (e : Int),
          solve b hn v1 v2 = some (p, n, e) ∧
          applyMoves b p = some GOAL ∧
          ∀ ms, applyMoves b ms = some GOAL → p.length ≤ ms.length := by
      intro hn v1 v2
      have hcons : ∀ s, Valid s → ∀ q ∈ get_neighbors s,
          (if hn = "manhattan" then manhattan else hamming) s ≤
            (if hn = "manhattan" then manhattan else hamming) q.1 + 1 := by
        intro s hvx q hq
        obtain ⟨⟨hh1, hh2⟩, hm1, hm2⟩ := heuristic_consistent s hvx q hq
        split
        · exact hm1
        · exact hh1
      obtain ⟨r, hr⟩ := astarLoop_completes
        (if hn = "manhattan" then manhattan else hamming) v1 v2 SOLVE_FUEL
        [mkRoot b 0 ((if hn = "manhattan" then manhattan else hamming) b)]
        [] [(b, 0)] 0
        (by
          intro nd hnd
          rw [List.mem_singleton] at hnd
          subst hnd
          exact hv)
        List.nodup_nil
        (by intro e he; exact absurd he (List.not_mem_nil e))
        (by norm_num [SOLVE_FUEL, Nat.factorial])
      have hnn : astarLoop (if hn = "manhattan" then manhattan else hamming)
          v1 v2 SOLVE_FUEL
          [mkRoot b 0 ((if hn = "manhattan" then manhattan else hamming) b)]
          [] [(b, 0)] 0 ≠ some none := by
        refine astarLoop_no_exhaust _ v1 v2 b (solvable_reaches_goal b hv hs)
          SOLVE_FUEL _ _ _ _ (List.not_mem_nil _)
          (by intro e he; exact absurd he (List.not_mem_nil e)) ?_ ?_
        · intro s hs'
          by_cases hbs : b = s
          · exact Or.inr ⟨mkRoot b 0
              ((if hn = "manhattan" then manhattan else hamming) b),
              List.mem_singleton.mpr rfl, hbs⟩
          · exfalso
            unfold lookupBC at hs'
            rw [if_neg hbs] at hs'
            exact absurd hs' (by simp [lookupBC])
        · unfold lookupBC
          rw [if_pos rfl]
          rfl
      cases r with
      | none => exact absurd hr hnn
      | some x =>
        obtain ⟨p, n, e⟩ := x
        have hsolve : solve b hn v1 v2 = some (p, n, e) := by
          unfold solve
          rw [if_neg hnf, if_neg hg]
          dsimp only
          rw [hr]
        have hopt := astarLoop_opt
          (if hn = "manhattan" then manhattan else hamming) hcons v1 v2 b hv
          SOLVE_FUEL
          [mkRoot b 0 ((if hn = "manhattan" then manhattan else hamming) b)]
          [] [(b, 0)] 0 p n e
          (by
            intro nd hnd
            rw [List.mem_singleton] at hnd
            subst hnd
            exact ⟨hv, rfl, rfl, rfl⟩)
          (by
            intro j hj hjlen
            simp only [List.length_singleton] at hjlen
            omega)
          (by intro s hsx; exact absurd hsx (List.not_mem_nil s))
          (by
            intro s v hl
            unfold lookupBC at hl
            by_cases hbs : b = s
            · rw [if_pos hbs] at hl
              refine Or.inr ⟨mkRoot b 0
                ((if hn = "manhattan" then manhattan else hamming) b),
                List.mem_singleton.mpr rfl, hbs, ?_⟩
              exact Nat.zero_le _
            · rw [if_neg hbs] at hl
              exact absurd hl (by simp [lookupBC]))
          (by unfold lookupBC; rw [if_pos rfl])
          hr
        exact ⟨p, n, e, hsolve, hopt.1,
          fun ms hms => hopt.2 ms.length ⟨ms, rfl, hms⟩⟩
    obtain ⟨ph, nh, eh, hsh, hrh, hoh⟩ := main "hamming" t1 t2
    obtain ⟨pm, nm, em, hsm, hrm, hom⟩ := main "manhattan" u1 u2
    exact ⟨ph, pm, nh, nm, eh, em, hsh, hsm, hrh, hoh, hrm, hom,
      Nat.le_antisymm (hoh pm hrm) (hom ph hrh)⟩

theorem solve_optimal_witness :
    Valid [[1, 0, 2], [3, 4, 5], [6, 7, 8]] ∧
      is_solvable [[1, 0, 2], [3, 4, 5], [6, 7, 8]] = true ∧
      ∃ (ph pm : List String) (nh nm : Nat) (eh em : Int),
        solve [[1, 0, 2], [3, 4, 5], [6, 7, 8]] "hamming" 0 1 =
          some (ph, nh, eh) ∧
        solve [[1, 0, 2], [3, 4, 5], [6, 7, 8]] "manhattan" 2 3 =
          some (pm, nm, em) ∧
        applyMoves [[1, 0, 2], [3, 4, 5], [6, 7, 8]] ph = some GOAL ∧
        (∀ ms, applyMoves [[1, 0, 2], [3, 4, 5], [6, 7, 8]] ms = some GOAL →
          ph.length ≤ ms.length) ∧
        applyMoves [[1, 0, 2], [3, 4, 5], [6, 7, 8]] pm = some GOAL ∧
        (∀ ms, applyMoves [[1, 0, 2], [3, 4, 5], [6, 7, 8]] ms = some GOAL →
          pm.length ≤ ms.length) ∧
        ph.length = pm.length :=
  ⟨by decide, by decide,
    solve_optimal [[1, 0, 2], [3, 4, 5], [6, 7, 8]] (by decide) (by decide)
      0 1 2 3⟩

end EightPuzzle
